import Mathlib

/-!
# EmbedRTOS: bootloader and OTA manager over the simulated flash, kernel, protocol

Shallow embedding of `src/ota/bootloader.{h,c}`, `src/ota/ota_manager.{h,c}`,
`src/kernel/queue.{h,c}`, `src/kernel/semaphore.{h,c}`,
`src/kernel/scheduler.{h,c}` and `src/protocols/comm_protocol.{h,c}`.

Conventions of the embedding
* `uint32_t` values are natural numbers; every operation that can wrap is
  reduced modulo `2 ^ 32` explicitly.
* `uint8_t` values are `Fin 256`.
* The global array `flash_memory[FLASH_TOTAL_SIZE]` is a function from
  indices to bytes; only the indices below `FLASH_TOTAL_SIZE` are the array.
  A C access that would touch an index outside the array has no defined
  result: the embedded function returns `none` there. So does a function at
  an unsigned division by zero.
* The global singletons (`flash_memory`, `bootloader_ctx`, `ota_ctx`, the
  three update counters and the validation callback) are passed explicitly.
* `printf` output and the progress/status callbacks (which return nothing to
  the caller) are not modelled; `time(NULL)` is a parameter `now`.
-/

namespace EmbedRTOS

/-! ## Constants of `bootloader.h` -/

/-- Macro `BOOTLOADER_SIZE`, defined as `0x4000`. -/
def BOOTLOADER_SIZE : Nat := 0x4000
/-- Macro `APP_SLOT_A_ADDRESS`, defined as `0x08004000`. -/
def APP_SLOT_A_ADDRESS : Nat := 0x08004000
/-- Macro `APP_SLOT_B_ADDRESS`, defined as `0x08020000`. -/
def APP_SLOT_B_ADDRESS : Nat := 0x08020000
/-- Macro `FLASH_PAGE_SIZE`, defined as `0x800`. -/
def FLASH_PAGE_SIZE : Nat := 0x800
/-- Macro `FLASH_TOTAL_SIZE`, defined as `0x100000`. -/
def FLASH_TOTAL_SIZE : Nat := 0x100000
/-- Macro `FIRMWARE_MAGIC`, defined as `0xDEADBEEF`. -/
def FIRMWARE_MAGIC : Nat := 0xDEADBEEF
/-- Macro `FIRMWARE_VERSION_LEN`, defined as `16`. -/
def FIRMWARE_VERSION_LEN : Nat := 16

/-- Modulus of `uint32_t` arithmetic. -/
def U32_MOD : Nat := 2 ^ 32

/-- A `uint8_t`. -/
abbrev Byte := Fin 256

/-- Conversion of an integer value to `uint8_t` (keeps the low eight bits). -/
def toByte (x : Nat) : Byte := ⟨x % 256, Nat.mod_lt x (by decide)⟩

/-- The array `static uint8_t flash_memory[FLASH_TOTAL_SIZE]`. -/
abbrev Flash := Nat → Byte

/-- The call `memset(&flash[start], v, n)`. -/
def memset (f : Flash) (start : Nat) (v : Byte) (n : Nat) : Flash :=
  fun i => if start ≤ i ∧ i < start + n then v else f i

/-- The call `memcpy(&flash[start], src, sizeof src)` for a byte list `src`. -/
def memcpy_to_flash (f : Flash) (start : Nat) (src : List Byte) : Flash :=
  fun i => if start ≤ i ∧ i < start + src.length then src.getD (i - start) (f i) else f i

/-- The `n` bytes `flash[start], ..., flash[start + n - 1]`. -/
def flash_slice (f : Flash) (start n : Nat) : List Byte :=
  (List.range n).map (fun i => f (start + i))

/-- Reading `n` bytes at `&flash_memory[start]`: defined only when no byte
read lies outside the array. -/
def flash_read_bytes (f : Flash) (start n : Nat) : Option (List Byte) :=
  if n = 0 ∨ start + n ≤ FLASH_TOTAL_SIZE then some (flash_slice f start n) else none

/-- The value of four bytes stored least significant byte first. -/
def le32 (b0 b1 b2 b3 : Byte) : Nat :=
  b0.val + 256 * b1.val + 65536 * b2.val + 16777216 * b3.val

/-- The little-endian 32-bit word stored at `flash[a .. a+3]`. -/
def flash_le32 (f : Flash) (a : Nat) : Nat :=
  le32 (f a) (f (a + 1)) (f (a + 2)) (f (a + 3))

/-! ## `bootloader_error_t`, `bootloader_state_t` -/

/-- The enum `bootloader_error_t`. -/
inductive bootloader_error_t
  | BOOT_OK
  | BOOT_ERROR_NO_APP
  | BOOT_ERROR_CRC_MISMATCH
  | BOOT_ERROR_MAGIC_MISMATCH
  | BOOT_ERROR_FLASH_WRITE
  | BOOT_ERROR_FLASH_ERASE
  | BOOT_ERROR_INVALID_SIZE
  | BOOT_ERROR_UPDATE_IN_PROGRESS
  | BOOT_ERROR_ROLLBACK_FAILED
  deriving DecidableEq, Repr

/-- The enum `bootloader_state_t`. -/
inductive bootloader_state_t
  | BOOT_STATE_INIT
  | BOOT_STATE_CHECK_UPDATE
  | BOOT_STATE_VALIDATE_APP
  | BOOT_STATE_JUMP_TO_APP
  | BOOT_STATE_UPDATE_IN_PROGRESS
  | BOOT_STATE_ERROR
  deriving DecidableEq, Repr

open bootloader_error_t bootloader_state_t

/-! ## `firmware_header_t` and its layout in memory -/

/-- The members of `struct firmware_header_t`, in declaration order. -/
inductive HeaderMember
  | magic
  | version_major
  | version_minor
  | version_patch
  | version_string
  | timestamp
  | size
  | crc32
  | entry_point
  | reserved
  deriving DecidableEq, Repr

/-- Size in bytes of a member (`uint32_t` is 4, `char[16]`, `uint8_t[32]`). -/
def HeaderMember.sizeof : HeaderMember → Nat
  | .version_string => FIRMWARE_VERSION_LEN
  | .reserved => 32
  | _ => 4

/-- Alignment of a member (`uint32_t` is 4, byte arrays are 1). -/
def HeaderMember.alignof : HeaderMember → Nat
  | .version_string => 1
  | .reserved => 1
  | _ => 4

/-- Declaration order of the members of `firmware_header_t`. -/
def firmware_header_members : List HeaderMember :=
  [.magic, .version_major, .version_minor, .version_patch, .version_string,
   .timestamp, .size, .crc32, .entry_point, .reserved]

/-- Round `n` up to a multiple of `a`. -/
def align_up (n a : Nat) : Nat := (n + a - 1) / a * a

/-- C struct layout: walking the members in order from running offset `off`,
each member is placed at the next multiple of its alignment. Returns the
offset of member `m` when it is found. -/
def layout_offset (m : HeaderMember) : List HeaderMember → Nat → Option Nat
  | [], _ => none
  | x :: xs, off =>
    let here := align_up off x.alignof
    if x = m then some here else layout_offset m xs (here + x.sizeof)

/-- End offset after laying out all members from running offset `off`. -/
def layout_end : List HeaderMember → Nat → Nat
  | [], off => off
  | x :: xs, off => layout_end xs (align_up off x.alignof + x.sizeof)

/-- The value of `offsetof(firmware_header_t, m)`. -/
def offsetof (m : HeaderMember) : Nat :=
  (layout_offset m firmware_header_members 0).getD 0

/-- The value of `sizeof(firmware_header_t)`: the end offset rounded up to the struct's
alignment (4, the largest member alignment). -/
def sizeof_firmware_header_t : Nat :=
  align_up (layout_end firmware_header_members 0) 4

/-- The struct `firmware_header_t`. -/
structure firmware_header_t where
  magic : Nat
  version_major : Nat
  version_minor : Nat
  version_patch : Nat
  version_string : List Byte
  timestamp : Nat
  size : Nat
  crc32 : Nat
  entry_point : Nat
  reserved : List Byte
  deriving DecidableEq, Repr

/-- The header value obtained by `memcpy(&header, &flash_memory[a],
sizeof(firmware_header_t))` on a little-endian machine: every member is read
at its offset in the struct. -/
def decode_header (f : Flash) (a : Nat) : firmware_header_t :=
  { magic := flash_le32 f (a + offsetof .magic)
    version_major := flash_le32 f (a + offsetof .version_major)
    version_minor := flash_le32 f (a + offsetof .version_minor)
    version_patch := flash_le32 f (a + offsetof .version_patch)
    version_string := flash_slice f (a + offsetof .version_string) HeaderMember.version_string.sizeof
    timestamp := flash_le32 f (a + offsetof .timestamp)
    size := flash_le32 f (a + offsetof .size)
    crc32 := flash_le32 f (a + offsetof .crc32)
    entry_point := flash_le32 f (a + offsetof .entry_point)
    reserved := flash_slice f (a + offsetof .reserved) HeaderMember.reserved.sizeof }

/-- The `memcpy` of a header out of `flash_memory`: defined only when the
`sizeof(firmware_header_t)` bytes read lie inside the array. -/
def read_header (f : Flash) (a : Nat) : Option firmware_header_t :=
  if a + sizeof_firmware_header_t ≤ FLASH_TOTAL_SIZE then some (decode_header f a) else none

/-- The all-zero header left by `memset(&ctx, 0, sizeof ctx)`. -/
def zero_header : firmware_header_t :=
  { magic := 0, version_major := 0, version_minor := 0, version_patch := 0
    version_string := List.replicate 16 0
    timestamp := 0, size := 0, crc32 := 0, entry_point := 0
    reserved := List.replicate 32 0 }

/-! ## CRC32 (`calculate_crc32`) -/

/-- One pass of the inner loop body of `calculate_crc32`:
`if (crc & 1) crc = (crc >> 1) ^ 0xEDB88320; else crc >>= 1;`. -/
def crc32_bit (crc : Nat) : Nat :=
  if crc &&& 1 ≠ 0 then (crc >>> 1) ^^^ 0xEDB88320 else crc >>> 1

/-- One pass of the outer loop body: `crc ^= data[i]` then eight bit steps. -/
def crc32_byte (crc : Nat) (b : Byte) : Nat :=
  crc32_bit^[8] (crc ^^^ b.val)

/-- The function `calculate_crc32(data, length)` on the `length` bytes at
`data`: start from `0xFFFFFFFF`, fold the bytes, return `~crc`. -/
def calculate_crc32 (data : List Byte) : Nat :=
  (data.foldl crc32_byte 0xFFFFFFFF ^^^ 0xFFFFFFFF) % U32_MOD

/-- The function `validate_firmware_header`. -/
def validate_firmware_header (h : firmware_header_t) : Bool :=
  h.magic == FIRMWARE_MAGIC && decide (h.size > 0) && h.entry_point != 0

/-! ## Flash simulation functions -/

/-- The function `flash_erase_page`. `~(FLASH_PAGE_SIZE - 1)` is the 32-bit complement. -/
def flash_erase_page (f : Flash) (address : Nat) : bootloader_error_t × Flash :=
  if address ≥ FLASH_TOTAL_SIZE then (BOOT_ERROR_FLASH_ERASE, f)
  else
    let page_start := address &&& (0xFFFFFFFF ^^^ (FLASH_PAGE_SIZE - 1))
    (BOOT_OK, memset f page_start 0xFF FLASH_PAGE_SIZE)

/-- The function `flash_write_word`. -/
def flash_write_word (f : Flash) (address data : Nat) : bootloader_error_t × Flash :=
  if address ≥ FLASH_TOTAL_SIZE - 3 then (BOOT_ERROR_FLASH_WRITE, f)
  else if (List.range 4).any (fun i => f (address + i) ≠ 0xFF) then (BOOT_ERROR_FLASH_WRITE, f)
  else
    let f0 : Flash := Function.update f address (toByte (data &&& 0xFF))
    let f1 : Flash := Function.update f0 (address + 1) (toByte ((data >>> 8) &&& 0xFF))
    let f2 : Flash := Function.update f1 (address + 2) (toByte ((data >>> 16) &&& 0xFF))
    let f3 : Flash := Function.update f2 (address + 3) (toByte ((data >>> 24) &&& 0xFF))
    (BOOT_OK, f3)

/-- The function `flash_read_word`. -/
def flash_read_word (f : Flash) (address : Nat) : Nat :=
  if address ≥ FLASH_TOTAL_SIZE - 3 then 0xFFFFFFFF
  else
    ((f address).val ||| ((f (address + 1)).val <<< 8) ||| ((f (address + 2)).val <<< 16)
      ||| ((f (address + 3)).val <<< 24)) % U32_MOD

/-! ## Bootloader -/

/-- The struct `bootloader_context_t`. -/
structure bootloader_context_t where
  state : bootloader_state_t
  last_error : bootloader_error_t
  active_slot : Nat
  update_slot : Nat
  active_header : firmware_header_t
  update_header : firmware_header_t
  boot_count : Nat
  update_pending : Bool
  rollback_requested : Bool
  last_boot_time : Nat

/-- The 48 initialised bytes of `simulated_firmware_a` (the array has no
initialiser for the reserved bytes, so its size is 48). -/
def simulated_firmware_a : List Byte :=
  [0xDE, 0xAD, 0xBE, 0xEF,
   0x01, 0x00, 0x00, 0x00,
   0x00, 0x00, 0x00, 0x00,
   0x00, 0x00, 0x00, 0x00,
   0x76, 0x31, 0x2E, 0x30, 0x2E, 0x30, 0, 0, 0, 0, 0, 0, 0, 0, 0, 0,
   0x00, 0x00, 0x00, 0x00,
   0x00, 0x10, 0x00, 0x00,
   0xAA, 0xBB, 0xCC, 0xDD,
   0x00, 0x40, 0x00, 0x08]

/-- The 48 initialised bytes of `simulated_firmware_b`. -/
def simulated_firmware_b : List Byte :=
  [0xDE, 0xAD, 0xBE, 0xEF,
   0x01, 0x00, 0x00, 0x00,
   0x01, 0x00, 0x00, 0x00,
   0x00, 0x00, 0x00, 0x00,
   0x76, 0x31, 0x2E, 0x31, 0x2E, 0x30, 0, 0, 0, 0, 0, 0, 0, 0, 0, 0,
   0x00, 0x00, 0x00, 0x00,
   0x00, 0x10, 0x00, 0x00,
   0xEE, 0xFF, 0x00, 0x11,
   0x00, 0x20, 0x00, 0x08]

/-- A `memcpy` into `&flash_memory[start]`: defined only when every byte
written lies inside the array. -/
def flash_write_bytes (f : Flash) (start : Nat) (src : List Byte) : Option Flash :=
  if src.length = 0 ∨ start + src.length ≤ FLASH_TOTAL_SIZE then
    some (memcpy_to_flash f start src)
  else none

/-- The function `bootloader_init`; `f` is the previous content of the
array (overwritten by the `memset`), `now` is `time(NULL)`. -/
def bootloader_init (f : Flash) (now : Nat) : Option (Flash × bootloader_context_t) := do
  let f0 := memset f 0 0xFF FLASH_TOTAL_SIZE
  let f1 ← flash_write_bytes f0 APP_SLOT_A_ADDRESS simulated_firmware_a
  let f2 ← flash_write_bytes f1 APP_SLOT_B_ADDRESS simulated_firmware_b
  let h ← read_header f2 APP_SLOT_A_ADDRESS
  some (f2,
    { state := BOOT_STATE_INIT
      last_error := BOOT_OK
      active_slot := APP_SLOT_A_ADDRESS
      update_slot := APP_SLOT_B_ADDRESS
      active_header := h
      update_header := zero_header
      boot_count := 1
      update_pending := false
      rollback_requested := false
      last_boot_time := now % U32_MOD })

/-- The function `bootloader_validate_firmware`. The length passed to
`calculate_crc32` is `header.size - sizeof(firmware_header_t)` converted to
`uint32_t`, which wraps when `header.size` is below the header length. -/
def bootloader_validate_firmware (f : Flash) (address : Nat) : Option bootloader_error_t :=
  if address ≥ FLASH_TOTAL_SIZE then some BOOT_ERROR_INVALID_SIZE
  else do
    let header ← read_header f address
    if header.magic ≠ FIRMWARE_MAGIC then some BOOT_ERROR_MAGIC_MISMATCH
    else if header.size = 0 ∨ header.size > FLASH_TOTAL_SIZE - address then
      some BOOT_ERROR_INVALID_SIZE
    else do
      let data ← flash_read_bytes f (address + sizeof_firmware_header_t)
        ((header.size + U32_MOD - sizeof_firmware_header_t) % U32_MOD)
      let calculated_crc := calculate_crc32 data
      if calculated_crc ≠ header.crc32 then some BOOT_ERROR_CRC_MISMATCH
      else some BOOT_OK

/-- The packed version number of `bootloader_check_update`:
`(version_major << 16) | (version_minor << 8) | version_patch` in `uint32_t`. -/
def firmware_version_word (h : firmware_header_t) : Nat :=
  ((h.version_major <<< 16) % U32_MOD) ||| ((h.version_minor <<< 8) % U32_MOD) ||| h.version_patch

/-- The version test of `bootloader_check_update`:
`update_version > current_version`. -/
def update_is_newer (active update : firmware_header_t) : Bool :=
  decide (firmware_version_word update > firmware_version_word active)

/-- The function `bootloader_check_update`. -/
def bootloader_check_update (f : Flash) (ctx : bootloader_context_t) :
    Option (bootloader_error_t × bootloader_context_t) := do
  let ctx1 := { ctx with state := BOOT_STATE_CHECK_UPDATE }
  let error ← bootloader_validate_firmware f APP_SLOT_B_ADDRESS
  if error = BOOT_OK then
    let h ← read_header f APP_SLOT_B_ADDRESS
    let ctx2 := { ctx1 with update_header := h }
    if update_is_newer ctx2.active_header ctx2.update_header then
      some (BOOT_OK, { ctx2 with update_pending := true })
    else
      some (BOOT_OK, { ctx2 with update_pending := false })
  else
    some (error, { ctx1 with update_pending := false })

/-- The function `bootloader_switch_to_update`. -/
def bootloader_switch_to_update (f : Flash) (ctx : bootloader_context_t) :
    Option (bootloader_error_t × bootloader_context_t) :=
  if !ctx.update_pending then some (BOOT_ERROR_NO_APP, ctx)
  else do
    let ctx1 := { ctx with state := BOOT_STATE_UPDATE_IN_PROGRESS }
    let error ← bootloader_validate_firmware f APP_SLOT_B_ADDRESS
    if error ≠ BOOT_OK then
      some (error, { ctx1 with last_error := error, state := BOOT_STATE_ERROR })
    else
      some (BOOT_OK,
        { ctx1 with
          active_slot := APP_SLOT_B_ADDRESS
          active_header := ctx1.update_header
          update_pending := false
          boot_count := (ctx1.boot_count + 1) % U32_MOD })

/-- The function `bootloader_rollback`. -/
def bootloader_rollback (f : Flash) (ctx : bootloader_context_t) :
    Option (bootloader_error_t × bootloader_context_t) := do
  let error ← bootloader_validate_firmware f APP_SLOT_A_ADDRESS
  if error ≠ BOOT_OK then some (error, ctx)
  else
    let h ← read_header f APP_SLOT_A_ADDRESS
    some (BOOT_OK,
      { ctx with
        active_slot := APP_SLOT_A_ADDRESS
        active_header := h
        rollback_requested := true
        boot_count := (ctx.boot_count + 1) % U32_MOD })

/-- The function `bootloader_jump_to_app` (its effect on the context; the
two words it reads are only printed). -/
def bootloader_jump_to_app (ctx : bootloader_context_t) (address : Nat) : bootloader_context_t :=
  if address = APP_SLOT_A_ADDRESS ∨ address = APP_SLOT_B_ADDRESS then
    { ctx with state := BOOT_STATE_JUMP_TO_APP }
  else ctx

/-- The function `bootloader_get_active_slot`. -/
def bootloader_get_active_slot (ctx : bootloader_context_t) : Nat := ctx.active_slot

/-! ## OTA manager -/

/-- The enum `ota_state_t`. -/
inductive ota_state_t
  | OTA_STATE_IDLE
  | OTA_STATE_WAITING_FOR_START
  | OTA_STATE_RECEIVING_DATA
  | OTA_STATE_VALIDATING
  | OTA_STATE_UPDATING
  | OTA_STATE_COMPLETE
  | OTA_STATE_ERROR
  deriving DecidableEq, Repr

/-- The enum `ota_error_t`. -/
inductive ota_error_t
  | OTA_ERROR_NONE
  | OTA_ERROR_INVALID_STATE
  | OTA_ERROR_INVALID_SIZE
  | OTA_ERROR_CRC_MISMATCH
  | OTA_ERROR_FLASH_ERROR
  | OTA_ERROR_TIMEOUT
  | OTA_ERROR_COMMUNICATION
  | OTA_ERROR_VALIDATION_FAILED
  deriving DecidableEq, Repr

open ota_state_t ota_error_t

/-- The struct `ota_chunk_info_t`. -/
structure ota_chunk_info_t where
  total_size : Nat
  chunk_size : Nat
  total_chunks : Nat
  received_chunks : Nat
  received_bytes : Nat
  next_expected_chunk : Nat
  deriving DecidableEq, Repr

/-- The struct `ota_manager_t`. -/
structure ota_manager_t where
  state : ota_state_t
  last_error : ota_error_t
  chunk_info : ota_chunk_info_t
  firmware_header : firmware_header_t
  update_address : Nat
  start_time : Nat
  last_activity_time : Nat
  timeout_ms : Nat
  abort_requested : Bool
  restart_required : Bool
  progress_percent : Nat
  deriving DecidableEq, Repr

/-- The global state the OTA manager works on: the flash array, the
bootloader context, `ota_ctx`, the three statistics counters and the
validation callback (`none` is the `NULL` pointer). -/
structure System where
  flash_memory : Flash
  bootloader_ctx : bootloader_context_t
  ota_ctx : ota_manager_t
  total_updates : Nat
  successful_updates : Nat
  failed_updates : Nat
  validate_callback : Option (firmware_header_t → Bool)

/-- The helper `update_progress`. -/
def update_progress (o : ota_manager_t) (percent : Nat) : ota_manager_t :=
  { o with progress_percent := percent }

/-- The helper `update_state`. -/
def update_state (o : ota_manager_t) (new_state : ota_state_t) (error : ota_error_t) :
    ota_manager_t :=
  { o with state := new_state, last_error := error }

/-- The value of `ota_ctx` after `ota_manager_init`. -/
def ota_ctx_init : ota_manager_t :=
  { state := OTA_STATE_IDLE
    last_error := OTA_ERROR_NONE
    chunk_info :=
      { total_size := 0, chunk_size := 0, total_chunks := 0
        received_chunks := 0, received_bytes := 0, next_expected_chunk := 0 }
    firmware_header := zero_header
    update_address := APP_SLOT_B_ADDRESS
    start_time := 0
    last_activity_time := 0
    timeout_ms := 30000
    abort_requested := false
    restart_required := false
    progress_percent := 0 }

/-- The function `ota_manager_init`: resets `ota_ctx` only. -/
def ota_manager_init (s : System) : System :=
  { s with ota_ctx := ota_ctx_init }

/-- The function `ota_manager_start_update`. The bound
`FLASH_TOTAL_SIZE - APP_SLOT_B_ADDRESS` is compared as a `uint32_t`, and the
times are stored as `(uint32_t)time(NULL)`. -/
def ota_manager_start_update (s : System) (total_size chunk_size now : Nat) :
    ota_error_t × System :=
  if s.ota_ctx.state ≠ OTA_STATE_IDLE then (OTA_ERROR_INVALID_STATE, s)
  else if total_size = 0 ∨ chunk_size = 0 ∨ chunk_size > 1024 then (OTA_ERROR_INVALID_SIZE, s)
  else if total_size > (FLASH_TOTAL_SIZE + U32_MOD - APP_SLOT_B_ADDRESS) % U32_MOD then
    (OTA_ERROR_INVALID_SIZE, s)
  else
    let ci : ota_chunk_info_t :=
      { total_size := total_size
        chunk_size := chunk_size
        total_chunks := ((total_size + chunk_size - 1) % U32_MOD) / chunk_size
        received_chunks := 0
        received_bytes := 0
        next_expected_chunk := 0 }
    let o1 : ota_manager_t :=
      { s.ota_ctx with
        chunk_info := ci
        start_time := now % U32_MOD
        last_activity_time := now % U32_MOD
        abort_requested := false
        restart_required := false }
    let r := flash_erase_page s.flash_memory APP_SLOT_B_ADDRESS
    if r.1 ≠ BOOT_OK then
      (OTA_ERROR_FLASH_ERROR,
        { s with flash_memory := r.2
                 ota_ctx := update_state o1 OTA_STATE_ERROR OTA_ERROR_FLASH_ERROR })
    else
      (OTA_ERROR_NONE,
        { s with flash_memory := r.2
                 total_updates := (s.total_updates + 1) % U32_MOD
                 ota_ctx := update_progress
                   (update_state o1 OTA_STATE_WAITING_FOR_START OTA_ERROR_NONE) 0 })

/-- The inner loop of `ota_manager_receive_chunk`:
`word |= (data[i + j] << (j * 8))` for the bytes of one word, `j` counting up. -/
def pack_word : List Byte → Nat → Nat → Nat
  | [], _, word => word
  | b :: bs, j, word => pack_word bs (j + 1) (word ||| (b.val <<< (j * 8)) % U32_MOD)

/-- The write loop of `ota_manager_receive_chunk` over the remaining bytes
`data[i ..]`: one `flash_write_word` per group of up to four bytes, stopping
at the first failure. -/
def write_chunk_loop (f : Flash) (write_address i : Nat) :
    List Byte → bootloader_error_t × Flash
  | [] => (BOOT_OK, f)
  | b0 :: b1 :: b2 :: b3 :: rest =>
    let r := flash_write_word f ((write_address + i) % U32_MOD) (pack_word [b0, b1, b2, b3] 0 0)
    if r.1 ≠ BOOT_OK then r else write_chunk_loop r.2 write_address (i + 4) rest
  | bs => flash_write_word f ((write_address + i) % U32_MOD) (pack_word bs 0 0)

/-- The function `ota_manager_receive_chunk`; the buffer `data` with its
`size` is the list `data` (a `NULL` buffer is not represented). The times are
stored as `(uint32_t)time(NULL)`. The progress is an unsigned division by
`total_size`: with `total_size = 0` it traps, and the call has no result. -/
def ota_manager_receive_chunk (s : System) (chunk_number : Nat) (data : List Byte) (now : Nat) :
    Option (ota_error_t × System) :=
  let size := data.length
  if s.ota_ctx.state ≠ OTA_STATE_WAITING_FOR_START ∧ s.ota_ctx.state ≠ OTA_STATE_RECEIVING_DATA then
    some (OTA_ERROR_INVALID_STATE, s)
  else if chunk_number ≠ s.ota_ctx.chunk_info.next_expected_chunk then
    some (OTA_ERROR_COMMUNICATION, s)
  else if size = 0 ∨ size > s.ota_ctx.chunk_info.chunk_size then some (OTA_ERROR_INVALID_SIZE, s)
  else if (s.ota_ctx.chunk_info.received_bytes + size) % U32_MOD > s.ota_ctx.chunk_info.total_size then
    some (OTA_ERROR_INVALID_SIZE, s)
  else
    let o1 : ota_manager_t :=
      if s.ota_ctx.state = OTA_STATE_WAITING_FOR_START then
        update_state s.ota_ctx OTA_STATE_RECEIVING_DATA OTA_ERROR_NONE
      else s.ota_ctx
    let write_address := (APP_SLOT_B_ADDRESS + o1.chunk_info.received_bytes) % U32_MOD
    let r := write_chunk_loop s.flash_memory write_address 0 data
    if r.1 ≠ BOOT_OK then
      some (OTA_ERROR_FLASH_ERROR,
        { s with flash_memory := r.2
                 ota_ctx := update_state o1 OTA_STATE_ERROR OTA_ERROR_FLASH_ERROR })
    else
      let ci : ota_chunk_info_t :=
        { o1.chunk_info with
          received_chunks := (o1.chunk_info.received_chunks + 1) % U32_MOD
          received_bytes := (o1.chunk_info.received_bytes + size) % U32_MOD
          next_expected_chunk := (o1.chunk_info.next_expected_chunk + 1) % U32_MOD }
      let o2 : ota_manager_t :=
        { o1 with chunk_info := ci, last_activity_time := now % U32_MOD }
      if ci.total_size = 0 then none
      else
        let progress := (((ci.received_bytes * 100) % U32_MOD) / ci.total_size) % 256
        some (OTA_ERROR_NONE,
          { s with flash_memory := r.2, ota_ctx := update_progress o2 progress })

/-- Increment of a `uint32_t` counter. -/
def incr32 (n : Nat) : Nat := (n + 1) % U32_MOD

/-- The function `ota_manager_validate_update`. The header is copied out of
`flash_memory[APP_SLOT_B_ADDRESS]` without a range check. -/
def ota_manager_validate_update (s : System) : Option (ota_error_t × System) := do
  let h ← read_header s.flash_memory APP_SLOT_B_ADDRESS
  let o1 : ota_manager_t := { s.ota_ctx with firmware_header := h }
  if !validate_firmware_header h then
    some (OTA_ERROR_VALIDATION_FAILED,
      { s with ota_ctx := update_state o1 OTA_STATE_ERROR OTA_ERROR_VALIDATION_FAILED
               failed_updates := incr32 s.failed_updates })
  else if h.size ≠ o1.chunk_info.total_size then
    some (OTA_ERROR_VALIDATION_FAILED,
      { s with ota_ctx := update_state o1 OTA_STATE_ERROR OTA_ERROR_VALIDATION_FAILED
               failed_updates := incr32 s.failed_updates })
  else do
    let data ← flash_read_bytes s.flash_memory (APP_SLOT_B_ADDRESS + sizeof_firmware_header_t)
      ((h.size + U32_MOD - sizeof_firmware_header_t) % U32_MOD)
    let calculated_crc := calculate_crc32 data
    if calculated_crc ≠ h.crc32 then
      some (OTA_ERROR_CRC_MISMATCH,
        { s with ota_ctx := update_state o1 OTA_STATE_ERROR OTA_ERROR_CRC_MISMATCH
                 failed_updates := incr32 s.failed_updates })
    else if (match s.validate_callback with
             | some cb => !cb h
             | none => false) then
      some (OTA_ERROR_VALIDATION_FAILED,
        { s with ota_ctx := update_state o1 OTA_STATE_ERROR OTA_ERROR_VALIDATION_FAILED
                 failed_updates := incr32 s.failed_updates })
    else
      some (OTA_ERROR_NONE,
        { s with
          ota_ctx :=
            { update_progress (update_state o1 OTA_STATE_COMPLETE OTA_ERROR_NONE) 100 with
              restart_required := true }
          successful_updates := incr32 s.successful_updates })

/-- The function `ota_manager_finalize_update`. -/
def ota_manager_finalize_update (s : System) : Option (ota_error_t × System) :=
  if s.ota_ctx.state ≠ OTA_STATE_RECEIVING_DATA then some (OTA_ERROR_INVALID_STATE, s)
  else if s.ota_ctx.chunk_info.received_bytes ≠ s.ota_ctx.chunk_info.total_size then
    some (OTA_ERROR_INVALID_SIZE, s)
  else
    ota_manager_validate_update
      { s with ota_ctx :=
          update_progress (update_state s.ota_ctx OTA_STATE_VALIDATING OTA_ERROR_NONE) 95 }

/-- The function `ota_manager_abort_update`. -/
def ota_manager_abort_update (s : System) : ota_error_t × System :=
  (OTA_ERROR_NONE,
    { s with
      ota_ctx := update_state { s.ota_ctx with abort_requested := true }
        OTA_STATE_ERROR OTA_ERROR_COMMUNICATION
      failed_updates := incr32 s.failed_updates })

/-- The function `ota_manager_apply_update` (returns nothing in C; the
result is the state it leaves). -/
def ota_manager_apply_update (s : System) : Option System :=
  if s.ota_ctx.state ≠ OTA_STATE_COMPLETE then some s
  else do
    let s1 : System := { s with ota_ctx := update_state s.ota_ctx OTA_STATE_UPDATING OTA_ERROR_NONE }
    let r ← bootloader_switch_to_update s1.flash_memory s1.bootloader_ctx
    if r.1 ≠ BOOT_OK then
      some { s1 with bootloader_ctx := r.2
                     ota_ctx := update_state s1.ota_ctx OTA_STATE_ERROR OTA_ERROR_FLASH_ERROR }
    else
      some { s1 with bootloader_ctx := r.2
                     ota_ctx := { s1.ota_ctx with restart_required := true } }

/-- The getter `ota_manager_get_state`. -/
def ota_manager_get_state (s : System) : ota_state_t := s.ota_ctx.state
/-- The getter `ota_manager_is_update_available`. -/
def ota_manager_is_update_available (s : System) : Bool := s.ota_ctx.restart_required

/-! ## Auxiliary notions used in the statements -/

/-- The four target bytes `flash[a .. a+3]` of a word write are all erased. -/
def word_erased (f : Flash) (a : Nat) : Prop :=
  f a = 0xFF ∧ f (a + 1) = 0xFF ∧ f (a + 2) = 0xFF ∧ f (a + 3) = 0xFF

/-- Start of the `FLASH_PAGE_SIZE`-aligned page containing `a`. -/
def page_of (a : Nat) : Nat := a - a % FLASH_PAGE_SIZE

/-- Strict lexicographic order on version triples `(major, minor, patch)`. -/
def version_lex_gt (u a : Nat × Nat × Nat) : Prop :=
  u.1 > a.1 ∨ (u.1 = a.1 ∧ (u.2.1 > a.2.1 ∨ (u.2.1 = a.2.1 ∧ u.2.2 > a.2.2)))

/-- The version triple of a header. -/
def version_triple (h : firmware_header_t) : Nat × Nat × Nat :=
  (h.version_major, h.version_minor, h.version_patch)

/-- The four bytes of a 32-bit value, least significant first. -/
def le_bytes (v : Nat) : List Byte :=
  [toByte v, toByte (v >>> 8), toByte (v >>> 16), toByte (v >>> 24)]

/-- A flash whose first bytes are `bs` and whose other bytes are erased. -/
def flash_of_bytes (bs : List Byte) : Flash := fun i => bs.getD i 0xFF

/-- The 80 bytes of a header with the given magic, version, size, CRC and
entry point (version string, timestamp and reserved bytes zero). -/
def header_image (magic major minor patch size crc entry : Nat) : List Byte :=
  le_bytes magic ++ le_bytes major ++ le_bytes minor ++ le_bytes patch
    ++ List.replicate 16 0 ++ le_bytes 0 ++ le_bytes size ++ le_bytes crc ++ le_bytes entry
    ++ List.replicate 32 0

/-- A header value with the given version triple and all other members zero. -/
def header_with_version (major minor patch : Nat) : firmware_header_t :=
  { zero_header with version_major := major, version_minor := minor, version_patch := patch }

/-! ## Slot-dependent operations with the slot address as a parameter

Each definition below is the body of the function it is named after, with the
slot macro it uses replaced by the parameter `slot`; the function itself is the
instance at `APP_SLOT_A_ADDRESS` or `APP_SLOT_B_ADDRESS`. -/

/-- The body of `bootloader_check_update` for an update slot at `slot`. -/
def bootloader_check_update_at (slot : Nat) (f : Flash) (ctx : bootloader_context_t) :
    Option (bootloader_error_t × bootloader_context_t) := do
  let ctx1 := { ctx with state := BOOT_STATE_CHECK_UPDATE }
  let error ← bootloader_validate_firmware f slot
  if error = BOOT_OK then
    let h ← read_header f slot
    let ctx2 := { ctx1 with update_header := h }
    if update_is_newer ctx2.active_header ctx2.update_header then
      some (BOOT_OK, { ctx2 with update_pending := true })
    else
      some (BOOT_OK, { ctx2 with update_pending := false })
  else
    some (error, { ctx1 with update_pending := false })

/-- The body of `bootloader_switch_to_update` for an update slot at `slot`. -/
def bootloader_switch_to_update_at (slot : Nat) (f : Flash) (ctx : bootloader_context_t) :
    Option (bootloader_error_t × bootloader_context_t) :=
  if !ctx.update_pending then some (BOOT_ERROR_NO_APP, ctx)
  else do
    let ctx1 := { ctx with state := BOOT_STATE_UPDATE_IN_PROGRESS }
    let error ← bootloader_validate_firmware f slot
    if error ≠ BOOT_OK then
      some (error, { ctx1 with last_error := error, state := BOOT_STATE_ERROR })
    else
      some (BOOT_OK,
        { ctx1 with
          active_slot := slot
          active_header := ctx1.update_header
          update_pending := false
          boot_count := (ctx1.boot_count + 1) % U32_MOD })

/-- The body of `bootloader_rollback` for a slot A at `slot`. -/
def bootloader_rollback_at (slot : Nat) (f : Flash) (ctx : bootloader_context_t) :
    Option (bootloader_error_t × bootloader_context_t) := do
  let error ← bootloader_validate_firmware f slot
  if error ≠ BOOT_OK then some (error, ctx)
  else
    let h ← read_header f slot
    some (BOOT_OK,
      { ctx with
        active_slot := slot
        active_header := h
        rollback_requested := true
        boot_count := (ctx.boot_count + 1) % U32_MOD })

/-- The body of `ota_manager_receive_chunk` for an update slot at `slot`. -/
def ota_manager_receive_chunk_at (slot : Nat) (s : System) (chunk_number : Nat)
    (data : List Byte) (now : Nat) : Option (ota_error_t × System) :=
  let size := data.length
  if s.ota_ctx.state ≠ OTA_STATE_WAITING_FOR_START ∧ s.ota_ctx.state ≠ OTA_STATE_RECEIVING_DATA then
    some (OTA_ERROR_INVALID_STATE, s)
  else if chunk_number ≠ s.ota_ctx.chunk_info.next_expected_chunk then
    some (OTA_ERROR_COMMUNICATION, s)
  else if size = 0 ∨ size > s.ota_ctx.chunk_info.chunk_size then some (OTA_ERROR_INVALID_SIZE, s)
  else if (s.ota_ctx.chunk_info.received_bytes + size) % U32_MOD > s.ota_ctx.chunk_info.total_size then
    some (OTA_ERROR_INVALID_SIZE, s)
  else
    let o1 : ota_manager_t :=
      if s.ota_ctx.state = OTA_STATE_WAITING_FOR_START then
        update_state s.ota_ctx OTA_STATE_RECEIVING_DATA OTA_ERROR_NONE
      else s.ota_ctx
    let write_address := (slot + o1.chunk_info.received_bytes) % U32_MOD
    let r := write_chunk_loop s.flash_memory write_address 0 data
    if r.1 ≠ BOOT_OK then
      some (OTA_ERROR_FLASH_ERROR,
        { s with flash_memory := r.2
                 ota_ctx := update_state o1 OTA_STATE_ERROR OTA_ERROR_FLASH_ERROR })
    else
      let ci : ota_chunk_info_t :=
        { o1.chunk_info with
          received_chunks := (o1.chunk_info.received_chunks + 1) % U32_MOD
          received_bytes := (o1.chunk_info.received_bytes + size) % U32_MOD
          next_expected_chunk := (o1.chunk_info.next_expected_chunk + 1) % U32_MOD }
      let o2 : ota_manager_t :=
        { o1 with chunk_info := ci, last_activity_time := now % U32_MOD }
      if ci.total_size = 0 then none
      else
        let progress := (((ci.received_bytes * 100) % U32_MOD) / ci.total_size) % 256
        some (OTA_ERROR_NONE,
          { s with flash_memory := r.2, ota_ctx := update_progress o2 progress })

/-! ## Sample states used in the examples -/

/-- An 84-byte image: header (version 1.2.3, size 84, CRC32 of the payload)
followed by the payload 1, 2, 3, 4. -/
def sample_image : List Byte :=
  header_image FIRMWARE_MAGIC 1 2 3 84 0xB63CFBCD 7 ++ [1, 2, 3, 4]

/-- A bootloader context as `bootloader_init` sets it up, with active version
1.0.0 and an update marked pending. -/
def sample_boot_ctx : bootloader_context_t :=
  { state := BOOT_STATE_INIT
    last_error := BOOT_OK
    active_slot := APP_SLOT_A_ADDRESS
    update_slot := APP_SLOT_B_ADDRESS
    active_header := header_with_version 1 0 0
    update_header := header_with_version 1 2 3
    boot_count := 1
    update_pending := true
    rollback_requested := false
    last_boot_time := 0 }

/-- A system with an erased flash, the sample bootloader context, a freshly
initialised OTA manager, zero counters and no validation callback. -/
def sample_system : System :=
  { flash_memory := flash_of_bytes []
    bootloader_ctx := sample_boot_ctx
    ota_ctx := ota_ctx_init
    total_updates := 0
    successful_updates := 0
    failed_updates := 0
    validate_callback := none }

/-- The sample system with the OTA session put in the given state and with
the given chunk bookkeeping. -/
def sample_session (st : ota_state_t) (total_size chunk_size received_bytes next : Nat) :
    System :=
  { sample_system with
    ota_ctx :=
      { ota_ctx_init with
        state := st
        chunk_info :=
          { total_size := total_size
            chunk_size := chunk_size
            total_chunks := (total_size + chunk_size - 1) / chunk_size
            received_chunks := next
            received_bytes := received_bytes
            next_expected_chunk := next } } }

/-! ## More slot-dependent operations with the slot address as a parameter -/

/-- The body of `ota_manager_start_update` for an update slot at `slot`. -/
def ota_manager_start_update_at (slot : Nat) (s : System) (total_size chunk_size now : Nat) :
    ota_error_t × System :=
  if s.ota_ctx.state ≠ OTA_STATE_IDLE then (OTA_ERROR_INVALID_STATE, s)
  else if total_size = 0 ∨ chunk_size = 0 ∨ chunk_size > 1024 then (OTA_ERROR_INVALID_SIZE, s)
  else if total_size > (FLASH_TOTAL_SIZE + U32_MOD - slot) % U32_MOD then
    (OTA_ERROR_INVALID_SIZE, s)
  else
    let ci : ota_chunk_info_t :=
      { total_size := total_size
        chunk_size := chunk_size
        total_chunks := ((total_size + chunk_size - 1) % U32_MOD) / chunk_size
        received_chunks := 0
        received_bytes := 0
        next_expected_chunk := 0 }
    let o1 : ota_manager_t :=
      { s.ota_ctx with
        chunk_info := ci
        start_time := now % U32_MOD
        last_activity_time := now % U32_MOD
        abort_requested := false
        restart_required := false }
    let r := flash_erase_page s.flash_memory slot
    if r.1 ≠ BOOT_OK then
      (OTA_ERROR_FLASH_ERROR,
        { s with flash_memory := r.2
                 ota_ctx := update_state o1 OTA_STATE_ERROR OTA_ERROR_FLASH_ERROR })
    else
      (OTA_ERROR_NONE,
        { s with flash_memory := r.2
                 total_updates := (s.total_updates + 1) % U32_MOD
                 ota_ctx := update_progress
                   (update_state o1 OTA_STATE_WAITING_FOR_START OTA_ERROR_NONE) 0 })

/-- The body of `ota_manager_validate_update` for an update slot at `slot`. -/
def ota_manager_validate_update_at (slot : Nat) (s : System) : Option (ota_error_t × System) := do
  let h ← read_header s.flash_memory slot
  let o1 : ota_manager_t := { s.ota_ctx with firmware_header := h }
  if !validate_firmware_header h then
    some (OTA_ERROR_VALIDATION_FAILED,
      { s with ota_ctx := update_state o1 OTA_STATE_ERROR OTA_ERROR_VALIDATION_FAILED
               failed_updates := incr32 s.failed_updates })
  else if h.size ≠ o1.chunk_info.total_size then
    some (OTA_ERROR_VALIDATION_FAILED,
      { s with ota_ctx := update_state o1 OTA_STATE_ERROR OTA_ERROR_VALIDATION_FAILED
               failed_updates := incr32 s.failed_updates })
  else do
    let data ← flash_read_bytes s.flash_memory (slot + sizeof_firmware_header_t)
      ((h.size + U32_MOD - sizeof_firmware_header_t) % U32_MOD)
    let calculated_crc := calculate_crc32 data
    if calculated_crc ≠ h.crc32 then
      some (OTA_ERROR_CRC_MISMATCH,
        { s with ota_ctx := update_state o1 OTA_STATE_ERROR OTA_ERROR_CRC_MISMATCH
                 failed_updates := incr32 s.failed_updates })
    else if (match s.validate_callback with
             | some cb => !cb h
             | none => false) then
      some (OTA_ERROR_VALIDATION_FAILED,
        { s with ota_ctx := update_state o1 OTA_STATE_ERROR OTA_ERROR_VALIDATION_FAILED
                 failed_updates := incr32 s.failed_updates })
    else
      some (OTA_ERROR_NONE,
        { s with
          ota_ctx :=
            { update_progress (update_state o1 OTA_STATE_COMPLETE OTA_ERROR_NONE) 100 with
              restart_required := true }
          successful_updates := incr32 s.successful_updates })

/-- The body of `ota_manager_finalize_update` for an update slot at `slot`. -/
def ota_manager_finalize_update_at (slot : Nat) (s : System) : Option (ota_error_t × System) :=
  if s.ota_ctx.state ≠ OTA_STATE_RECEIVING_DATA then some (OTA_ERROR_INVALID_STATE, s)
  else if s.ota_ctx.chunk_info.received_bytes ≠ s.ota_ctx.chunk_info.total_size then
    some (OTA_ERROR_INVALID_SIZE, s)
  else
    ota_manager_validate_update_at slot
      { s with ota_ctx :=
          update_progress (update_state s.ota_ctx OTA_STATE_VALIDATING OTA_ERROR_NONE) 95 }

/-- The body of `ota_manager_apply_update` for an update slot at `slot`. -/
def ota_manager_apply_update_at (slot : Nat) (s : System) : Option System :=
  if s.ota_ctx.state ≠ OTA_STATE_COMPLETE then some s
  else do
    let s1 : System := { s with ota_ctx := update_state s.ota_ctx OTA_STATE_UPDATING OTA_ERROR_NONE }
    let r ← bootloader_switch_to_update_at slot s1.flash_memory s1.bootloader_ctx
    if r.1 ≠ BOOT_OK then
      some { s1 with bootloader_ctx := r.2
                     ota_ctx := update_state s1.ota_ctx OTA_STATE_ERROR OTA_ERROR_FLASH_ERROR }
    else
      some { s1 with bootloader_ctx := r.2
                     ota_ctx := { s1.ota_ctx with restart_required := true } }

/-! ## The state chain of the OTA session as the specification draws it -/

/-- One step along `IDLE → WAITING_FOR_START → RECEIVING_DATA → VALIDATING →
UPDATING → COMPLETE`. -/
def ota_chain_successor : ota_state_t → ota_state_t → Bool
  | OTA_STATE_IDLE, OTA_STATE_WAITING_FOR_START => true
  | OTA_STATE_WAITING_FOR_START, OTA_STATE_RECEIVING_DATA => true
  | OTA_STATE_RECEIVING_DATA, OTA_STATE_VALIDATING => true
  | OTA_STATE_VALIDATING, OTA_STATE_UPDATING => true
  | OTA_STATE_UPDATING, OTA_STATE_COMPLETE => true
  | _, _ => false

/-- The terminal states `COMPLETE` and `ERROR`. -/
def ota_terminal : ota_state_t → Bool
  | OTA_STATE_COMPLETE => true
  | OTA_STATE_ERROR => true
  | _ => false

/-- A state change of the shape the specification allows: one step along the
chain, or a move to `ERROR` from a non-terminal state. -/
def ota_chain_change (a b : ota_state_t) : Bool :=
  ota_chain_successor a b || (decide (b = OTA_STATE_ERROR) && !ota_terminal a)

/-- A chunk as `ota_manager_receive_chunk` hands it to `flash_write_word`:
whole 4-byte words, the last one filled up with zero bytes. -/
def pad_to_word (data : List Byte) : List Byte :=
  data ++ List.replicate ((4 - data.length % 4) % 4) 0

/-! ## States reachable through the public operations

`bootloader_init` copies the built-in images to the slot addresses, which lie
outside `flash_memory`, so the function `bootloader_init` above has no defined
result. The reachable states below start from the context its assignments
leave, with the flash content and the header it loads left arbitrary. -/

/-- The context the assignments of `bootloader_init` leave; `h` stands for the
header loaded from the active slot. -/
def bootloader_init_ctx (h : firmware_header_t) (now : Nat) : bootloader_context_t :=
  { state := BOOT_STATE_INIT
    last_error := BOOT_OK
    active_slot := APP_SLOT_A_ADDRESS
    update_slot := APP_SLOT_B_ADDRESS
    active_header := h
    update_header := zero_header
    boot_count := 1
    update_pending := false
    rollback_requested := false
    last_boot_time := now % U32_MOD }

/-- The system after `bootloader_init` and `ota_manager_init`: counters zero
and no validation callback, as the static initialisers set them. -/
def initial_system (f : Flash) (h : firmware_header_t) (now : Nat) : System :=
  { flash_memory := f
    bootloader_ctx := bootloader_init_ctx h now
    ota_ctx := ota_ctx_init
    total_updates := 0
    successful_updates := 0
    failed_updates := 0
    validate_callback := none }

/-- The function `ota_manager_set_validate_callback`. -/
def ota_manager_set_validate_callback (s : System) (cb : Option (firmware_header_t → Bool)) :
    System :=
  { s with validate_callback := cb }

/-- The states reachable from the initial system through the operations
declared in `bootloader.h` and `ota_manager.h` that change the state. -/
inductive ota_reachable : System → Prop
  | start (f : Flash) (h : firmware_header_t) (now : Nat) :
      ota_reachable (initial_system f h now)
  | boot_again (s : System) (f : Flash) (h : firmware_header_t) (now : Nat) :
      ota_reachable s →
      ota_reachable { s with flash_memory := f, bootloader_ctx := bootloader_init_ctx h now }
  | check_update (s : System) (r : bootloader_error_t × bootloader_context_t) :
      ota_reachable s →
      bootloader_check_update s.flash_memory s.bootloader_ctx = some r →
      ota_reachable { s with bootloader_ctx := r.2 }
  | switch_to_update (s : System) (r : bootloader_error_t × bootloader_context_t) :
      ota_reachable s →
      bootloader_switch_to_update s.flash_memory s.bootloader_ctx = some r →
      ota_reachable { s with bootloader_ctx := r.2 }
  | rollback (s : System) (r : bootloader_error_t × bootloader_context_t) :
      ota_reachable s →
      bootloader_rollback s.flash_memory s.bootloader_ctx = some r →
      ota_reachable { s with bootloader_ctx := r.2 }
  | jump_to_app (s : System) (address : Nat) :
      ota_reachable s →
      ota_reachable { s with bootloader_ctx := bootloader_jump_to_app s.bootloader_ctx address }
  | erase_page (s : System) (address : Nat) :
      ota_reachable s →
      ota_reachable { s with flash_memory := (flash_erase_page s.flash_memory address).2 }
  | write_word (s : System) (address data : Nat) :
      ota_reachable s →
      ota_reachable { s with flash_memory := (flash_write_word s.flash_memory address data).2 }
  | ota_init (s : System) :
      ota_reachable s → ota_reachable (ota_manager_init s)
  | set_validate_callback (s : System) (cb : Option (firmware_header_t → Bool)) :
      ota_reachable s → ota_reachable (ota_manager_set_validate_callback s cb)
  | start_update (s : System) (total_size chunk_size now : Nat) :
      ota_reachable s →
      ota_reachable (ota_manager_start_update s total_size chunk_size now).2
  | receive_chunk (s : System) (chunk_number : Nat) (data : List Byte) (now : Nat)
      (r : ota_error_t × System) :
      ota_reachable s → ota_manager_receive_chunk s chunk_number data now = some r →
      ota_reachable r.2
  | finalize_update (s : System) (r : ota_error_t × System) :
      ota_reachable s → ota_manager_finalize_update s = some r → ota_reachable r.2
  | validate_update (s : System) (r : ota_error_t × System) :
      ota_reachable s → ota_manager_validate_update s = some r → ota_reachable r.2
  | abort_update (s : System) :
      ota_reachable s → ota_reachable (ota_manager_abort_update s).2
  | apply_update (s s1 : System) :
      ota_reachable s → ota_manager_apply_update s = some s1 → ota_reachable s1

/-! ## A second update after a switch -/

/-- The struct `queue_t`; `buffer` with `buffer_size` is the block
`queue->buffer` points to. -/
structure queue_t where
  buffer : Nat → Byte
  buffer_size : Nat
  capacity : Nat
  element_size : Nat
  head : Nat
  tail : Nat
  count : Nat

/-- The function `queue_create`; `mem` is the content of the fresh block. The
size passed to `malloc` is the `uint32_t` product `capacity * element_size`. -/
def queue_create (mem : Nat → Byte) (capacity element_size : Nat) : queue_t :=
  { buffer := mem
    buffer_size := (capacity * element_size) % U32_MOD
    capacity := capacity
    element_size := element_size
    head := 0
    tail := 0
    count := 0 }

/-- The function `queue_count`. -/
def queue_count (q : queue_t) : Nat := q.count

/-- The function `queue_is_empty`. -/
def queue_is_empty (q : queue_t) : Bool := decide (q.count = 0)

/-- The function `queue_is_full`. -/
def queue_is_full (q : queue_t) : Bool := decide (q.count = q.capacity)

/-- The function `queue_enqueue`; `element` holds the bytes `element` points
to, of which `element_size` are copied. -/
def queue_enqueue (q : queue_t) (element : List Byte) : Option (Bool × queue_t) :=
  if queue_is_full q then some (false, q)
  else
    let dest := (q.tail * q.element_size) % U32_MOD
    if q.element_size ≠ 0 ∧ (dest + q.element_size > q.buffer_size
        ∨ element.length < q.element_size) then none
    else if q.capacity = 0 then none
    else
      some (true,
        { q with
          buffer := memcpy_to_flash q.buffer dest (element.take q.element_size)
          tail := ((q.tail + 1) % U32_MOD) % q.capacity
          count := (q.count + 1) % U32_MOD })

/-- The function `queue_dequeue`: the bytes copied to `element` (`none` when
the call returns `false`) and the queue afterwards. -/
def queue_dequeue (q : queue_t) : Option (Option (List Byte) × queue_t) :=
  if queue_is_empty q then some (none, q)
  else
    let src := (q.head * q.element_size) % U32_MOD
    if q.element_size ≠ 0 ∧ src + q.element_size > q.buffer_size then none
    else if q.capacity = 0 then none
    else
      some (some (flash_slice q.buffer src q.element_size),
        { q with
          head := ((q.head + 1) % U32_MOD) % q.capacity
          count := (q.count + U32_MOD - 1) % U32_MOD })

/-- The function `queue_peek`: the bytes copied to `element`, `none` when the
call returns `false`. -/
def queue_peek (q : queue_t) : Option (Option (List Byte)) :=
  if queue_is_empty q then some none
  else
    let src := (q.head * q.element_size) % U32_MOD
    if q.element_size ≠ 0 ∧ src + q.element_size > q.buffer_size then none
    else some (some (flash_slice q.buffer src q.element_size))

/-- The function `queue_clear`. -/
def queue_clear (q : queue_t) : queue_t :=
  { q with head := 0, tail := 0, count := 0 }

/-- The element stored `i` places after the head. -/
def queue_slot (q : queue_t) (i : Nat) : List Byte :=
  flash_slice q.buffer (((q.head + i) % q.capacity) * q.element_size) q.element_size

/-- The elements a queue holds, oldest first. -/
def queue_contents (q : queue_t) : List (List Byte) :=
  (List.range q.count).map (queue_slot q)

/-- The representation invariant of a queue whose block has the size the
elements need. -/
def queue_wf (q : queue_t) : Prop :=
  1 ≤ q.capacity ∧ q.capacity < U32_MOD ∧ q.capacity * q.element_size < U32_MOD
    ∧ q.buffer_size = q.capacity * q.element_size
    ∧ q.head < q.capacity ∧ q.count ≤ q.capacity
    ∧ q.tail = (q.head + q.count) % q.capacity

/-- Enqueue of a list of elements in order, stopping at the first call that is
refused or undefined. -/
def queue_enqueue_all : queue_t → List (List Byte) → Option queue_t
  | q, [] => some q
  | q, e :: es =>
    match queue_enqueue q e with
    | some (true, q1) => queue_enqueue_all q1 es
    | _ => none

/-- Dequeue of `n` elements: the elements in the order returned and the queue
left, `none` if a call is refused or undefined. -/
def queue_dequeue_n : queue_t → Nat → Option (List (List Byte) × queue_t)
  | q, 0 => some ([], q)
  | q, n + 1 =>
    match queue_dequeue q with
    | some (some e, q1) =>
      match queue_dequeue_n q1 n with
      | some (es, q2) => some (e :: es, q2)
      | none => none
    | _ => none

/-! ## Kernel semaphore (`semaphore.c`)

A `NULL` semaphore pointer is not represented; the sleep of a failed take with
a non-zero timeout changes no state. -/

/-- The struct `semaphore_t`. -/
structure semaphore_t where
  count : Nat
  max_count : Nat
  deriving DecidableEq, Repr

/-- The function `semaphore_init`. -/
def semaphore_init (initial_count max_count : Nat) : semaphore_t :=
  { count := initial_count, max_count := max_count }

/-- The function `semaphore_take`. -/
def semaphore_take (sem : semaphore_t) (_timeout_ms : Nat) : Bool × semaphore_t :=
  if sem.count > 0 then (true, { sem with count := (sem.count + U32_MOD - 1) % U32_MOD })
  else (false, sem)

/-- The function `semaphore_give`. -/
def semaphore_give (sem : semaphore_t) : Bool × semaphore_t :=
  if sem.count < sem.max_count then (true, { sem with count := (sem.count + 1) % U32_MOD })
  else (false, sem)

/-- The function `semaphore_get_count`. -/
def semaphore_get_count (sem : semaphore_t) : Nat := sem.count

/-! ## Kernel scheduler (`scheduler.c`)

The array `scheduler.tasks` with `task_count` is the list `tasks`. The task
functions are callbacks: they are taken to leave the scheduler, the tasks and
`sys_time_ms` untouched, as the ones of the tests do. A failed `malloc` is not
represented. -/

/-- The constant `MAX_TASKS`. -/
def MAX_TASKS : Nat := 8

/-- The enum `task_state_t`. -/
inductive task_state_t
  | TASK_READY
  | TASK_RUNNING
  | TASK_BLOCKED
  | TASK_SUSPENDED
  deriving DecidableEq, Repr

open task_state_t

/-- The struct `task_t` without the function pointer, its argument and the
name. -/
structure task_t where
  priority : Nat
  period_ms : Nat
  deadline_ms : Nat
  last_run : Nat
  state : task_state_t
  run_count : Nat
  missed_deadlines : Nat
  deriving DecidableEq, Repr

/-- The struct `scheduler_t` together with the static `sys_time_ms`. -/
structure scheduler_t where
  tasks : List task_t
  tick_count : Nat
  idle_time : Nat
  running : Bool
  sys_time_ms : Nat
  deriving DecidableEq, Repr

/-- The function `scheduler_init`. -/
def scheduler_init : scheduler_t :=
  { tasks := [], tick_count := 0, idle_time := 0, running := false, sys_time_ms := 0 }

/-- The function `scheduler_add_task`. -/
def scheduler_add_task (s : scheduler_t) (priority period_ms : Nat) : Bool × scheduler_t :=
  if s.tasks.length ≥ MAX_TASKS then (false, s)
  else
    (true,
      { s with tasks := s.tasks ++
          [{ priority := priority
             period_ms := period_ms
             deadline_ms := period_ms
             last_run := 0
             state := TASK_READY
             run_count := 0
             missed_deadlines := 0 }] })

/-- The loop of `find_highest_priority_task` over the tasks from index `i` on;
`highest` is the index and priority of the task held so far. -/
def find_highest_loop : List task_t → Nat → Option (Nat × Nat) → Option (Nat × Nat)
  | [], _, highest => highest
  | task :: rest, i, highest =>
    if task.state = TASK_READY then
      match highest with
      | none => find_highest_loop rest (i + 1) (some (i, task.priority))
      | some h =>
        if task.priority < h.2 then find_highest_loop rest (i + 1) (some (i, task.priority))
        else find_highest_loop rest (i + 1) (some h)
    else find_highest_loop rest (i + 1) highest

/-- The function `find_highest_priority_task`: the index of the task returned,
`none` for `NULL`. -/
def find_highest_priority_task (tasks : List task_t) : Option Nat :=
  (find_highest_loop tasks 0 none).map Prod.fst

/-- The first loop of `scheduler_tick` on one task: a task whose period has
elapsed at time `now` becomes ready. -/
def release_task (now : Nat) (task : task_t) : task_t :=
  if task.period_ms > 0 ∧ (now + U32_MOD - task.last_run) % U32_MOD ≥ task.period_ms then
    { task with state := TASK_READY }
  else task

/-- The body of `scheduler_tick` for the task chosen: it is marked running,
stamped, counted, called, checked against its deadline and marked ready. -/
def run_task (now : Nat) (task : task_t) : task_t :=
  let t1 : task_t :=
    { task with state := TASK_RUNNING, last_run := now
                run_count := (task.run_count + 1) % U32_MOD }
  let exec_time := (now + U32_MOD - t1.last_run) % U32_MOD
  let t2 : task_t :=
    if exec_time > t1.deadline_ms ∧ t1.deadline_ms > 0 then
      { t1 with missed_deadlines := (t1.missed_deadlines + 1) % U32_MOD }
    else t1
  { t2 with state := TASK_READY }

/-- The function `scheduler_tick`. -/
def scheduler_tick (s : scheduler_t) : scheduler_t :=
  let now := (s.sys_time_ms + 1) % U32_MOD
  let s1 : scheduler_t :=
    { s with tick_count := (s.tick_count + 1) % U32_MOD
             sys_time_ms := now
             tasks := s.tasks.map (release_task now) }
  match find_highest_priority_task s1.tasks with
  | some i =>
    match s1.tasks.get? i with
    | some task =>
      if task.state = TASK_READY then { s1 with tasks := s1.tasks.set i (run_task now task) }
      else { s1 with idle_time := (s1.idle_time + 1) % U32_MOD }
    | none => { s1 with idle_time := (s1.idle_time + 1) % U32_MOD }
  | none => { s1 with idle_time := (s1.idle_time + 1) % U32_MOD }

/-- The loop `for (i = 0; i < n; i++) scheduler_tick();` of the tests. -/
def scheduler_run : Nat → scheduler_t → scheduler_t
  | 0, s => s
  | n + 1, s => scheduler_run n (scheduler_tick s)

/-- The scheduler of `test_scheduler_basic`: a priority-1 task of period 10 and
a priority-2 task of period 20. -/
def test_scheduler : scheduler_t :=
  (scheduler_add_task (scheduler_add_task scheduler_init 1 10).2 2 20).2

/-! ## States reachable through the OTA operations alone -/

/-- The states reachable from `ota_manager_init` through the operations
declared in `ota_manager.h`, the bodies taken with the update slot at `slot`
(the program is the case `slot = APP_SLOT_B_ADDRESS`). The first
`ota_manager_init` runs with the three statistics counters and the validation
callback as their static initialisers leave them. -/
inductive ota_session_reachable (slot : Nat) : System → Prop
  | first_init (s0 : System) :
      s0.total_updates = 0 → s0.successful_updates = 0 → s0.failed_updates = 0 →
      s0.validate_callback = none →
      ota_session_reachable slot (ota_manager_init s0)
  | ota_init (s : System) :
      ota_session_reachable slot s → ota_session_reachable slot (ota_manager_init s)
  | set_validate_callback (s : System) (cb : Option (firmware_header_t → Bool)) :
      ota_session_reachable slot s →
      ota_session_reachable slot (ota_manager_set_validate_callback s cb)
  | start_update (s : System) (total_size chunk_size now : Nat) :
      ota_session_reachable slot s →
      ota_session_reachable slot (ota_manager_start_update_at slot s total_size chunk_size now).2
  | receive_chunk (s : System) (chunk_number : Nat) (data : List Byte) (now : Nat)
      (r : ota_error_t × System) :
      ota_session_reachable slot s →
      ota_manager_receive_chunk_at slot s chunk_number data now = some r →
      ota_session_reachable slot r.2
  | finalize_update (s : System) (r : ota_error_t × System) :
      ota_session_reachable slot s → ota_manager_finalize_update_at slot s = some r →
      ota_session_reachable slot r.2
  | validate_update (s : System) (r : ota_error_t × System) :
      ota_session_reachable slot s → ota_manager_validate_update_at slot s = some r →
      ota_session_reachable slot r.2
  | abort_update (s : System) :
      ota_session_reachable slot s → ota_session_reachable slot (ota_manager_abort_update s).2
  | apply_update (s s1 : System) :
      ota_session_reachable slot s → ota_manager_apply_update_at slot s = some s1 →
      ota_session_reachable slot s1

/-- The predicate of the specification on the flag behind
`ota_manager_is_update_available`: `restart_required` implies that the state is
`COMPLETE` or `UPDATING`. -/
def update_available_sound (s : System) : Prop :=
  ota_manager_is_update_available s = true →
    s.ota_ctx.state = OTA_STATE_COMPLETE ∨ s.ota_ctx.state = OTA_STATE_UPDATING

/-- The session counter invariant as the specification states it. -/
def session_counters_ok (s : System) : Prop :=
  s.ota_ctx.chunk_info.received_bytes ≤ s.ota_ctx.chunk_info.total_size
    ∧ s.ota_ctx.chunk_info.received_chunks = s.ota_ctx.chunk_info.next_expected_chunk
    ∧ s.ota_ctx.chunk_info.received_bytes
        ≤ s.ota_ctx.chunk_info.received_chunks * s.ota_ctx.chunk_info.chunk_size

/-- The session counter invariant together with the bounds that make it
inductive: every chunk holds at least one byte, `chunk_size` is at most 1024 and
`total_size` is at most the bound `start_update` checks it against. -/
def chunk_counters_bounded (bound : Nat) (ci : ota_chunk_info_t) : Prop :=
  ci.received_bytes ≤ ci.total_size
    ∧ ci.received_chunks = ci.next_expected_chunk
    ∧ ci.received_bytes ≤ ci.received_chunks * ci.chunk_size
    ∧ ci.received_chunks ≤ ci.received_bytes
    ∧ ci.chunk_size ≤ 1024
    ∧ ci.total_size ≤ bound

/-- The statistics inequality as the specification states it. -/
def update_statistics_consistent (s : System) : Prop :=
  s.successful_updates + s.failed_updates ≤ s.total_updates

instance (s : System) : Decidable (update_statistics_consistent s) :=
  inferInstanceAs (Decidable (_ ≤ _))

instance (s : System) : Decidable (update_available_sound s) :=
  inferInstanceAs (Decidable (_ → _))

instance (s : System) : Decidable (session_counters_ok s) :=
  inferInstanceAs (Decidable (_ ∧ _))

/-! ## Communication protocol (`comm_protocol.c`)

A buffer is the list of its bytes, its length the `uint16_t` length passed
with it. `NULL` buffers and packets are not represented; a `NULL` handler is
`none`; a `NULL` payload with length 0 is the empty list. The array
`packet->data` is a byte map of which the indices below 256 are the array. -/

/-- The constant `PROTOCOL_START_BYTE`. -/
def PROTOCOL_START_BYTE : Nat := 0xAA
/-- The constant `PROTOCOL_END_BYTE`. -/
def PROTOCOL_END_BYTE : Nat := 0x55
/-- The constant `PROTOCOL_MAX_PACKET_SIZE`. -/
def PROTOCOL_MAX_PACKET_SIZE : Nat := 256
/-- The constant `PROTOCOL_HEADER_SIZE`. -/
def PROTOCOL_HEADER_SIZE : Nat := 6
/-- The constant `PROTOCOL_CRC_SIZE`. -/
def PROTOCOL_CRC_SIZE : Nat := 2
/-- The number of `uint16_t` values. -/
def U16_MOD : Nat := 2 ^ 16

/-- The table `crc_table` of `comm_protocol.c`. -/
def crc_table : List Nat :=
  [0x0000, 0x1021, 0x2042, 0x3063, 0x4084, 0x50A5, 0x60C6, 0x70E7,
   0x8108, 0x9129, 0xA14A, 0xB16B, 0xC18C, 0xD1AD, 0xE1CE, 0xF1EF,
   0x1231, 0x0210, 0x3273, 0x2252, 0x52B5, 0x4294, 0x72F7, 0x62D6,
   0x9339, 0x8318, 0xB37B, 0xA35A, 0xD3BD, 0xC39C, 0xF3FF, 0xE3DE,
   0x2462, 0x3443, 0x0420, 0x1401, 0x64E6, 0x74C7, 0x44A4, 0x5485,
   0xA56A, 0xB54B, 0x8528, 0x9509, 0xE5EE, 0xF5CF, 0xC5AC, 0xD58D,
   0x3653, 0x2672, 0x1611, 0x0630, 0x76D7, 0x66F6, 0x5695, 0x46B4,
   0xB75B, 0xA77A, 0x9719, 0x8738, 0xF7DF, 0xE7FE, 0xD79D, 0xC7BC,
   0x48C4, 0x58E5, 0x6886, 0x78A7, 0x0840, 0x1861, 0x2802, 0x3823,
   0xC9CC, 0xD9ED, 0xE98E, 0xF9AF, 0x8948, 0x9969, 0xA90A, 0xB92B,
   0x5AF5, 0x4AD4, 0x7AB7, 0x6A96, 0x1A71, 0x0A50, 0x3A33, 0x2A12,
   0xDBFD, 0xCBDC, 0xFBBF, 0xEB9E, 0x9B79, 0x8B58, 0xBB3B, 0xAB1A,
   0x6CA6, 0x7C87, 0x4CE4, 0x5CC5, 0x2C22, 0x3C03, 0x0C60, 0x1C41,
   0xEDAE, 0xFD8F, 0xCDEC, 0xDDCD, 0xAD2A, 0xBD0B, 0x8D68, 0x9D49,
   0x7E97, 0x6EB6, 0x5ED5, 0x4EF4, 0x3E13, 0x2E32, 0x1E51, 0x0E70,
   0xFF9F, 0xEFBE, 0xDFDD, 0xCFFC, 0xBF1B, 0xAF3A, 0x9F59, 0x8F78,
   0x9188, 0x81A9, 0xB1CA, 0xA1EB, 0xD10C, 0xC12D, 0xF14E, 0xE16F,
   0x1080, 0x00A1, 0x30C2, 0x20E3, 0x5004, 0x4025, 0x7046, 0x6067,
   0x83B9, 0x9398, 0xA3FB, 0xB3DA, 0xC33D, 0xD31C, 0xE37F, 0xF35E,
   0x02B1, 0x1290, 0x22F3, 0x32D2, 0x4235, 0x5214, 0x6277, 0x7256,
   0xB5EA, 0xA5CB, 0x95A8, 0x8589, 0xF56E, 0xE54F, 0xD52C, 0xC50D,
   0x34E2, 0x24C3, 0x14A0, 0x0481, 0x7466, 0x6447, 0x5424, 0x4405,
   0xA7DB, 0xB7FA, 0x8799, 0x97B8, 0xE75F, 0xF77E, 0xC71D, 0xD73C,
   0x26D3, 0x36F2, 0x0691, 0x16B0, 0x6657, 0x7676, 0x4615, 0x5634,
   0xD94C, 0xC96D, 0xF90E, 0xE92F, 0x99C8, 0x89E9, 0xB98A, 0xA9AB,
   0x5844, 0x4865, 0x7806, 0x6827, 0x18C0, 0x08E1, 0x3882, 0x28A3,
   0xCB7D, 0xDB5C, 0xEB3F, 0xFB1E, 0x8BF9, 0x9BD8, 0xABBB, 0xBB9A,
   0x4A75, 0x5A54, 0x6A37, 0x7A16, 0x0AF1, 0x1AD0, 0x2AB3, 0x3A92,
   0xFD2E, 0xED0F, 0xDD6C, 0xCD4D, 0xBDAA, 0xAD8B, 0x9DE8, 0x8DC9,
   0x7C26, 0x6C07, 0x5C64, 0x4C45, 0x3CA2, 0x2C83, 0x1CE0, 0x0CC1,
   0xEF1F, 0xFF3E, 0xCF5D, 0xDF7C, 0xAF9B, 0xBFBA, 0x8FD9, 0x9FF8,
   0x6E17, 0x7E36, 0x4E55, 0x5E74, 0x2E93, 0x3EB2, 0x0ED1, 0x1EF0]

/-- The loop body of `protocol_calculate_crc`:
`index = (uint8_t)((crc >> 8) ^ data[i]); crc = (crc << 8) ^ crc_table[index];`
with `crc` a `uint16_t`. -/
def crc16_step (crc : Nat) (b : Byte) : Nat :=
  ((crc <<< 8) ^^^ crc_table.getD (((crc >>> 8) ^^^ b.val) % 256) 0) % U16_MOD

/-- The function `protocol_calculate_crc`. -/
def protocol_calculate_crc (data : List Byte) : Nat :=
  data.foldl crc16_step 0xFFFF

/-- The struct `protocol_handler_t`. -/
structure protocol_handler_t where
  sequence_counter : Nat
  bytes_sent : Nat
  bytes_received : Nat
  packets_sent : Nat
  packets_received : Nat
  crc_errors : Nat
  timeout_errors : Nat
  initialized : Bool
  deriving DecidableEq, Repr

/-- The struct `protocol_packet_t`. -/
structure protocol_packet_t where
  start_byte : Byte
  command : Byte
  sequence : Nat
  length : Nat
  data : Nat → Byte
  crc : Nat
  end_byte : Byte

/-- The function `protocol_init`. -/
def protocol_init : protocol_handler_t :=
  { sequence_counter := 1, bytes_sent := 0, bytes_received := 0, packets_sent := 0
    packets_received := 0, crc_errors := 0, timeout_errors := 0, initialized := true }

/-- The bytes of a packet between the start byte and the CRC: command,
sequence number and length most significant byte first, payload. -/
def packet_body (command : Byte) (sequence : Nat) (data : List Byte) : List Byte :=
  [command, toByte (sequence >>> 8), toByte (sequence &&& 0xFF),
   toByte (data.length >>> 8), toByte (data.length &&& 0xFF)] ++ data

/-- The function `protocol_create_packet`: the bytes written to `buffer` (as
many as the value returned; none when it returns 0) and the handler
afterwards. -/
def protocol_create_packet (command : Byte) (data : List Byte) (buffer_size : Nat)
    (handler : Option protocol_handler_t) : List Byte × Option protocol_handler_t :=
  if buffer_size < PROTOCOL_HEADER_SIZE + data.length + PROTOCOL_CRC_SIZE + 2 then ([], handler)
  else if data.length > PROTOCOL_MAX_PACKET_SIZE then ([], handler)
  else
    let sequence :=
      match handler with
      | some h => h.sequence_counter
      | none => 0
    let handler1 := handler.map fun h =>
      { h with
        sequence_counter := (h.sequence_counter + 1) % U16_MOD
        packets_sent := (h.packets_sent + 1) % U32_MOD
        bytes_sent :=
          (h.bytes_sent + (PROTOCOL_HEADER_SIZE + data.length + PROTOCOL_CRC_SIZE + 2))
            % U32_MOD }
    let crc := protocol_calculate_crc (packet_body command sequence data)
    (toByte PROTOCOL_START_BYTE :: packet_body command sequence data
        ++ [toByte (crc >>> 8), toByte (crc &&& 0xFF), toByte PROTOCOL_END_BYTE],
      handler1)

/-- The statement `if (handler) handler->crc_errors++;`. -/
def count_crc_error (handler : Option protocol_handler_t) : Option protocol_handler_t :=
  handler.map fun h => { h with crc_errors := (h.crc_errors + 1) % U32_MOD }

/-- The function `protocol_parse_packet`: the value returned, the packet and
the handler afterwards. Every byte it reads lies inside the buffer: the
indices 0 to 5 and `buffer_len - 1` because `buffer_len >= 10`, the indices
`6 + length` and `7 + length` because `buffer_len = length + 9` by then. -/
def protocol_parse_packet (buffer : List Byte) (packet : protocol_packet_t)
    (handler : Option protocol_handler_t) :
    Bool × protocol_packet_t × Option protocol_handler_t :=
  let buffer_len := buffer.length
  if buffer_len < PROTOCOL_HEADER_SIZE + PROTOCOL_CRC_SIZE + 2 then (false, packet, handler)
  else if (buffer.getD 0 0).val ≠ PROTOCOL_START_BYTE then (false, packet, handler)
  else if (buffer.getD (buffer_len - 1) 0).val ≠ PROTOCOL_END_BYTE then (false, packet, handler)
  else
    let p1 : protocol_packet_t :=
      { packet with
        start_byte := buffer.getD 0 0
        command := buffer.getD 1 0
        sequence := (((buffer.getD 2 0).val <<< 8) ||| (buffer.getD 3 0).val) % U16_MOD
        length := (((buffer.getD 4 0).val <<< 8) ||| (buffer.getD 5 0).val) % U16_MOD }
    let expected_packet_size :=
      (PROTOCOL_HEADER_SIZE + p1.length + PROTOCOL_CRC_SIZE + 1) % U16_MOD
    if buffer_len ≠ expected_packet_size then (false, p1, count_crc_error handler)
    else
      let p2 : protocol_packet_t :=
        if p1.length > 0 ∧ p1.length ≤ PROTOCOL_MAX_PACKET_SIZE then
          { p1 with data := memcpy_to_flash p1.data 0 ((buffer.drop 6).take p1.length) }
        else p1
      let received_crc :=
        (((buffer.getD (6 + p1.length) 0).val <<< 8) ||| (buffer.getD (7 + p1.length) 0).val)
          % U16_MOD
      let calculated_crc :=
        protocol_calculate_crc ((buffer.drop 1).take ((5 + p1.length) % U16_MOD))
      let p3 : protocol_packet_t :=
        { p2 with crc := received_crc, end_byte := buffer.getD (buffer_len - 1) 0 }
      if received_crc ≠ calculated_crc then (false, p3, count_crc_error handler)
      else
        (true, p3,
          handler.map fun h =>
            { h with
              packets_received := (h.packets_received + 1) % U32_MOD
              bytes_received := (h.bytes_received + buffer_len) % U32_MOD })

/-- A packet with every field zero, as a caller's fresh `protocol_packet_t`. -/
def empty_packet : protocol_packet_t :=
  { start_byte := 0, command := 0, sequence := 0, length := 0, data := fun _ => 0
    crc := 0, end_byte := 0 }

/-! # Theorems -/

set_option maxRecDepth 100000

/-! ## Arithmetic of the machine words -/

theorem page_mask_eq (a : Nat) (h : a < 2 ^ 32) :
    a &&& (0xFFFFFFFF ^^^ (FLASH_PAGE_SIZE - 1)) = a - a % 0x800 := by
  have hm : (0xFFFFFFFF ^^^ (FLASH_PAGE_SIZE - 1) : Nat) = (2 ^ 21 - 1) <<< 11 := by decide
  have hs : a - a % 0x800 = (a >>> 11) <<< 11 := by
    rw [Nat.shiftLeft_eq, Nat.shiftRight_eq_div_pow]
    have := Nat.div_add_mod a (2 ^ 11)
    norm_num at *
    omega
  rw [hm, hs]
  apply Nat.eq_of_testBit_eq
  intro i
  simp only [Nat.testBit_and, Nat.testBit_shiftLeft, Nat.testBit_shiftRight,
    Nat.testBit_two_pow_sub_one]
  by_cases hi : 11 ≤ i
  · have e : 11 + (i - 11) = i := by omega
    simp only [hi, ge_iff_le, decide_True, Bool.true_and, e]
    by_cases hj : i - 11 < 21
    · simp [hj]
    · simp only [hj, decide_False, Bool.and_false]
      symm
      apply Nat.testBit_lt_two_pow
      calc a < 2 ^ 32 := h
        _ ≤ 2 ^ i := Nat.pow_le_pow_right (by decide) (by omega)
  · simp [hi]

theorem or_shift_eq_le32 (b0 b1 b2 b3 : Byte) :
    (b0.val ||| (b1.val <<< 8) ||| (b2.val <<< 16) ||| (b3.val <<< 24)) % U32_MOD
      = le32 b0 b1 b2 b3 := by
  have h0 := b0.isLt
  have h1 := b1.isLt
  have h2 := b2.isLt
  have h3 := b3.isLt
  have e1 : (b1.val <<< 8) ||| b0.val = 2 ^ 8 * b1.val + b0.val := by
    rw [Nat.shiftLeft_eq, Nat.mul_comm]; exact (Nat.mul_add_lt_is_or (by omega) _).symm
  have e2 : (b2.val <<< 16) ||| (2 ^ 8 * b1.val + b0.val)
      = 2 ^ 16 * b2.val + (2 ^ 8 * b1.val + b0.val) := by
    rw [Nat.shiftLeft_eq, Nat.mul_comm]; exact (Nat.mul_add_lt_is_or (by omega) _).symm
  have e3 : (b3.val <<< 24) ||| (2 ^ 16 * b2.val + (2 ^ 8 * b1.val + b0.val))
      = 2 ^ 24 * b3.val + (2 ^ 16 * b2.val + (2 ^ 8 * b1.val + b0.val)) := by
    rw [Nat.shiftLeft_eq, Nat.mul_comm]; exact (Nat.mul_add_lt_is_or (by omega) _).symm
  rw [Nat.or_comm b0.val, e1, Nat.or_comm _ (b2.val <<< 16), e2,
    Nat.or_comm _ (b3.val <<< 24), e3]
  simp only [le32, U32_MOD]
  omega

theorem le32_split (v : Nat) (h : v < 2 ^ 32) :
    le32 (toByte (v &&& 0xFF)) (toByte ((v >>> 8) &&& 0xFF)) (toByte ((v >>> 16) &&& 0xFF))
      (toByte ((v >>> 24) &&& 0xFF)) = v := by
  have e : ∀ x, x &&& 0xFF = x % 256 := fun x => Nat.and_pow_two_sub_one_eq_mod x 8
  simp only [le32, toByte, e, Nat.shiftRight_eq_div_pow]
  omega

theorem le32_lt (b0 b1 b2 b3 : Byte) : le32 b0 b1 b2 b3 < 2 ^ 32 := by
  have h0 := b0.isLt
  have h1 := b1.isLt
  have h2 := b2.isLt
  have h3 := b3.isLt
  simp only [le32]
  omega

/-! ## Flash primitives -/

theorem flash_erase_page_out_of_range (f : Flash) (a : Nat) (h : FLASH_TOTAL_SIZE ≤ a) :
    flash_erase_page f a = (BOOT_ERROR_FLASH_ERASE, f) := by
  simp [flash_erase_page, h]

theorem flash_erase_page_in_range (f : Flash) (a : Nat) (h : a < FLASH_TOTAL_SIZE) :
    flash_erase_page f a = (BOOT_OK, memset f (page_of a) 0xFF FLASH_PAGE_SIZE) := by
  have h32 : a < 2 ^ 32 := lt_trans h (by decide)
  unfold flash_erase_page
  rw [if_neg (Nat.not_le.mpr h)]
  simp only [page_mask_eq a h32, page_of]
  rfl

theorem any_not_erased_iff (f : Flash) (a : Nat) :
    (List.range 4).any (fun i => decide (f (a + i) ≠ 0xFF)) = true ↔ ¬ word_erased f a := by
  simp only [word_erased]
  simp [List.range_succ]
  tauto

theorem flash_write_word_ok_iff (f : Flash) (a v : Nat) :
    (flash_write_word f a v).1 = BOOT_OK ↔ (a + 4 ≤ FLASH_TOTAL_SIZE ∧ word_erased f a) := by
  unfold flash_write_word
  by_cases h1 : a ≥ FLASH_TOTAL_SIZE - 3
  · simp only [h1, if_true]
    constructor
    · intro h; cases h
    · intro h; simp only [FLASH_TOTAL_SIZE] at h h1; omega
  · simp only [h1, if_false]
    by_cases h2 : (List.range 4).any (fun i => decide (f (a + i) ≠ 0xFF)) = true
    · simp only [h2, if_true]
      constructor
      · intro h; cases h
      · intro h; exact absurd h.2 ((any_not_erased_iff f a).1 h2)
    · simp only [h2]
      constructor
      · intro _
        refine ⟨by simp only [FLASH_TOTAL_SIZE] at h1 ⊢; omega, ?_⟩
        by_contra hc
        exact h2 ((any_not_erased_iff f a).2 hc)
      · intro _; rfl

theorem flash_write_word_fail (f : Flash) (a v : Nat)
    (h : (flash_write_word f a v).1 ≠ BOOT_OK) :
    flash_write_word f a v = (BOOT_ERROR_FLASH_WRITE, f) := by
  unfold flash_write_word at h ⊢
  by_cases h1 : a ≥ FLASH_TOTAL_SIZE - 3
  · simp only [h1, if_true]
  · by_cases h2 : (List.range 4).any (fun i => decide (f (a + i) ≠ 0xFF)) = true
    · simp only [h1, h2, if_true, if_false]
    · simp only [h1, h2, if_false] at h
      exact absurd rfl h

theorem flash_write_word_ok (f : Flash) (a v : Nat)
    (h : (flash_write_word f a v).1 = BOOT_OK) :
    (flash_write_word f a v).2 = fun i =>
      if i = a then toByte (v &&& 0xFF)
      else if i = a + 1 then toByte ((v >>> 8) &&& 0xFF)
      else if i = a + 2 then toByte ((v >>> 16) &&& 0xFF)
      else if i = a + 3 then toByte ((v >>> 24) &&& 0xFF)
      else f i := by
  unfold flash_write_word at h ⊢
  by_cases h1 : a ≥ FLASH_TOTAL_SIZE - 3
  · simp only [h1, if_true] at h; cases h
  · by_cases h2 : (List.range 4).any (fun i => decide (f (a + i) ≠ 0xFF)) = true
    · simp only [h1, h2, if_true, if_false] at h; cases h
    · simp only [h1, h2, if_false, Bool.false_eq_true]
      funext i
      simp only [Function.update_apply]
      by_cases e3 : i = a + 3
      · subst e3; simp
      · by_cases e2 : i = a + 2
        · subst e2; simp
        · by_cases e1 : i = a + 1
          · subst e1; simp
          · simp [e1, e2, e3]

theorem flash_read_word_in_range (f : Flash) (a : Nat) (h : a + 4 ≤ FLASH_TOTAL_SIZE) :
    flash_read_word f a = flash_le32 f a := by
  unfold flash_read_word
  rw [if_neg (by simp only [FLASH_TOTAL_SIZE] at h ⊢; omega), or_shift_eq_le32]
  rfl

theorem flash_le32_after_write (f : Flash) (a v : Nat) (hv : v < 2 ^ 32)
    (h : (flash_write_word f a v).1 = BOOT_OK) :
    flash_le32 (flash_write_word f a v).2 a = v := by
  rw [flash_write_word_ok f a v h]
  simpa [flash_le32] using le32_split v hv

theorem word_erased_le32 (f : Flash) (a : Nat) (h : word_erased f a) :
    flash_le32 f a = 0xFFFFFFFF := by
  obtain ⟨h0, h1, h2, h3⟩ := h
  simp only [flash_le32, h0, h1, h2, h3]
  decide

theorem word_erased_after_erase (f : Flash) (p a : Nat) (hp : p < FLASH_TOTAL_SIZE)
    (hlo : page_of p ≤ a) (hhi : a + 4 ≤ page_of p + FLASH_PAGE_SIZE) :
    word_erased (flash_erase_page f p).2 a := by
  rw [flash_erase_page_in_range f p hp]
  have hin : ∀ i, i < 4 → memset f (page_of p) 0xFF FLASH_PAGE_SIZE (a + i) = 0xFF := by
    intro i hi
    unfold memset
    rw [if_pos ⟨by omega, by omega⟩]
  exact ⟨hin 0 (by omega), hin 1 (by omega), hin 2 (by omega), hin 3 (by omega)⟩

/-! ## Firmware validation -/

theorem sizeof_firmware_header_t_eq : sizeof_firmware_header_t = 80 := by decide

theorem flash_le32_lt (f : Flash) (a : Nat) : flash_le32 f a < 2 ^ 32 :=
  le32_lt _ _ _ _

theorem read_header_in_range (f : Flash) (a : Nat) (h : a + 80 ≤ FLASH_TOTAL_SIZE) :
    read_header f a = some (decode_header f a) := by
  unfold read_header
  rw [if_pos (by rw [sizeof_firmware_header_t_eq]; exact h)]

theorem decode_header_size_lt (f : Flash) (a : Nat) : (decode_header f a).size < 2 ^ 32 :=
  flash_le32_lt _ _

/-- What `bootloader_validate_firmware` computes when the header lies inside
the flash: the three checks in order, with no defined result when the size
field is positive but below the header length (the CRC length wraps and the
CRC loop leaves the array). -/
theorem bootloader_validate_firmware_in_range (f : Flash) (a : Nat)
    (h : a + 80 ≤ FLASH_TOTAL_SIZE) :
    bootloader_validate_firmware f a =
      if (decode_header f a).magic ≠ FIRMWARE_MAGIC then some BOOT_ERROR_MAGIC_MISMATCH
      else if (decode_header f a).size = 0 ∨ (decode_header f a).size > FLASH_TOTAL_SIZE - a then
        some BOOT_ERROR_INVALID_SIZE
      else if (decode_header f a).size < 80 then none
      else if calculate_crc32 (flash_slice f (a + 80) ((decode_header f a).size - 80))
          ≠ (decode_header f a).crc32 then some BOOT_ERROR_CRC_MISMATCH
      else some BOOT_OK := by
  have hT : FLASH_TOTAL_SIZE = 1048576 := rfl
  have hU : U32_MOD = 4294967296 := rfl
  have hlt := decode_header_size_lt f a
  unfold bootloader_validate_firmware
  rw [if_neg (by omega), read_header_in_range f a h]
  simp only [Option.bind_eq_bind, Option.some_bind]
  by_cases hm : (decode_header f a).magic ≠ FIRMWARE_MAGIC
  · rw [if_pos hm, if_pos hm]
  · rw [if_neg hm, if_neg hm]
    by_cases hs : (decode_header f a).size = 0 ∨ (decode_header f a).size > FLASH_TOTAL_SIZE - a
    · rw [if_pos hs, if_pos hs]
    · rw [if_neg hs, if_neg hs]
      rw [sizeof_firmware_header_t_eq]
      by_cases hsm : (decode_header f a).size < 80
      · rw [if_pos hsm]
        have hn : ((decode_header f a).size + U32_MOD - 80) % U32_MOD
            = (decode_header f a).size + 4294967216 := by
          rw [hU]; omega
        unfold flash_read_bytes
        rw [hn, if_neg (by omega)]
        rfl
      · rw [if_neg hsm]
        have hn : ((decode_header f a).size + U32_MOD - 80) % U32_MOD
            = (decode_header f a).size - 80 := by
          rw [hU]; omega
        unfold flash_read_bytes
        rw [hn, if_pos (by omega)]
        rfl

/-! ## Claims on the CRC and the flash primitives -/

/-- C5: `calculate_crc32` on the nine ASCII bytes "123456789" returns the
check value `0xCBF43926` of the standard reflected CRC32, on the empty input
it returns `0`, and every result is a 32-bit value. -/
theorem calculate_crc32_check_value :
    calculate_crc32 [0x31, 0x32, 0x33, 0x34, 0x35, 0x36, 0x37, 0x38, 0x39] = 0xCBF43926
      ∧ calculate_crc32 [] = 0
      ∧ ∀ data, calculate_crc32 data < 2 ^ 32 := by
  refine ⟨by decide, by decide, fun data => ?_⟩
  exact Nat.mod_lt _ (by decide)

/-- C6: `flash_write_word(address, value)` succeeds exactly when
`address + 4 <= FLASH_TOTAL_SIZE` and the four target bytes are `0xFF`; on
success the four bytes hold `value` least significant byte first,
`flash_read_word(address)` returns `value` and every other byte is unchanged;
on failure the flash is unchanged. -/
theorem flash_write_word_spec (f : Flash) (address value : Nat) (hv : value < 2 ^ 32) :
    ((flash_write_word f address value).1 = BOOT_OK
        ↔ (address + 4 ≤ FLASH_TOTAL_SIZE ∧ ∀ i, i < 4 → f (address + i) = 0xFF))
      ∧ ((flash_write_word f address value).1 = BOOT_OK →
          ((flash_write_word f address value).2 address).val = value % 256
          ∧ ((flash_write_word f address value).2 (address + 1)).val = value / 2 ^ 8 % 256
          ∧ ((flash_write_word f address value).2 (address + 2)).val = value / 2 ^ 16 % 256
          ∧ ((flash_write_word f address value).2 (address + 3)).val = value / 2 ^ 24 % 256
          ∧ flash_read_word (flash_write_word f address value).2 address = value
          ∧ ∀ i, (i < address ∨ address + 4 ≤ i) → (flash_write_word f address value).2 i = f i)
      ∧ ((flash_write_word f address value).1 ≠ BOOT_OK →
          (flash_write_word f address value).2 = f) := by
  have hE : (∀ i, i < 4 → f (address + i) = 0xFF) ↔ word_erased f address := by
    constructor
    · intro h
      exact ⟨h 0 (by omega), h 1 (by omega), h 2 (by omega), h 3 (by omega)⟩
    · rintro ⟨h0, h1, h2, h3⟩ i hi
      have : i = 0 ∨ i = 1 ∨ i = 2 ∨ i = 3 := by omega
      rcases this with rfl | rfl | rfl | rfl
      · exact h0
      · exact h1
      · exact h2
      · exact h3
  refine ⟨?_, ?_, ?_⟩
  · rw [flash_write_word_ok_iff, hE]
  · intro hok
    have hb := ((flash_write_word_ok_iff f address value).1 hok).1
    have e : ∀ x, x &&& 0xFF = x % 256 := fun x => Nat.and_pow_two_sub_one_eq_mod x 8
    rw [flash_write_word_ok f address value hok]
    refine ⟨?_, ?_, ?_, ?_, ?_, ?_⟩
    · simp [toByte, e]
    · simp [toByte, e, Nat.shiftRight_eq_div_pow]
    · simp [toByte, e, Nat.shiftRight_eq_div_pow]
    · simp [toByte, e, Nat.shiftRight_eq_div_pow]
    · unfold flash_read_word
      rw [if_neg (by simp only [FLASH_TOTAL_SIZE] at hb ⊢; omega), or_shift_eq_le32]
      simpa using le32_split value hv
    · intro i hi
      have h0 : i ≠ address := by omega
      have h1 : i ≠ address + 1 := by omega
      have h2 : i ≠ address + 2 := by omega
      have h3 : i ≠ address + 3 := by omega
      simp [h0, h1, h2, h3]
  · intro hfail
    rw [flash_write_word_fail f address value hfail]

/-- Witness of C6 on an erased flash: writing `0x12345678` at address 16. -/
theorem flash_write_word_spec_witness :
    (0x12345678 : Nat) < 2 ^ 32
      ∧ flash_read_word (flash_write_word (flash_of_bytes []) 16 0x12345678).2 16 = 0x12345678 :=
  ⟨by decide,
    ((flash_write_word_spec (flash_of_bytes []) 16 0x12345678 (by decide)).2.1
      (by decide)).2.2.2.2.1⟩

/-- C8: for `address < FLASH_TOTAL_SIZE`, `flash_erase_page` succeeds, the page
it erases starts at `address` rounded down to a multiple of `0x800`, contains
`address`, lies inside the flash, every byte of it becomes `0xFF` and no other
byte changes; for `address >= FLASH_TOTAL_SIZE` it fails and changes nothing. -/
theorem flash_erase_page_spec (f : Flash) (address : Nat) :
    (address < FLASH_TOTAL_SIZE →
        (flash_erase_page f address).1 = BOOT_OK
        ∧ page_of address % 0x800 = 0
        ∧ page_of address ≤ address ∧ address < page_of address + 0x800
        ∧ page_of address + 0x800 ≤ FLASH_TOTAL_SIZE
        ∧ (∀ i, page_of address ≤ i → i < page_of address + 0x800 →
            (flash_erase_page f address).2 i = 0xFF)
        ∧ (∀ i, (i < page_of address ∨ page_of address + 0x800 ≤ i) →
            (flash_erase_page f address).2 i = f i))
      ∧ (FLASH_TOTAL_SIZE ≤ address →
          flash_erase_page f address = (BOOT_ERROR_FLASH_ERASE, f)) := by
  refine ⟨fun h => ?_, flash_erase_page_out_of_range f address⟩
  rw [flash_erase_page_in_range f address h]
  have hp : page_of address = address - address % 2048 := rfl
  have hT : FLASH_TOTAL_SIZE = 1048576 := rfl
  rw [hT] at h ⊢
  refine ⟨rfl, by omega, by omega, by omega, by omega, ?_, ?_⟩
  · intro i h1 h2
    have : page_of address ≤ i ∧ i < page_of address + FLASH_PAGE_SIZE := ⟨h1, h2⟩
    show memset f (page_of address) 0xFF FLASH_PAGE_SIZE i = 0xFF
    unfold memset
    rw [if_pos this]
  · intro i hi
    have : ¬ (page_of address ≤ i ∧ i < page_of address + FLASH_PAGE_SIZE) := by
      have hS : FLASH_PAGE_SIZE = 2048 := rfl
      omega
    show memset f (page_of address) 0xFF FLASH_PAGE_SIZE i = f i
    unfold memset
    rw [if_neg this]

/-- Witness of C8: erasing the page of address `0x1234` in a flash whose
first bytes are not erased. -/
theorem flash_erase_page_spec_witness :
    (0x1234 : Nat) < FLASH_TOTAL_SIZE
      ∧ (flash_erase_page (fun _ => 0) 0x1234).1 = BOOT_OK
      ∧ FLASH_TOTAL_SIZE ≤ 0x100000
      ∧ flash_erase_page (fun _ => 0) 0x100000 = (BOOT_ERROR_FLASH_ERASE, fun _ => 0) :=
  ⟨by decide, ((flash_erase_page_spec (fun _ => 0) 0x1234).1 (by decide)).1, by decide,
    (flash_erase_page_spec (fun _ => 0) 0x100000).2 (by decide)⟩

/-- C7 as stated fails: after erasing page 0, writing `0xFFFFFFFF` at address 0
succeeds and leaves the word erased, so a second write (of `0`) to the same
address succeeds as well. -/
theorem erase_write_twice_counterexample :
    (0 : Nat) < FLASH_TOTAL_SIZE
      ∧ (flash_write_word (flash_erase_page (fun _ => 0) 0).2 0 0xFFFFFFFF).1 = BOOT_OK
      ∧ (flash_write_word
          (flash_write_word (flash_erase_page (fun _ => 0) 0).2 0 0xFFFFFFFF).2 0 0).1
          = BOOT_OK := by
  decide

/-- C7 (amended): after `flash_erase_page(p)` on an in-range address, for every
4-byte-aligned address inside that page, every 32-bit `v1` other than
`0xFFFFFFFF` and every `v2`, the first `flash_write_word(address, v1)` succeeds
and a second `flash_write_word(address, v2)` fails with the write error and
leaves the flash as the first write left it, the word still reading `v1`. -/
theorem erase_then_write_once (f : Flash) (p address v1 v2 : Nat)
    (hp : p < FLASH_TOTAL_SIZE)
    (hlo : page_of p ≤ address) (hhi : address < page_of p + FLASH_PAGE_SIZE)
    (hal : address % 4 = 0) (h1 : v1 < 2 ^ 32) (hne : v1 ≠ 0xFFFFFFFF) :
    (flash_write_word (flash_erase_page f p).2 address v1).1 = BOOT_OK
      ∧ flash_write_word (flash_write_word (flash_erase_page f p).2 address v1).2 address v2
          = (BOOT_ERROR_FLASH_WRITE, (flash_write_word (flash_erase_page f p).2 address v1).2)
      ∧ flash_read_word
          (flash_write_word (flash_write_word (flash_erase_page f p).2 address v1).2 address v2).2
          address = v1 := by
  have hpage : page_of p = p - p % 2048 := rfl
  have hS : FLASH_PAGE_SIZE = 2048 := rfl
  have hT : FLASH_TOTAL_SIZE = 1048576 := rfl
  have hend : address + 4 ≤ page_of p + FLASH_PAGE_SIZE := by omega
  have hin : address + 4 ≤ FLASH_TOTAL_SIZE := by omega
  have hok : (flash_write_word (flash_erase_page f p).2 address v1).1 = BOOT_OK :=
    (flash_write_word_ok_iff _ address v1).2 ⟨hin, word_erased_after_erase f p address hp hlo hend⟩
  have hval := flash_le32_after_write (flash_erase_page f p).2 address v1 h1 hok
  have hnot : (flash_write_word (flash_write_word (flash_erase_page f p).2 address v1).2
      address v2).1 ≠ BOOT_OK := by
    intro hc
    have he := ((flash_write_word_ok_iff _ address v2).1 hc).2
    rw [word_erased_le32 _ address he] at hval
    exact hne hval.symm
  have hfail := flash_write_word_fail _ address v2 hnot
  refine ⟨hok, hfail, ?_⟩
  rw [hfail, flash_read_word_in_range _ address hin]
  exact hval

/-- Witness of the amended C7: page of address `0x1234`, word at `0x1000`,
values `0xCAFEBABE` then `0`. -/
theorem erase_then_write_once_witness :
    0x1234 < FLASH_TOTAL_SIZE ∧ 0x1000 % 4 = 0 ∧ (0xCAFEBABE : Nat) ≠ 0xFFFFFFFF
      ∧ flash_write_word
          (flash_write_word (flash_erase_page (fun _ => 0) 0x1234).2 0x1000 0xCAFEBABE).2 0x1000 0
        = (BOOT_ERROR_FLASH_WRITE,
            (flash_write_word (flash_erase_page (fun _ => 0) 0x1234).2 0x1000 0xCAFEBABE).2) :=
  ⟨by decide, by decide, by decide,
    (erase_then_write_once (fun _ => 0) 0x1234 0x1000 0xCAFEBABE 0 (by decide) (by decide)
      (by decide) (by decide) (by decide) (by decide)).2.1⟩

/-- C3 at the failing input: a flash holding, at address 0, a header with the
right magic, size field 1 and crc32 field 0 (the CRC32 of the empty range
`[80, 1)`). The claim gives `BOOT_OK`; in the code the CRC length
`1 - 80` wraps to `0xFFFFFFB1`, the CRC loop runs past the end of
`flash_memory` and the call has no defined result. -/
theorem validate_firmware_size_below_header :
    0 + 80 ≤ FLASH_TOTAL_SIZE
      ∧ (decode_header (flash_of_bytes (header_image FIRMWARE_MAGIC 1 0 0 1 0 0)) 0).magic
          = FIRMWARE_MAGIC
      ∧ (decode_header (flash_of_bytes (header_image FIRMWARE_MAGIC 1 0 0 1 0 0)) 0).size = 1
      ∧ (decode_header (flash_of_bytes (header_image FIRMWARE_MAGIC 1 0 0 1 0 0)) 0).crc32
          = calculate_crc32 []
      ∧ (1 + U32_MOD - sizeof_firmware_header_t) % U32_MOD = 0xFFFFFFB1
      ∧ bootloader_validate_firmware
          (flash_of_bytes (header_image FIRMWARE_MAGIC 1 0 0 1 0 0)) 0 = none := by
  decide

/-- C4 at the failing input: a flash holding, at address 0, a header with the
right magic, size field 80 (exactly the header length, no payload byte) and
crc32 field 0. `bootloader_validate_firmware` returns `BOOT_OK` although
`size > header_length` does not hold. -/
theorem validate_firmware_accepts_header_only_image :
    bootloader_validate_firmware
        (flash_of_bytes (header_image FIRMWARE_MAGIC 1 0 0 80 0 0)) 0 = some BOOT_OK
      ∧ (decode_header (flash_of_bytes (header_image FIRMWARE_MAGIC 1 0 0 80 0 0)) 0).size = 80
      ∧ ¬ (80 > sizeof_firmware_header_t) := by
  decide

/-- C9: the members of `firmware_header_t` lie at offsets 0, 4, 8, 12, 16, 32,
36, 40, 44, 48 and the header is 80 bytes long; the header copied out of the
flash at `a` has each 32-bit member equal to the little-endian word
`flash_read_word` returns at that offset, the version string the 16 bytes at
`a + 16` and the reserved area the 32 bytes at `a + 48`; and for a header with
the right magic and a size between 80 and the room left in the flash, the CRC
that `bootloader_validate_firmware` compares with the crc32 member is taken
over the bytes from `a + 80` up to `a + size`. -/
theorem firmware_header_layout (f : Flash) (a : Nat) (h : a + 80 ≤ FLASH_TOTAL_SIZE) :
    firmware_header_members.map offsetof = [0, 4, 8, 12, 16, 32, 36, 40, 44, 48]
      ∧ sizeof_firmware_header_t = 80
      ∧ read_header f a = some
          { magic := flash_read_word f a
            version_major := flash_read_word f (a + 4)
            version_minor := flash_read_word f (a + 8)
            version_patch := flash_read_word f (a + 12)
            version_string := flash_slice f (a + 16) 16
            timestamp := flash_read_word f (a + 32)
            size := flash_read_word f (a + 36)
            crc32 := flash_read_word f (a + 40)
            entry_point := flash_read_word f (a + 44)
            reserved := flash_slice f (a + 48) 32 }
      ∧ flash_read_word f a
          = (f a).val + 256 * (f (a + 1)).val + 65536 * (f (a + 2)).val
              + 16777216 * (f (a + 3)).val
      ∧ ((decode_header f a).magic = FIRMWARE_MAGIC → 80 ≤ (decode_header f a).size →
          (decode_header f a).size ≤ FLASH_TOTAL_SIZE - a →
          bootloader_validate_firmware f a = some
            (if calculate_crc32 (flash_slice f (a + 80) ((decode_header f a).size - 80))
                = (decode_header f a).crc32 then BOOT_OK else BOOT_ERROR_CRC_MISMATCH)) := by
  have hT : FLASH_TOTAL_SIZE = 1048576 := rfl
  have hr : ∀ k, k ≤ 76 → flash_read_word f (a + k) = flash_le32 f (a + k) := fun k hk =>
    flash_read_word_in_range f (a + k) (by omega)
  refine ⟨by decide, by decide, ?_, ?_, ?_⟩
  · rw [read_header_in_range f a h, hr 4 (by omega), hr 8 (by omega), hr 12 (by omega),
      hr 32 (by omega), hr 36 (by omega), hr 40 (by omega), hr 44 (by omega),
      flash_read_word_in_range f a (by omega)]
    rfl
  · rw [flash_read_word_in_range f a (by omega)]
    rfl
  · intro hm hlo hhi
    rw [bootloader_validate_firmware_in_range f a h, if_neg (by simp [hm]),
      if_neg (by omega), if_neg (by omega)]
    by_cases hc : calculate_crc32 (flash_slice f (a + 80) ((decode_header f a).size - 80))
        = (decode_header f a).crc32
    · simp [hc]
    · simp [hc]

/-- Witness of C9: an 84-byte image (header and the payload 1, 2, 3, 4 with
its CRC32 `0xB63CFBCD`) at address 0 validates. -/
theorem firmware_header_layout_witness :
    0 + 80 ≤ FLASH_TOTAL_SIZE
      ∧ bootloader_validate_firmware
          (flash_of_bytes (header_image FIRMWARE_MAGIC 1 2 3 84 0xB63CFBCD 7 ++ [1, 2, 3, 4])) 0
        = some BOOT_OK :=
  ⟨by decide,
    ((firmware_header_layout
      (flash_of_bytes (header_image FIRMWARE_MAGIC 1 2 3 84 0xB63CFBCD 7 ++ [1, 2, 3, 4])) 0
      (by decide)).2.2.2.2 (by decide) (by decide) (by decide)).trans (by decide)⟩

/-! ## Version test of `bootloader_check_update` -/

theorem firmware_version_word_eq (h : firmware_header_t)
    (hM : h.version_major < 2 ^ 16) (hm : h.version_minor < 2 ^ 8) (hp : h.version_patch < 2 ^ 8) :
    firmware_version_word h = 65536 * h.version_major + 256 * h.version_minor + h.version_patch := by
  have hU : U32_MOD = 4294967296 := rfl
  have e1 : (h.version_major <<< 16) % U32_MOD = 2 ^ 8 * (2 ^ 8 * h.version_major) := by
    rw [Nat.shiftLeft_eq, hU]; omega
  have e2 : (h.version_minor <<< 8) % U32_MOD = 2 ^ 8 * h.version_minor := by
    rw [Nat.shiftLeft_eq, hU]; omega
  have e3 : 2 ^ 8 * (2 ^ 8 * h.version_major) = 2 ^ 16 * h.version_major := by omega
  have o1 : 2 ^ 16 * h.version_major ||| 2 ^ 8 * h.version_minor
      = 2 ^ 16 * h.version_major + 2 ^ 8 * h.version_minor :=
    (Nat.mul_add_lt_is_or (by omega) _).symm
  have e4 : 2 ^ 16 * h.version_major + 2 ^ 8 * h.version_minor
      = 2 ^ 8 * (2 ^ 8 * h.version_major + h.version_minor) := by omega
  have o2 : 2 ^ 8 * (2 ^ 8 * h.version_major + h.version_minor) ||| h.version_patch
      = 2 ^ 8 * (2 ^ 8 * h.version_major + h.version_minor) + h.version_patch :=
    (Nat.mul_add_lt_is_or hp _).symm
  unfold firmware_version_word
  rw [e1, e2, e3, o1, e4, o2]
  omega

theorem bootloader_check_update_pending (f : Flash) (ctx : bootloader_context_t)
    (e : bootloader_error_t) (ctx' : bootloader_context_t)
    (h : bootloader_check_update f ctx = some (e, ctx')) :
    ctx'.update_pending
      = (decide (e = BOOT_OK) && update_is_newer ctx.active_header ctx'.update_header) := by
  unfold bootloader_check_update at h
  simp only [Option.bind_eq_bind] at h
  cases hv : bootloader_validate_firmware f APP_SLOT_B_ADDRESS with
  | none => rw [hv] at h; simp at h
  | some err =>
    rw [hv] at h
    simp only [Option.some_bind] at h
    by_cases he : err = BOOT_OK
    · rw [if_pos he] at h
      cases hr : read_header f APP_SLOT_B_ADDRESS with
      | none => rw [hr] at h; simp at h
      | some hd =>
        rw [hr] at h
        simp only [Option.some_bind] at h
        by_cases hn : update_is_newer ctx.active_header hd = true
        · rw [if_pos hn] at h
          simp only [Option.some.injEq, Prod.mk.injEq] at h
          obtain ⟨h1, h2⟩ := h
          subst h1 h2
          simp [hn]
        · rw [if_neg hn] at h
          simp only [Option.some.injEq, Prod.mk.injEq] at h
          obtain ⟨h1, h2⟩ := h
          subst h1 h2
          simp [hn]
    · rw [if_neg he] at h
      simp only [Option.some.injEq, Prod.mk.injEq] at h
      obtain ⟨h1, h2⟩ := h
      subst h1 h2
      simp [he]

/-- C10 as stated fails: update version (0, 1, 0) is lexicographically greater
than active version (0, 0, 256), both packed words are 256, and the version test
of `bootloader_check_update` does not treat the update as newer. -/
theorem version_test_not_lexicographic :
    version_lex_gt (version_triple (header_with_version 0 1 0))
        (version_triple (header_with_version 0 0 256))
      ∧ (header_with_version 0 0 256).version_patch < 2 ^ 32
      ∧ firmware_version_word (header_with_version 0 1 0) = 256
      ∧ firmware_version_word (header_with_version 0 0 256) = 256
      ∧ update_is_newer (header_with_version 0 0 256) (header_with_version 0 1 0) = false :=
  ⟨Or.inr ⟨rfl, Or.inl (by decide)⟩, by decide, by decide, by decide, by decide⟩

/-- C10 (amended): when, in both headers, the major version is below 65536 and
the minor and patch versions are below 256, the version test of
`bootloader_check_update` treats the update as newer exactly when the update's
(major, minor, patch) is strictly greater than the active header's in
lexicographic order; and after every `bootloader_check_update` that returns,
`update_pending` is true exactly when the update slot validated and the test
treated the loaded update header as newer than the active header. -/
theorem version_test_lexicographic_in_range (active update : firmware_header_t)
    (hA : active.version_major < 2 ^ 16 ∧ active.version_minor < 2 ^ 8
      ∧ active.version_patch < 2 ^ 8)
    (hU : update.version_major < 2 ^ 16 ∧ update.version_minor < 2 ^ 8
      ∧ update.version_patch < 2 ^ 8) :
    (update_is_newer active update = true
        ↔ version_lex_gt (version_triple update) (version_triple active))
      ∧ ∀ (f : Flash) (ctx ctx' : bootloader_context_t) (e : bootloader_error_t),
          bootloader_check_update f ctx = some (e, ctx') →
          (ctx'.update_pending = true
            ↔ (e = BOOT_OK ∧ update_is_newer ctx.active_header ctx'.update_header = true)) := by
  obtain ⟨a1, a2, a3⟩ := hA
  obtain ⟨u1, u2, u3⟩ := hU
  constructor
  · unfold update_is_newer version_lex_gt version_triple
    rw [firmware_version_word_eq active a1 a2 a3, firmware_version_word_eq update u1 u2 u3]
    simp only [decide_eq_true_eq]
    omega
  · intro f ctx ctx' e h
    rw [bootloader_check_update_pending f ctx e ctx' h]
    simp

/-- Witness of the amended C10: active version 1.0.255, update version 1.1.0. -/
theorem version_test_lexicographic_in_range_witness :
    update_is_newer (header_with_version 1 0 255) (header_with_version 1 1 0) = true
      ↔ version_lex_gt (version_triple (header_with_version 1 1 0))
          (version_triple (header_with_version 1 0 255)) :=
  (version_test_lexicographic_in_range (header_with_version 1 0 255) (header_with_version 1 1 0)
    ⟨by decide, by decide, by decide⟩ ⟨by decide, by decide, by decide⟩).1

/-! ## Slot addresses and the end-to-end update -/

theorem bootloader_validate_firmware_out_of_range (f : Flash) (a : Nat)
    (h : FLASH_TOTAL_SIZE ≤ a) :
    bootloader_validate_firmware f a = some BOOT_ERROR_INVALID_SIZE := by
  unfold bootloader_validate_firmware
  rw [if_pos h]

/-- C2 on the code: the two slot addresses are distinct, but both are
`>= FLASH_TOTAL_SIZE` (0x08004000 and 0x08020000 against 0x100000). On either
slot address `flash_erase_page` takes its out-of-range branch
(`BOOT_ERROR_FLASH_ERASE`, nothing erased) and `bootloader_validate_firmware`
takes its out-of-range branch (`BOOT_ERROR_INVALID_SIZE`); the copies of the
built-in images made by `bootloader_init` fall outside `flash_memory`. -/
theorem slot_addresses_outside_flash (f : Flash) (now : Nat) :
    APP_SLOT_A_ADDRESS ≠ APP_SLOT_B_ADDRESS
      ∧ FLASH_TOTAL_SIZE ≤ APP_SLOT_A_ADDRESS
      ∧ FLASH_TOTAL_SIZE ≤ APP_SLOT_B_ADDRESS
      ∧ flash_erase_page f APP_SLOT_A_ADDRESS = (BOOT_ERROR_FLASH_ERASE, f)
      ∧ flash_erase_page f APP_SLOT_B_ADDRESS = (BOOT_ERROR_FLASH_ERASE, f)
      ∧ bootloader_validate_firmware f APP_SLOT_A_ADDRESS = some BOOT_ERROR_INVALID_SIZE
      ∧ bootloader_validate_firmware f APP_SLOT_B_ADDRESS = some BOOT_ERROR_INVALID_SIZE
      ∧ bootloader_init f now = none :=
  ⟨by decide, by decide, by decide,
    flash_erase_page_out_of_range f _ (by decide),
    flash_erase_page_out_of_range f _ (by decide),
    bootloader_validate_firmware_out_of_range f _ (by decide),
    bootloader_validate_firmware_out_of_range f _ (by decide),
    rfl⟩

/-- C1 on the code: whatever flash content, bootloader context, counters and
callback `bootloader_init` leaves, after `ota_manager_init` the call
`start_update(4096, 1024)` returns `OTA_ERROR_FLASH_ERROR` (the erase of
`APP_SLOT_B_ADDRESS` is out of range) and leaves the session in `ERROR` with
progress 0 and the flash untouched; every `receive_chunk` call and
`finalize_update` then returns `OTA_ERROR_INVALID_STATE` and changes nothing, and
`apply_update` changes nothing, so the state is never `COMPLETE` and the
bootloader's active slot is never switched. -/
theorem end_to_end_update_fails (s : System) (now : Nat) :
    (ota_manager_start_update (ota_manager_init s) 4096 1024 now).1 = OTA_ERROR_FLASH_ERROR
      ∧ (ota_manager_start_update (ota_manager_init s) 4096 1024 now).2.ota_ctx.state
          = OTA_STATE_ERROR
      ∧ (ota_manager_start_update (ota_manager_init s) 4096 1024 now).2.ota_ctx.progress_percent
          = 0
      ∧ (ota_manager_start_update (ota_manager_init s) 4096 1024 now).2.flash_memory
          = s.flash_memory
      ∧ (ota_manager_start_update (ota_manager_init s) 4096 1024 now).2.bootloader_ctx
          = s.bootloader_ctx
      ∧ (∀ (n : Nat) (d : List Byte),
          ota_manager_receive_chunk
              (ota_manager_start_update (ota_manager_init s) 4096 1024 now).2 n d now
            = some (OTA_ERROR_INVALID_STATE,
                (ota_manager_start_update (ota_manager_init s) 4096 1024 now).2))
      ∧ ota_manager_finalize_update
            (ota_manager_start_update (ota_manager_init s) 4096 1024 now).2
          = some (OTA_ERROR_INVALID_STATE,
              (ota_manager_start_update (ota_manager_init s) 4096 1024 now).2)
      ∧ ota_manager_apply_update
            (ota_manager_start_update (ota_manager_init s) 4096 1024 now).2
          = some (ota_manager_start_update (ota_manager_init s) 4096 1024 now).2 := by
  have hst : (ota_manager_start_update (ota_manager_init s) 4096 1024 now)
      = (OTA_ERROR_FLASH_ERROR,
          { ota_manager_init s with
            ota_ctx := update_state
              { ota_ctx_init with
                chunk_info :=
                  { total_size := 4096, chunk_size := 1024, total_chunks := 4
                    received_chunks := 0, received_bytes := 0, next_expected_chunk := 0 }
                start_time := now % U32_MOD
                last_activity_time := now % U32_MOD
                abort_requested := false
                restart_required := false }
              OTA_STATE_ERROR OTA_ERROR_FLASH_ERROR }) := by
    unfold ota_manager_start_update
    rw [if_neg (by simp [ota_manager_init, ota_ctx_init]), if_neg (by decide), if_neg (by decide)]
    simp only [flash_erase_page_out_of_range _ APP_SLOT_B_ADDRESS (by decide)]
    rw [if_pos (by decide)]
    rfl
  rw [hst]
  refine ⟨rfl, rfl, rfl, rfl, rfl, ?_, ?_, ?_⟩
  · intro n d
    unfold ota_manager_receive_chunk
    rw [if_pos (by simp [update_state])]
  · unfold ota_manager_finalize_update
    rw [if_pos (by simp [update_state])]
  · unfold ota_manager_apply_update
    rw [if_pos (by simp [update_state])]

/-- The switch made by `ota_manager_apply_update` is gated on `update_pending`,
which only `bootloader_check_update` sets: applied in `COMPLETE` with
`update_pending` false, the session goes to `ERROR` and the active slot stays. -/
theorem apply_update_without_pending (s : System)
    (h : s.ota_ctx.state = OTA_STATE_COMPLETE) (hp : s.bootloader_ctx.update_pending = false) :
    ∃ s1, ota_manager_apply_update s = some s1
      ∧ s1.ota_ctx.state = OTA_STATE_ERROR
      ∧ s1.bootloader_ctx = s.bootloader_ctx := by
  unfold ota_manager_apply_update bootloader_switch_to_update
  simp [h, hp, update_state]

/-! ## Bootloader operations -/

theorem bootloader_check_update_eq_at (f : Flash) (ctx : bootloader_context_t) :
    bootloader_check_update f ctx = bootloader_check_update_at APP_SLOT_B_ADDRESS f ctx := rfl

theorem bootloader_switch_to_update_eq_at (f : Flash) (ctx : bootloader_context_t) :
    bootloader_switch_to_update f ctx = bootloader_switch_to_update_at APP_SLOT_B_ADDRESS f ctx :=
  rfl

theorem bootloader_rollback_eq_at (f : Flash) (ctx : bootloader_context_t) :
    bootloader_rollback f ctx = bootloader_rollback_at APP_SLOT_A_ADDRESS f ctx := rfl

theorem ota_manager_receive_chunk_eq_at (s : System) (n : Nat) (data : List Byte) (now : Nat) :
    ota_manager_receive_chunk s n data now
      = ota_manager_receive_chunk_at APP_SLOT_B_ADDRESS s n data now := rfl

theorem validate_ok_header_in_range (f : Flash) (a : Nat)
    (h : bootloader_validate_firmware f a = some BOOT_OK) : a + 80 ≤ FLASH_TOTAL_SIZE := by
  unfold bootloader_validate_firmware at h
  by_cases h1 : a ≥ FLASH_TOTAL_SIZE
  · rw [if_pos h1] at h; cases h
  · rw [if_neg h1] at h
    by_contra hc
    have hr : read_header f a = none := by
      unfold read_header
      rw [if_neg (by rw [sizeof_firmware_header_t_eq]; exact hc)]
    rw [hr] at h
    cases h

theorem bootloader_check_update_at_error (slot : Nat) (f : Flash) (ctx : bootloader_context_t)
    (e : bootloader_error_t) (hv : bootloader_validate_firmware f slot = some e)
    (he : e ≠ BOOT_OK) :
    bootloader_check_update_at slot f ctx
      = some (e, { ctx with state := BOOT_STATE_CHECK_UPDATE, update_pending := false }) := by
  unfold bootloader_check_update_at
  simp only [Option.bind_eq_bind, hv, Option.some_bind]
  rw [if_neg he]

theorem bootloader_check_update_at_ok (slot : Nat) (f : Flash) (ctx : bootloader_context_t)
    (hv : bootloader_validate_firmware f slot = some BOOT_OK) :
    bootloader_check_update_at slot f ctx
      = some (BOOT_OK,
          { ctx with
            state := BOOT_STATE_CHECK_UPDATE
            update_header := decode_header f slot
            update_pending := update_is_newer ctx.active_header (decode_header f slot) }) := by
  unfold bootloader_check_update_at
  simp only [Option.bind_eq_bind, hv, Option.some_bind,
    read_header_in_range f slot (validate_ok_header_in_range f slot hv), if_true]
  by_cases hn : update_is_newer ctx.active_header (decode_header f slot) = true
  · rw [if_pos hn, hn]
  · rw [if_neg hn]
    simp only [Bool.not_eq_true] at hn
    rw [hn]

theorem bootloader_check_update_at_none (slot : Nat) (f : Flash) (ctx : bootloader_context_t)
    (hv : bootloader_validate_firmware f slot = none) :
    bootloader_check_update_at slot f ctx = none := by
  unfold bootloader_check_update_at
  simp only [Option.bind_eq_bind, hv, Option.none_bind]

theorem bootloader_switch_to_update_at_not_pending (slot : Nat) (f : Flash)
    (ctx : bootloader_context_t) (hp : ctx.update_pending = false) :
    bootloader_switch_to_update_at slot f ctx = some (BOOT_ERROR_NO_APP, ctx) := by
  unfold bootloader_switch_to_update_at
  simp [hp]

theorem bootloader_switch_to_update_at_error (slot : Nat) (f : Flash)
    (ctx : bootloader_context_t) (e : bootloader_error_t) (hp : ctx.update_pending = true)
    (hv : bootloader_validate_firmware f slot = some e) (he : e ≠ BOOT_OK) :
    bootloader_switch_to_update_at slot f ctx
      = some (e, { ctx with state := BOOT_STATE_ERROR, last_error := e }) := by
  unfold bootloader_switch_to_update_at
  simp [hp, hv, he]

theorem bootloader_switch_to_update_at_ok (slot : Nat) (f : Flash)
    (ctx : bootloader_context_t) (hp : ctx.update_pending = true)
    (hv : bootloader_validate_firmware f slot = some BOOT_OK) :
    bootloader_switch_to_update_at slot f ctx
      = some (BOOT_OK,
          { ctx with
            state := BOOT_STATE_UPDATE_IN_PROGRESS
            active_slot := slot
            active_header := ctx.update_header
            update_pending := false
            boot_count := (ctx.boot_count + 1) % U32_MOD }) := by
  unfold bootloader_switch_to_update_at
  simp [hp, hv]

theorem bootloader_switch_to_update_at_none (slot : Nat) (f : Flash)
    (ctx : bootloader_context_t) (hp : ctx.update_pending = true)
    (hv : bootloader_validate_firmware f slot = none) :
    bootloader_switch_to_update_at slot f ctx = none := by
  unfold bootloader_switch_to_update_at
  simp [hp, hv]

theorem bootloader_rollback_at_error (slot : Nat) (f : Flash) (ctx : bootloader_context_t)
    (e : bootloader_error_t) (hv : bootloader_validate_firmware f slot = some e)
    (he : e ≠ BOOT_OK) :
    bootloader_rollback_at slot f ctx = some (e, ctx) := by
  unfold bootloader_rollback_at
  simp [hv, he]

theorem bootloader_rollback_at_ok (slot : Nat) (f : Flash) (ctx : bootloader_context_t)
    (hv : bootloader_validate_firmware f slot = some BOOT_OK) :
    bootloader_rollback_at slot f ctx
      = some (BOOT_OK,
          { ctx with
            active_slot := slot
            active_header := decode_header f slot
            rollback_requested := true
            boot_count := (ctx.boot_count + 1) % U32_MOD }) := by
  unfold bootloader_rollback_at
  simp [hv, read_header_in_range f slot (validate_ok_header_in_range f slot hv)]

theorem bootloader_rollback_at_none (slot : Nat) (f : Flash) (ctx : bootloader_context_t)
    (hv : bootloader_validate_firmware f slot = none) :
    bootloader_rollback_at slot f ctx = none := by
  unfold bootloader_rollback_at
  simp [hv]

theorem bootloader_check_update_at_again (slot : Nat) (f : Flash) (ctx : bootloader_context_t)
    (e : bootloader_error_t) (c1 : bootloader_context_t)
    (h : bootloader_check_update_at slot f ctx = some (e, c1)) :
    bootloader_check_update_at slot f c1 = some (e, c1)
      ∧ (e ≠ BOOT_OK → c1.update_pending = false) := by
  cases hv : bootloader_validate_firmware f slot with
  | none => rw [bootloader_check_update_at_none slot f ctx hv] at h; cases h
  | some e0 =>
    by_cases he : e0 = BOOT_OK
    · subst he
      rw [bootloader_check_update_at_ok slot f ctx hv] at h
      simp only [Option.some.injEq, Prod.mk.injEq] at h
      obtain ⟨h1, h2⟩ := h
      subst h1 h2
      refine ⟨?_, fun hne => absurd rfl hne⟩
      rw [bootloader_check_update_at_ok slot f _ hv]
    · rw [bootloader_check_update_at_error slot f ctx e0 hv he] at h
      simp only [Option.some.injEq, Prod.mk.injEq] at h
      obtain ⟨h1, h2⟩ := h
      subst h1 h2
      refine ⟨?_, fun _ => rfl⟩
      rw [bootloader_check_update_at_error slot f _ e0 hv he]

/-- C11: `bootloader_check_update` always returns, and a second call on the
same flash returns the same result and leaves the context (in particular
`update_pending`) exactly as the first call left it; whenever the result is an
error, `update_pending` is false afterwards. The same holds for the body of
the function with any update slot address `slot`. -/
theorem bootloader_check_update_idempotent (f : Flash) (ctx : bootloader_context_t) :
    (∃ e c1, bootloader_check_update f ctx = some (e, c1)
        ∧ bootloader_check_update f c1 = some (e, c1)
        ∧ (e ≠ BOOT_OK → c1.update_pending = false))
      ∧ ∀ slot e c1, bootloader_check_update_at slot f ctx = some (e, c1) →
          bootloader_check_update_at slot f c1 = some (e, c1)
            ∧ (e ≠ BOOT_OK → c1.update_pending = false) := by
  refine ⟨?_, fun slot e c1 h => bootloader_check_update_at_again slot f ctx e c1 h⟩
  have h1 := bootloader_check_update_at_error APP_SLOT_B_ADDRESS f ctx BOOT_ERROR_INVALID_SIZE
    (bootloader_validate_firmware_out_of_range f _ (by decide)) (by decide)
  exact ⟨_, _, h1, (bootloader_check_update_at_again _ f ctx _ _ h1).1, fun _ => rfl⟩

/-- Witness of C11: with the sample image in a slot at address 0 and active
version 1.0.0, the first call validates the slot and sets `update_pending`;
the second call returns the same. -/
theorem bootloader_check_update_idempotent_witness :
    bootloader_validate_firmware (flash_of_bytes sample_image) 0 = some BOOT_OK
      ∧ update_is_newer sample_boot_ctx.active_header
          (decode_header (flash_of_bytes sample_image) 0) = true
      ∧ bootloader_check_update_at 0 (flash_of_bytes sample_image)
          { sample_boot_ctx with
            state := BOOT_STATE_CHECK_UPDATE
            update_header := decode_header (flash_of_bytes sample_image) 0
            update_pending := update_is_newer sample_boot_ctx.active_header
              (decode_header (flash_of_bytes sample_image) 0) }
        = some (BOOT_OK,
          { sample_boot_ctx with
            state := BOOT_STATE_CHECK_UPDATE
            update_header := decode_header (flash_of_bytes sample_image) 0
            update_pending := update_is_newer sample_boot_ctx.active_header
              (decode_header (flash_of_bytes sample_image) 0) }) :=
  ⟨by decide, by decide,
    ((bootloader_check_update_idempotent (flash_of_bytes sample_image) sample_boot_ctx).2
      0 BOOT_OK _
      (bootloader_check_update_at_ok 0 (flash_of_bytes sample_image) sample_boot_ctx
        (by decide))).1⟩

/-- C12 as stated fails: on an erased flash and the sample context (state
`INIT`, `update_pending` true), `bootloader_check_update` returns an error and
leaves state `CHECK_UPDATE` and `update_pending` false, and
`bootloader_switch_to_update` returns an error and leaves state `ERROR` and
`last_error` set. -/
theorem bootloader_error_changes_context :
    sample_boot_ctx.state = BOOT_STATE_INIT
      ∧ sample_boot_ctx.update_pending = true
      ∧ sample_boot_ctx.last_error = BOOT_OK
      ∧ bootloader_check_update (flash_of_bytes []) sample_boot_ctx
          = some (BOOT_ERROR_INVALID_SIZE,
              { sample_boot_ctx with state := BOOT_STATE_CHECK_UPDATE, update_pending := false })
      ∧ bootloader_switch_to_update (flash_of_bytes []) sample_boot_ctx
          = some (BOOT_ERROR_INVALID_SIZE,
              { sample_boot_ctx with
                state := BOOT_STATE_ERROR, last_error := BOOT_ERROR_INVALID_SIZE }) :=
  ⟨rfl, rfl, rfl,
    bootloader_check_update_at_error _ _ _ _
      (bootloader_validate_firmware_out_of_range _ _ (by decide)) (by decide),
    bootloader_switch_to_update_at_error _ _ _ _ rfl
      (bootloader_validate_firmware_out_of_range _ _ (by decide)) (by decide)⟩

/-- C12 (amended): when `bootloader_check_update` returns an error the context
is the one before the call except that `state` is `CHECK_UPDATE` and
`update_pending` is false; when `bootloader_switch_to_update` returns an error
the context is unchanged if `update_pending` was false, and otherwise is the
one before the call except that `state` is `ERROR` and `last_error` is the
error returned; when `bootloader_rollback` returns an error the context is
unchanged. So `active_slot`, `update_slot`, `active_header`, `update_header`,
`boot_count` and `rollback_requested` are never changed by a failing call. -/
theorem bootloader_failure_frame (f : Flash) (ctx c1 : bootloader_context_t)
    (e : bootloader_error_t) (he : e ≠ BOOT_OK) :
    (bootloader_check_update f ctx = some (e, c1) →
        c1 = { ctx with state := BOOT_STATE_CHECK_UPDATE, update_pending := false })
      ∧ (bootloader_switch_to_update f ctx = some (e, c1) →
          (ctx.update_pending = false ∧ c1 = ctx)
            ∨ (ctx.update_pending = true
                ∧ c1 = { ctx with state := BOOT_STATE_ERROR, last_error := e }))
      ∧ (bootloader_rollback f ctx = some (e, c1) → c1 = ctx) := by
  refine ⟨fun h => ?_, fun h => ?_, fun h => ?_⟩
  · rw [bootloader_check_update_eq_at] at h
    cases hv : bootloader_validate_firmware f APP_SLOT_B_ADDRESS with
    | none => rw [bootloader_check_update_at_none _ f ctx hv] at h; cases h
    | some e0 =>
      by_cases h0 : e0 = BOOT_OK
      · subst h0
        rw [bootloader_check_update_at_ok _ f ctx hv] at h
        simp only [Option.some.injEq, Prod.mk.injEq] at h
        exact absurd h.1.symm he
      · rw [bootloader_check_update_at_error _ f ctx e0 hv h0] at h
        simp only [Option.some.injEq, Prod.mk.injEq] at h
        exact h.2.symm
  · rw [bootloader_switch_to_update_eq_at] at h
    by_cases hp : ctx.update_pending = true
    · cases hv : bootloader_validate_firmware f APP_SLOT_B_ADDRESS with
      | none => rw [bootloader_switch_to_update_at_none _ f ctx hp hv] at h; cases h
      | some e0 =>
        by_cases h0 : e0 = BOOT_OK
        · subst h0
          rw [bootloader_switch_to_update_at_ok _ f ctx hp hv] at h
          simp only [Option.some.injEq, Prod.mk.injEq] at h
          exact absurd h.1.symm he
        · rw [bootloader_switch_to_update_at_error _ f ctx e0 hp hv h0] at h
          simp only [Option.some.injEq, Prod.mk.injEq] at h
          obtain ⟨h1, h2⟩ := h
          subst h1
          exact Or.inr ⟨hp, h2.symm⟩
    · simp only [Bool.not_eq_true] at hp
      rw [bootloader_switch_to_update_at_not_pending _ f ctx hp] at h
      simp only [Option.some.injEq, Prod.mk.injEq] at h
      exact Or.inl ⟨hp, h.2.symm⟩
  · rw [bootloader_rollback_eq_at] at h
    cases hv : bootloader_validate_firmware f APP_SLOT_A_ADDRESS with
    | none => rw [bootloader_rollback_at_none _ f ctx hv] at h; cases h
    | some e0 =>
      by_cases h0 : e0 = BOOT_OK
      · subst h0
        rw [bootloader_rollback_at_ok _ f ctx hv] at h
        simp only [Option.some.injEq, Prod.mk.injEq] at h
        exact absurd h.1.symm he
      · rw [bootloader_rollback_at_error _ f ctx e0 hv h0] at h
        simp only [Option.some.injEq, Prod.mk.injEq] at h
        exact h.2.symm

/-- Witness of the amended C12: the failing `bootloader_rollback` on an erased
flash leaves the sample context unchanged. -/
theorem bootloader_failure_frame_witness :
    BOOT_ERROR_INVALID_SIZE ≠ BOOT_OK
      ∧ bootloader_rollback (flash_of_bytes []) sample_boot_ctx
          = some (BOOT_ERROR_INVALID_SIZE, sample_boot_ctx)
      ∧ sample_boot_ctx = sample_boot_ctx :=
  ⟨by decide,
    bootloader_rollback_at_error _ _ _ _
      (bootloader_validate_firmware_out_of_range _ _ (by decide)) (by decide),
    (bootloader_failure_frame (flash_of_bytes []) sample_boot_ctx sample_boot_ctx
      BOOT_ERROR_INVALID_SIZE (by decide)).2.2
      (bootloader_rollback_at_error _ _ _ _
        (bootloader_validate_firmware_out_of_range _ _ (by decide)) (by decide))⟩

theorem ota_manager_apply_update_flash (s s1 : System)
    (h : ota_manager_apply_update s = some s1) : s1.flash_memory = s.flash_memory := by
  unfold ota_manager_apply_update at h
  by_cases hc : s.ota_ctx.state ≠ OTA_STATE_COMPLETE
  · rw [if_pos hc] at h
    simp only [Option.some.injEq] at h
    rw [← h]
  · rw [if_neg hc] at h
    simp only [Option.bind_eq_bind] at h
    cases hr : bootloader_switch_to_update s.flash_memory s.bootloader_ctx with
    | none => rw [hr] at h; cases h
    | some r =>
      rw [hr] at h
      simp only [Option.some_bind] at h
      by_cases hk : r.1 ≠ BOOT_OK
      · rw [if_pos hk] at h
        simp only [Option.some.injEq] at h
        rw [← h]
      · rw [if_neg hk] at h
        simp only [Option.some.injEq] at h
        rw [← h]

/-- With the shipped slot constants the update slot never validates, so
`bootloader_switch_to_update` never returns `BOOT_OK`. -/
theorem bootloader_switch_to_update_never_ok (f : Flash) (ctx c1 : bootloader_context_t) :
    bootloader_switch_to_update f ctx ≠ some (BOOT_OK, c1) := by
  intro h
  rw [bootloader_switch_to_update_eq_at] at h
  by_cases hp : ctx.update_pending = true
  · rw [bootloader_switch_to_update_at_error _ f ctx _ hp
      (bootloader_validate_firmware_out_of_range f _ (by decide)) (by decide)] at h
    simp at h
  · simp only [Bool.not_eq_true] at hp
    rw [bootloader_switch_to_update_at_not_pending _ f ctx hp] at h
    simp at h

/-- With the shipped slot constants slot A never validates, so
`bootloader_rollback` always returns `BOOT_ERROR_INVALID_SIZE`. -/
theorem bootloader_rollback_always_fails (f : Flash) (ctx : bootloader_context_t) :
    bootloader_rollback f ctx = some (BOOT_ERROR_INVALID_SIZE, ctx) :=
  bootloader_rollback_at_error _ f ctx _
    (bootloader_validate_firmware_out_of_range f _ (by decide)) (by decide)

/-- C13: for `bootloader_switch_to_update` (the body below at
`slot = APP_SLOT_B_ADDRESS`): if `update_pending` is false it returns
`BOOT_ERROR_NO_APP` and the context is unchanged; if it returns `BOOT_OK` then
`active_slot` is the update slot address, `active_header` is the update header,
`update_pending` is false and `boot_count` is incremented (32-bit, one more than
before unless it wraps); if it returns an error then `active_slot`,
`active_header` and `boot_count` are unchanged. The flash is only read, and
`ota_manager_apply_update`, which calls it, leaves the flash unchanged. -/
theorem bootloader_switch_to_update_spec (slot : Nat) (f : Flash) (ctx : bootloader_context_t) :
    (ctx.update_pending = false →
        bootloader_switch_to_update_at slot f ctx = some (BOOT_ERROR_NO_APP, ctx))
      ∧ (∀ c1, bootloader_switch_to_update_at slot f ctx = some (BOOT_OK, c1) →
          c1.active_slot = slot
            ∧ c1.active_header = ctx.update_header
            ∧ c1.update_pending = false
            ∧ c1.boot_count = (ctx.boot_count + 1) % U32_MOD
            ∧ (ctx.boot_count + 1 < U32_MOD → c1.boot_count = ctx.boot_count + 1))
      ∧ (∀ e c1, bootloader_switch_to_update_at slot f ctx = some (e, c1) → e ≠ BOOT_OK →
          c1.active_slot = ctx.active_slot
            ∧ c1.active_header = ctx.active_header
            ∧ c1.boot_count = ctx.boot_count)
      ∧ bootloader_switch_to_update f ctx
          = bootloader_switch_to_update_at APP_SLOT_B_ADDRESS f ctx
      ∧ (∀ s s1 : System, ota_manager_apply_update s = some s1 →
          s1.flash_memory = s.flash_memory) := by
  refine ⟨bootloader_switch_to_update_at_not_pending slot f ctx, ?_, ?_, rfl,
    ota_manager_apply_update_flash⟩
  · intro c1 h
    by_cases hp : ctx.update_pending = true
    · cases hv : bootloader_validate_firmware f slot with
      | none => rw [bootloader_switch_to_update_at_none _ f ctx hp hv] at h; cases h
      | some e0 =>
        by_cases h0 : e0 = BOOT_OK
        · subst h0
          rw [bootloader_switch_to_update_at_ok _ f ctx hp hv] at h
          simp only [Option.some.injEq, Prod.mk.injEq, true_and] at h
          subst h
          exact ⟨rfl, rfl, rfl, rfl, fun hlt => Nat.mod_eq_of_lt hlt⟩
        · rw [bootloader_switch_to_update_at_error _ f ctx e0 hp hv h0] at h
          simp only [Option.some.injEq, Prod.mk.injEq] at h
          exact absurd h.1 h0
    · simp only [Bool.not_eq_true] at hp
      rw [bootloader_switch_to_update_at_not_pending _ f ctx hp] at h
      simp at h
  · intro e c1 h he
    by_cases hp : ctx.update_pending = true
    · cases hv : bootloader_validate_firmware f slot with
      | none => rw [bootloader_switch_to_update_at_none _ f ctx hp hv] at h; cases h
      | some e0 =>
        by_cases h0 : e0 = BOOT_OK
        · subst h0
          rw [bootloader_switch_to_update_at_ok _ f ctx hp hv] at h
          simp only [Option.some.injEq, Prod.mk.injEq] at h
          exact absurd h.1.symm he
        · rw [bootloader_switch_to_update_at_error _ f ctx e0 hp hv h0] at h
          simp only [Option.some.injEq, Prod.mk.injEq] at h
          obtain ⟨_, h2⟩ := h
          subst h2
          exact ⟨rfl, rfl, rfl⟩
    · simp only [Bool.not_eq_true] at hp
      rw [bootloader_switch_to_update_at_not_pending _ f ctx hp] at h
      simp only [Option.some.injEq, Prod.mk.injEq] at h
      obtain ⟨_, h2⟩ := h
      subst h2
      exact ⟨rfl, rfl, rfl⟩

/-- Witness of C13: with the sample image in an update slot at address 0 and
an update pending, the switch succeeds: the active slot becomes 0, the active
header the update header, and the boot count goes from 1 to 2. -/
theorem bootloader_switch_to_update_spec_witness :
    bootloader_validate_firmware (flash_of_bytes sample_image) 0 = some BOOT_OK
      ∧ sample_boot_ctx.update_pending = true
      ∧ sample_boot_ctx.boot_count + 1 = 2
      ∧ ∃ c1, bootloader_switch_to_update_at 0 (flash_of_bytes sample_image) sample_boot_ctx
            = some (BOOT_OK, c1)
          ∧ c1.active_slot = 0
          ∧ c1.active_header = sample_boot_ctx.update_header
          ∧ c1.update_pending = false
          ∧ c1.boot_count = sample_boot_ctx.boot_count + 1 :=
  ⟨by decide, rfl, rfl, _,
    bootloader_switch_to_update_at_ok 0 (flash_of_bytes sample_image) sample_boot_ctx rfl
      (by decide),
    ((bootloader_switch_to_update_spec 0 (flash_of_bytes sample_image) sample_boot_ctx).2.1 _
      (bootloader_switch_to_update_at_ok 0 (flash_of_bytes sample_image) sample_boot_ctx rfl
        (by decide))).1,
    ((bootloader_switch_to_update_spec 0 (flash_of_bytes sample_image) sample_boot_ctx).2.1 _
      (bootloader_switch_to_update_at_ok 0 (flash_of_bytes sample_image) sample_boot_ctx rfl
        (by decide))).2.1,
    ((bootloader_switch_to_update_spec 0 (flash_of_bytes sample_image) sample_boot_ctx).2.1 _
      (bootloader_switch_to_update_at_ok 0 (flash_of_bytes sample_image) sample_boot_ctx rfl
        (by decide))).2.2.1,
    ((bootloader_switch_to_update_spec 0 (flash_of_bytes sample_image) sample_boot_ctx).2.1 _
      (bootloader_switch_to_update_at_ok 0 (flash_of_bytes sample_image) sample_boot_ctx rfl
        (by decide))).2.2.2.2 (by decide)⟩

/-- C14: for `bootloader_rollback` (the body below at
`slot = APP_SLOT_A_ADDRESS`): if slot A validates, it returns `BOOT_OK` and
afterwards `active_slot` is the slot A address whatever it was before,
`active_header` is the header stored in the flash at slot A,
`rollback_requested` is true and `boot_count` is incremented (32-bit), nothing
else changing; if slot A fails validation with an error, it returns that error
and the context is unchanged. The flash is only read. Hence after a successful
switch followed by a successful rollback the active slot is slot A with the
header stored at slot A. -/
theorem bootloader_rollback_spec (slot : Nat) (f : Flash) (ctx : bootloader_context_t) :
    (bootloader_validate_firmware f slot = some BOOT_OK →
        read_header f slot = some (decode_header f slot)
        ∧ bootloader_rollback_at slot f ctx
          = some (BOOT_OK,
              { ctx with
                active_slot := slot
                active_header := decode_header f slot
                rollback_requested := true
                boot_count := (ctx.boot_count + 1) % U32_MOD }))
      ∧ (∀ e, bootloader_validate_firmware f slot = some e → e ≠ BOOT_OK →
          bootloader_rollback_at slot f ctx = some (e, ctx))
      ∧ bootloader_rollback f ctx = bootloader_rollback_at APP_SLOT_A_ADDRESS f ctx
      ∧ (∀ slot_b c1 c2, bootloader_switch_to_update_at slot_b f ctx = some (BOOT_OK, c1) →
          bootloader_rollback_at slot f c1 = some (BOOT_OK, c2) →
          c2.active_slot = slot ∧ c2.active_header = decode_header f slot) := by
  refine ⟨fun hv => ⟨read_header_in_range f slot (validate_ok_header_in_range f slot hv),
      bootloader_rollback_at_ok slot f ctx hv⟩,
    fun e hv he => bootloader_rollback_at_error slot f ctx e hv he, rfl, ?_⟩
  intro slot_b c1 c2 _ h2
  cases hv : bootloader_validate_firmware f slot with
  | none => rw [bootloader_rollback_at_none _ f c1 hv] at h2; cases h2
  | some e0 =>
    by_cases h0 : e0 = BOOT_OK
    · subst h0
      rw [bootloader_rollback_at_ok _ f c1 hv] at h2
      simp only [Option.some.injEq, Prod.mk.injEq, true_and] at h2
      subst h2
      exact ⟨rfl, rfl⟩
    · rw [bootloader_rollback_at_error _ f c1 e0 hv h0] at h2
      simp only [Option.some.injEq, Prod.mk.injEq] at h2
      exact absurd h2.1 h0

/-- Witness of C14: with the sample image in a slot A at address 0, the
rollback succeeds from the sample context (whose active slot is elsewhere). -/
theorem bootloader_rollback_spec_witness :
    bootloader_validate_firmware (flash_of_bytes sample_image) 0 = some BOOT_OK
      ∧ sample_boot_ctx.active_slot ≠ 0
      ∧ bootloader_rollback_at 0 (flash_of_bytes sample_image) sample_boot_ctx
        = some (BOOT_OK,
            { sample_boot_ctx with
              active_slot := 0
              active_header := decode_header (flash_of_bytes sample_image) 0
              rollback_requested := true
              boot_count := (sample_boot_ctx.boot_count + 1) % U32_MOD }) :=
  ⟨by decide, by decide,
    ((bootloader_rollback_spec 0 (flash_of_bytes sample_image) sample_boot_ctx).1
      (by decide)).2⟩

/-! ## OTA manager: starting a session -/

theorem ota_manager_start_update_not_idle (s : System) (total_size chunk_size now : Nat)
    (h : s.ota_ctx.state ≠ OTA_STATE_IDLE) :
    ota_manager_start_update s total_size chunk_size now = (OTA_ERROR_INVALID_STATE, s) := by
  unfold ota_manager_start_update
  rw [if_pos h]

theorem start_update_size_bound :
    (FLASH_TOTAL_SIZE + U32_MOD - APP_SLOT_B_ADDRESS) % U32_MOD = 0xF80E0000 := by decide

theorem ota_manager_start_update_bad_size (s : System) (total_size chunk_size now : Nat)
    (h : s.ota_ctx.state = OTA_STATE_IDLE)
    (hb : total_size = 0 ∨ chunk_size = 0 ∨ chunk_size > 1024 ∨ total_size > 0xF80E0000) :
    ota_manager_start_update s total_size chunk_size now = (OTA_ERROR_INVALID_SIZE, s) := by
  unfold ota_manager_start_update
  rw [if_neg (by simp [h]), start_update_size_bound]
  by_cases h1 : total_size = 0 ∨ chunk_size = 0 ∨ chunk_size > 1024
  · rw [if_pos h1]
  · rw [if_neg h1, if_pos (by omega)]

theorem ota_manager_start_update_good_size (s : System) (total_size chunk_size now : Nat)
    (h : s.ota_ctx.state = OTA_STATE_IDLE)
    (h1 : total_size ≠ 0) (h2 : chunk_size ≠ 0) (h3 : chunk_size ≤ 1024)
    (h4 : total_size ≤ 0xF80E0000) :
    ota_manager_start_update s total_size chunk_size now
      = (OTA_ERROR_FLASH_ERROR,
          { s with
            ota_ctx := update_state
              { s.ota_ctx with
                chunk_info :=
                  { total_size := total_size
                    chunk_size := chunk_size
                    total_chunks := ((total_size + chunk_size - 1) % U32_MOD) / chunk_size
                    received_chunks := 0
                    received_bytes := 0
                    next_expected_chunk := 0 }
                start_time := now % U32_MOD
                last_activity_time := now % U32_MOD
                abort_requested := false
                restart_required := false }
              OTA_STATE_ERROR OTA_ERROR_FLASH_ERROR }) := by
  unfold ota_manager_start_update
  rw [if_neg (by simp [h]), start_update_size_bound, if_neg (by omega), if_neg (by omega)]
  simp only [flash_erase_page_out_of_range _ APP_SLOT_B_ADDRESS (by decide)]
  rw [if_pos (by decide)]

/-- C15: `ota_manager_start_update` called in any state other than `IDLE`
returns `OTA_ERROR_INVALID_STATE` and leaves the whole system (session, update
counters, flash, bootloader context) unchanged. -/
theorem start_update_single_session (s : System) (total_size chunk_size now : Nat)
    (h : s.ota_ctx.state ≠ OTA_STATE_IDLE) :
    ota_manager_start_update s total_size chunk_size now = (OTA_ERROR_INVALID_STATE, s) :=
  ota_manager_start_update_not_idle s total_size chunk_size now h

/-- Witness of C15: a session in `RECEIVING_DATA` (4096 bytes in chunks of
1024, one chunk received) rejects a new `start_update(8192, 512)`. -/
theorem start_update_single_session_witness :
    (sample_session OTA_STATE_RECEIVING_DATA 4096 1024 1024 1).ota_ctx.state ≠ OTA_STATE_IDLE
      ∧ ota_manager_start_update (sample_session OTA_STATE_RECEIVING_DATA 4096 1024 1024 1)
          8192 512 7
        = (OTA_ERROR_INVALID_STATE, sample_session OTA_STATE_RECEIVING_DATA 4096 1024 1024 1) :=
  ⟨by decide,
    start_update_single_session (sample_session OTA_STATE_RECEIVING_DATA 4096 1024 1024 1)
      8192 512 7 (by decide)⟩

/-- C16 at the failing input: in `IDLE`, `start_update(0x200000, 1024)` asks
for twice the size of the whole flash. The code compares `total_size` with
`FLASH_TOTAL_SIZE - APP_SLOT_B_ADDRESS`, which wraps to `0xF80E0000` as a
`uint32_t`, so the size check passes; the call returns `OTA_ERROR_FLASH_ERROR`
(not `OTA_ERROR_INVALID_SIZE`) and the session is left in `ERROR` (not `IDLE`). -/
theorem start_update_accepts_oversized_image :
    (ota_manager_init sample_system).ota_ctx.state = OTA_STATE_IDLE
      ∧ 0x200000 > FLASH_TOTAL_SIZE
      ∧ (FLASH_TOTAL_SIZE + U32_MOD - APP_SLOT_B_ADDRESS) % U32_MOD = 0xF80E0000
      ∧ (ota_manager_start_update (ota_manager_init sample_system) 0x200000 1024 0).1
          = OTA_ERROR_FLASH_ERROR
      ∧ (ota_manager_start_update (ota_manager_init sample_system) 0x200000 1024 0).2.ota_ctx.state
          = OTA_STATE_ERROR := by
  decide

/-- C17 as stated fails: `start_update(4096, 1024)` called on a session in
`COMPLETE`, and on a session in `ERROR`, returns `OTA_ERROR_INVALID_STATE` and
the state stays what it was. -/
theorem start_update_after_finished_session_rejected :
    (ota_manager_start_update (sample_session OTA_STATE_COMPLETE 4096 1024 4096 4)
        4096 1024 0).1 = OTA_ERROR_INVALID_STATE
      ∧ (ota_manager_start_update (sample_session OTA_STATE_COMPLETE 4096 1024 4096 4)
          4096 1024 0).2.ota_ctx.state = OTA_STATE_COMPLETE
      ∧ (ota_manager_start_update (sample_session OTA_STATE_ERROR 4096 1024 2048 2)
          4096 1024 0).1 = OTA_ERROR_INVALID_STATE
      ∧ (ota_manager_start_update (sample_session OTA_STATE_ERROR 4096 1024 2048 2)
          4096 1024 0).2.ota_ctx.state = OTA_STATE_ERROR := by
  decide

/-- C17 (amended): `ota_manager_start_update` called when the state is
`COMPLETE` or `ERROR` returns `OTA_ERROR_INVALID_STATE` and leaves the system
unchanged; `ota_manager_init` then leaves a fresh session in `IDLE` with
`received_bytes = 0`, `received_chunks = 0`, `next_expected_chunk = 0`,
progress 0 and `abort_requested` and `restart_required` cleared, without
touching the flash, the bootloader context or the update counters. -/
theorem start_update_after_finished_session (s : System) (total_size chunk_size now : Nat)
    (h : s.ota_ctx.state = OTA_STATE_COMPLETE ∨ s.ota_ctx.state = OTA_STATE_ERROR) :
    ota_manager_start_update s total_size chunk_size now = (OTA_ERROR_INVALID_STATE, s)
      ∧ (ota_manager_init s).ota_ctx.state = OTA_STATE_IDLE
      ∧ (ota_manager_init s).ota_ctx.chunk_info.received_bytes = 0
      ∧ (ota_manager_init s).ota_ctx.chunk_info.received_chunks = 0
      ∧ (ota_manager_init s).ota_ctx.chunk_info.next_expected_chunk = 0
      ∧ (ota_manager_init s).ota_ctx.progress_percent = 0
      ∧ (ota_manager_init s).ota_ctx.abort_requested = false
      ∧ (ota_manager_init s).ota_ctx.restart_required = false
      ∧ (ota_manager_init s).flash_memory = s.flash_memory
      ∧ (ota_manager_init s).bootloader_ctx = s.bootloader_ctx
      ∧ (ota_manager_init s).total_updates = s.total_updates
      ∧ (ota_manager_init s).successful_updates = s.successful_updates
      ∧ (ota_manager_init s).failed_updates = s.failed_updates := by
  refine ⟨ota_manager_start_update_not_idle s total_size chunk_size now ?_,
    rfl, rfl, rfl, rfl, rfl, rfl, rfl, rfl, rfl, rfl, rfl, rfl⟩
  rcases h with h | h <;> rw [h] <;> decide

/-- Witness of the amended C17 on a session in `COMPLETE`. -/
theorem start_update_after_finished_session_witness :
    (sample_session OTA_STATE_COMPLETE 4096 1024 4096 4).ota_ctx.state = OTA_STATE_COMPLETE
      ∧ ota_manager_start_update (sample_session OTA_STATE_COMPLETE 4096 1024 4096 4)
          4096 1024 0
        = (OTA_ERROR_INVALID_STATE, sample_session OTA_STATE_COMPLETE 4096 1024 4096 4) :=
  ⟨rfl,
    (start_update_after_finished_session (sample_session OTA_STATE_COMPLETE 4096 1024 4096 4)
      4096 1024 0 (Or.inl rfl)).1⟩

/-- C18: for every `total_size` and `chunk_size` that pass the size validation
of `ota_manager_start_update` (called in `IDLE`, result not
`OTA_ERROR_INVALID_SIZE`), the sum `total_size + chunk_size - 1` is below
`2 ^ 32`, and the stored `total_chunks` is the exact ceiling of
`total_size / chunk_size`:
`(total_chunks - 1) * chunk_size < total_size <= total_chunks * chunk_size`. -/
theorem total_chunks_is_ceiling (s : System) (total_size chunk_size now : Nat)
    (h : s.ota_ctx.state = OTA_STATE_IDLE)
    (hv : (ota_manager_start_update s total_size chunk_size now).1 ≠ OTA_ERROR_INVALID_SIZE) :
    total_size + chunk_size - 1 < 2 ^ 32
      ∧ (ota_manager_start_update s total_size chunk_size now).2.ota_ctx.chunk_info.total_chunks
          = (total_size + chunk_size - 1) / chunk_size
      ∧ ((ota_manager_start_update s total_size chunk_size now).2.ota_ctx.chunk_info.total_chunks
            - 1) * chunk_size < total_size
      ∧ total_size
          ≤ (ota_manager_start_update s total_size chunk_size now).2.ota_ctx.chunk_info.total_chunks
              * chunk_size := by
  have hsz : ¬ (total_size = 0 ∨ chunk_size = 0 ∨ chunk_size > 1024 ∨ total_size > 0xF80E0000) := by
    intro hb
    rw [ota_manager_start_update_bad_size s total_size chunk_size now h hb] at hv
    exact hv rfl
  have h1 : total_size ≠ 0 := by omega
  have h2 : chunk_size ≠ 0 := by omega
  have h3 : chunk_size ≤ 1024 := by omega
  have h4 : total_size ≤ 0xF80E0000 := by omega
  have hU : U32_MOD = 4294967296 := rfl
  have hlt : total_size + chunk_size - 1 < 2 ^ 32 := by omega
  rw [ota_manager_start_update_good_size s total_size chunk_size now h h1 h2 h3 h4]
  have hq : ((total_size + chunk_size - 1) % U32_MOD) / chunk_size
      = (total_size + chunk_size - 1) / chunk_size := by
    rw [hU, Nat.mod_eq_of_lt (by omega)]
  have hpos : 0 < chunk_size := by omega
  have hle := Nat.div_mul_le_self (total_size + chunk_size - 1) chunk_size
  have hgt := Nat.lt_div_mul_add (a := total_size + chunk_size - 1) hpos
  have hsub : ((total_size + chunk_size - 1) / chunk_size - 1) * chunk_size
      = (total_size + chunk_size - 1) / chunk_size * chunk_size - chunk_size := by
    rw [Nat.sub_mul, Nat.one_mul]
  refine ⟨hlt, hq, ?_, ?_⟩
  · show (((total_size + chunk_size - 1) % U32_MOD) / chunk_size - 1) * chunk_size < total_size
    rw [hq, hsub]
    omega
  · show total_size ≤ ((total_size + chunk_size - 1) % U32_MOD) / chunk_size * chunk_size
    rw [hq]
    omega

/-- Witness of C18: 4097 bytes in chunks of 1024 give 5 chunks. -/
theorem total_chunks_is_ceiling_witness :
    (ota_manager_start_update (ota_manager_init sample_system) 4097 1024 0).1
        ≠ OTA_ERROR_INVALID_SIZE
      ∧ (ota_manager_start_update (ota_manager_init sample_system) 4097 1024 0).2.ota_ctx.chunk_info.total_chunks
          = 5
      ∧ (5 - 1) * 1024 < 4097 ∧ 4097 ≤ 5 * 1024 :=
  ⟨by decide,
    (total_chunks_is_ceiling (ota_manager_init sample_system) 4097 1024 0 rfl (by decide)).2.1,
    by decide, by decide⟩

/-! ## OTA manager: receiving chunks -/

theorem ota_manager_receive_chunk_at_bad_state (slot : Nat) (s : System) (n : Nat)
    (data : List Byte) (now : Nat)
    (h : s.ota_ctx.state ≠ OTA_STATE_WAITING_FOR_START
      ∧ s.ota_ctx.state ≠ OTA_STATE_RECEIVING_DATA) :
    ota_manager_receive_chunk_at slot s n data now = some (OTA_ERROR_INVALID_STATE, s) := by
  unfold ota_manager_receive_chunk_at
  simp only [if_pos h]

theorem ota_manager_receive_chunk_at_wrong_number (slot : Nat) (s : System) (n : Nat)
    (data : List Byte) (now : Nat)
    (h : s.ota_ctx.state = OTA_STATE_WAITING_FOR_START
      ∨ s.ota_ctx.state = OTA_STATE_RECEIVING_DATA)
    (hn : n ≠ s.ota_ctx.chunk_info.next_expected_chunk) :
    ota_manager_receive_chunk_at slot s n data now = some (OTA_ERROR_COMMUNICATION, s) := by
  have h0 : ¬ (s.ota_ctx.state ≠ OTA_STATE_WAITING_FOR_START
      ∧ s.ota_ctx.state ≠ OTA_STATE_RECEIVING_DATA) := by
    rcases h with h | h <;> simp [h]
  unfold ota_manager_receive_chunk_at
  simp only [if_neg h0, if_pos hn]

theorem ota_manager_receive_chunk_at_bad_size (slot : Nat) (s : System) (n : Nat)
    (data : List Byte) (now : Nat)
    (h : s.ota_ctx.state = OTA_STATE_WAITING_FOR_START
      ∨ s.ota_ctx.state = OTA_STATE_RECEIVING_DATA)
    (hn : n = s.ota_ctx.chunk_info.next_expected_chunk)
    (hb : data.length = 0 ∨ data.length > s.ota_ctx.chunk_info.chunk_size
      ∨ (s.ota_ctx.chunk_info.received_bytes + data.length) % U32_MOD
          > s.ota_ctx.chunk_info.total_size) :
    ota_manager_receive_chunk_at slot s n data now = some (OTA_ERROR_INVALID_SIZE, s) := by
  have h0 : ¬ (s.ota_ctx.state ≠ OTA_STATE_WAITING_FOR_START
      ∧ s.ota_ctx.state ≠ OTA_STATE_RECEIVING_DATA) := by
    rcases h with h | h <;> simp [h]
  unfold ota_manager_receive_chunk_at
  simp only [if_neg h0, if_neg (not_not.mpr hn)]
  by_cases h1 : data.length = 0 ∨ data.length > s.ota_ctx.chunk_info.chunk_size
  · simp only [if_pos h1]
  · have h2 : (s.ota_ctx.chunk_info.received_bytes + data.length) % U32_MOD
        > s.ota_ctx.chunk_info.total_size := by
      rcases hb with hb | hb | hb
      · exact absurd (Or.inl hb) h1
      · exact absurd (Or.inr hb) h1
      · exact hb
    simp only [if_neg h1, if_pos h2]

/-- The outcome of `ota_manager_receive_chunk` once all its checks have
passed: a flash write fails and the session is left in `ERROR` with nothing
but the flash and the session state changed; or every write succeeds and,
`total_size` being 0, the division of the progress traps; or every write
succeeds and the chunk is accepted, the result being the system with the
written flash, the session in `RECEIVING_DATA`, the three counters advanced,
the time of the call and the new progress. -/
theorem ota_manager_receive_chunk_at_checked (slot : Nat) (s : System) (n : Nat)
    (data : List Byte) (now : Nat)
    (h : s.ota_ctx.state = OTA_STATE_WAITING_FOR_START
      ∨ s.ota_ctx.state = OTA_STATE_RECEIVING_DATA)
    (hn : n = s.ota_ctx.chunk_info.next_expected_chunk)
    (hb : ¬ (data.length = 0 ∨ data.length > s.ota_ctx.chunk_info.chunk_size
      ∨ (s.ota_ctx.chunk_info.received_bytes + data.length) % U32_MOD
          > s.ota_ctx.chunk_info.total_size)) :
    ((write_chunk_loop s.flash_memory
          ((slot + s.ota_ctx.chunk_info.received_bytes) % U32_MOD) 0 data).1 ≠ BOOT_OK
        ∧ ota_manager_receive_chunk_at slot s n data now
          = some (OTA_ERROR_FLASH_ERROR,
              { s with
                flash_memory := (write_chunk_loop s.flash_memory
                  ((slot + s.ota_ctx.chunk_info.received_bytes) % U32_MOD) 0 data).2
                ota_ctx := { s.ota_ctx with
                  state := OTA_STATE_ERROR, last_error := OTA_ERROR_FLASH_ERROR } }))
      ∨ ((write_chunk_loop s.flash_memory
            ((slot + s.ota_ctx.chunk_info.received_bytes) % U32_MOD) 0 data).1 = BOOT_OK
          ∧ s.ota_ctx.chunk_info.total_size = 0
          ∧ ota_manager_receive_chunk_at slot s n data now = none)
      ∨ ((write_chunk_loop s.flash_memory
            ((slot + s.ota_ctx.chunk_info.received_bytes) % U32_MOD) 0 data).1 = BOOT_OK
          ∧ s.ota_ctx.chunk_info.total_size ≠ 0
          ∧ ota_manager_receive_chunk_at slot s n data now
            = some (OTA_ERROR_NONE,
                { s with
                  flash_memory := (write_chunk_loop s.flash_memory
                    ((slot + s.ota_ctx.chunk_info.received_bytes) % U32_MOD) 0 data).2
                  ota_ctx := { s.ota_ctx with
                    state := OTA_STATE_RECEIVING_DATA
                    last_error :=
                      if s.ota_ctx.state = OTA_STATE_WAITING_FOR_START then OTA_ERROR_NONE
                      else s.ota_ctx.last_error
                    chunk_info := { s.ota_ctx.chunk_info with
                      received_chunks := (s.ota_ctx.chunk_info.received_chunks + 1) % U32_MOD
                      received_bytes :=
                        (s.ota_ctx.chunk_info.received_bytes + data.length) % U32_MOD
                      next_expected_chunk :=
                        (s.ota_ctx.chunk_info.next_expected_chunk + 1) % U32_MOD }
                    last_activity_time := now % U32_MOD
                    progress_percent :=
                      ((((s.ota_ctx.chunk_info.received_bytes + data.length) % U32_MOD * 100)
                          % U32_MOD) / s.ota_ctx.chunk_info.total_size) % 256 } })) := by
  have h0 : ¬ (s.ota_ctx.state ≠ OTA_STATE_WAITING_FOR_START
      ∧ s.ota_ctx.state ≠ OTA_STATE_RECEIVING_DATA) := by
    rcases h with h | h <;> simp [h]
  have h1 : ¬ (data.length = 0 ∨ data.length > s.ota_ctx.chunk_info.chunk_size) :=
    fun hc => hb (hc.elim Or.inl (fun x => Or.inr (Or.inl x)))
  have h2 : ¬ ((s.ota_ctx.chunk_info.received_bytes + data.length) % U32_MOD
      > s.ota_ctx.chunk_info.total_size) := fun hc => hb (Or.inr (Or.inr hc))
  unfold ota_manager_receive_chunk_at
  simp only [if_neg h0, if_neg (not_not.mpr hn), if_neg h1, if_neg h2]
  rcases h with h | h
  · simp only [h, if_true, update_state, update_progress]
    by_cases hw : (write_chunk_loop s.flash_memory
        ((slot + s.ota_ctx.chunk_info.received_bytes) % U32_MOD) 0 data).1 ≠ BOOT_OK
    · exact Or.inl ⟨hw, by rw [if_pos hw]⟩
    · by_cases ht : s.ota_ctx.chunk_info.total_size = 0
      · exact Or.inr (Or.inl ⟨not_not.mp hw, ht, by rw [if_neg hw, if_pos ht]⟩)
      · exact Or.inr (Or.inr ⟨not_not.mp hw, ht, by rw [if_neg hw, if_neg ht]⟩)
  · have hne : ¬ (OTA_STATE_RECEIVING_DATA = OTA_STATE_WAITING_FOR_START) := by decide
    simp only [h, if_neg hne, update_state, update_progress]
    by_cases hw : (write_chunk_loop s.flash_memory
        ((slot + s.ota_ctx.chunk_info.received_bytes) % U32_MOD) 0 data).1 ≠ BOOT_OK
    · exact Or.inl ⟨hw, by rw [if_pos hw]⟩
    · by_cases ht : s.ota_ctx.chunk_info.total_size = 0
      · exact Or.inr (Or.inl ⟨not_not.mp hw, ht, by rw [if_neg hw, if_pos ht]⟩)
      · refine Or.inr (Or.inr ⟨not_not.mp hw, ht, ?_⟩)
        rw [if_neg hw, if_neg ht]

/-- The ways `ota_manager_receive_chunk` ends: one of the three rejections
with the system unchanged, or one of the three outcomes of
`ota_manager_receive_chunk_at_checked`. -/
theorem ota_manager_receive_chunk_at_cases (slot : Nat) (s : System) (n : Nat)
    (data : List Byte) (now : Nat) :
    (ota_manager_receive_chunk_at slot s n data now = some (OTA_ERROR_INVALID_STATE, s)
        ∨ ota_manager_receive_chunk_at slot s n data now = some (OTA_ERROR_COMMUNICATION, s)
        ∨ ota_manager_receive_chunk_at slot s n data now = some (OTA_ERROR_INVALID_SIZE, s))
      ∨ ((s.ota_ctx.state = OTA_STATE_WAITING_FOR_START
            ∨ s.ota_ctx.state = OTA_STATE_RECEIVING_DATA)
          ∧ n = s.ota_ctx.chunk_info.next_expected_chunk
          ∧ ¬ (data.length = 0 ∨ data.length > s.ota_ctx.chunk_info.chunk_size
            ∨ (s.ota_ctx.chunk_info.received_bytes + data.length) % U32_MOD
                > s.ota_ctx.chunk_info.total_size)) := by
  by_cases h : s.ota_ctx.state = OTA_STATE_WAITING_FOR_START
      ∨ s.ota_ctx.state = OTA_STATE_RECEIVING_DATA
  · by_cases hn : n = s.ota_ctx.chunk_info.next_expected_chunk
    · by_cases hb : data.length = 0 ∨ data.length > s.ota_ctx.chunk_info.chunk_size
        ∨ (s.ota_ctx.chunk_info.received_bytes + data.length) % U32_MOD
            > s.ota_ctx.chunk_info.total_size
      · exact Or.inl (Or.inr (Or.inr
          (ota_manager_receive_chunk_at_bad_size slot s n data now h hn hb)))
      · exact Or.inr ⟨h, hn, hb⟩
    · exact Or.inl (Or.inr (Or.inl
        (ota_manager_receive_chunk_at_wrong_number slot s n data now h hn)))
  · exact Or.inl (Or.inl (ota_manager_receive_chunk_at_bad_state slot s n data now
      (by simpa [not_or] using h)))

/-- What a successful `ota_manager_receive_chunk` has checked and what it
leaves: the result is the accepted-chunk system of
`ota_manager_receive_chunk_at_checked`. -/
theorem ota_manager_receive_chunk_at_accepted (slot : Nat) (s : System) (n : Nat)
    (data : List Byte) (now : Nat) (r : ota_error_t × System)
    (hr : ota_manager_receive_chunk_at slot s n data now = some r)
    (hok : r.1 = OTA_ERROR_NONE) :
    (s.ota_ctx.state = OTA_STATE_WAITING_FOR_START
        ∨ s.ota_ctx.state = OTA_STATE_RECEIVING_DATA)
      ∧ n = s.ota_ctx.chunk_info.next_expected_chunk
      ∧ data.length ≠ 0
      ∧ data.length ≤ s.ota_ctx.chunk_info.chunk_size
      ∧ (s.ota_ctx.chunk_info.received_bytes + data.length) % U32_MOD
          ≤ s.ota_ctx.chunk_info.total_size
      ∧ (write_chunk_loop s.flash_memory
          ((slot + s.ota_ctx.chunk_info.received_bytes) % U32_MOD) 0 data).1 = BOOT_OK
      ∧ s.ota_ctx.chunk_info.total_size ≠ 0
      ∧ r.2 = { s with
          flash_memory := (write_chunk_loop s.flash_memory
            ((slot + s.ota_ctx.chunk_info.received_bytes) % U32_MOD) 0 data).2
          ota_ctx := { s.ota_ctx with
            state := OTA_STATE_RECEIVING_DATA
            last_error :=
              if s.ota_ctx.state = OTA_STATE_WAITING_FOR_START then OTA_ERROR_NONE
              else s.ota_ctx.last_error
            chunk_info := { s.ota_ctx.chunk_info with
              received_chunks := (s.ota_ctx.chunk_info.received_chunks + 1) % U32_MOD
              received_bytes :=
                (s.ota_ctx.chunk_info.received_bytes + data.length) % U32_MOD
              next_expected_chunk :=
                (s.ota_ctx.chunk_info.next_expected_chunk + 1) % U32_MOD }
            last_activity_time := now % U32_MOD
            progress_percent :=
              ((((s.ota_ctx.chunk_info.received_bytes + data.length) % U32_MOD * 100)
                  % U32_MOD) / s.ota_ctx.chunk_info.total_size) % 256 } } := by
  rcases ota_manager_receive_chunk_at_cases slot s n data now with hc | ⟨h, hn, hb⟩
  · rcases hc with hc | hc | hc <;>
      (rw [hc] at hr; simp only [Option.some.injEq] at hr; rw [← hr] at hok; cases hok)
  · have hb2 := hb
    simp only [not_or, not_lt, gt_iff_lt] at hb2
    rcases ota_manager_receive_chunk_at_checked slot s n data now h hn hb with hc | hc | hc
    · rw [hc.2] at hr
      simp only [Option.some.injEq] at hr
      rw [← hr] at hok
      cases hok
    · rw [hc.2.2] at hr
      cases hr
    · rw [hc.2.2] at hr
      simp only [Option.some.injEq] at hr
      exact ⟨h, hn, hb2.1, hb2.2.1, hb2.2.2, hc.1, hc.2.1, by rw [← hr]⟩

/-- What a failing `ota_manager_receive_chunk` leaves: the system as it was
after a rejection, or, after a failed flash write, the system with the flash
as the write loop left it and the session in `ERROR`. -/
theorem ota_manager_receive_chunk_at_failed (slot : Nat) (s : System) (n : Nat)
    (data : List Byte) (now : Nat) (r : ota_error_t × System)
    (hr : ota_manager_receive_chunk_at slot s n data now = some r)
    (hne : r.1 ≠ OTA_ERROR_NONE) :
    ((r.1 = OTA_ERROR_INVALID_STATE ∨ r.1 = OTA_ERROR_COMMUNICATION
          ∨ r.1 = OTA_ERROR_INVALID_SIZE) ∧ r.2 = s)
      ∨ ((s.ota_ctx.state = OTA_STATE_WAITING_FOR_START
            ∨ s.ota_ctx.state = OTA_STATE_RECEIVING_DATA)
          ∧ r.1 = OTA_ERROR_FLASH_ERROR
          ∧ r.2 = { s with
              flash_memory := (write_chunk_loop s.flash_memory
                ((slot + s.ota_ctx.chunk_info.received_bytes) % U32_MOD) 0 data).2
              ota_ctx := { s.ota_ctx with
                state := OTA_STATE_ERROR, last_error := OTA_ERROR_FLASH_ERROR } }) := by
  rcases ota_manager_receive_chunk_at_cases slot s n data now with hc | ⟨h, hn, hb⟩
  · rcases hc with hc | hc | hc <;>
      (rw [hc] at hr; simp only [Option.some.injEq] at hr; rw [← hr])
    · exact Or.inl ⟨Or.inl rfl, rfl⟩
    · exact Or.inl ⟨Or.inr (Or.inl rfl), rfl⟩
    · exact Or.inl ⟨Or.inr (Or.inr rfl), rfl⟩
  · rcases ota_manager_receive_chunk_at_checked slot s n data now h hn hb with hc | hc | hc
    · rw [hc.2] at hr
      simp only [Option.some.injEq] at hr
      rw [← hr]
      exact Or.inr ⟨h, rfl, rfl⟩
    · rw [hc.2.2] at hr
      cases hr
    · rw [hc.2.2] at hr
      simp only [Option.some.injEq] at hr
      rw [← hr] at hne
      exact absurd rfl hne

theorem ota_manager_receive_chunk_at_success (slot : Nat) (s : System) (n : Nat)
    (data : List Byte) (now : Nat) (r : ota_error_t × System)
    (hr : ota_manager_receive_chunk_at slot s n data now = some r)
    (hok : r.1 = OTA_ERROR_NONE) :
    r.2.ota_ctx.state = OTA_STATE_RECEIVING_DATA
      ∧ r.2.ota_ctx.chunk_info.next_expected_chunk = (n + 1) % U32_MOD := by
  obtain ⟨_, hn, _, _, _, _, _, h2⟩ :=
    ota_manager_receive_chunk_at_accepted slot s n data now r hr hok
  rw [h2, hn]
  exact ⟨rfl, rfl⟩

/-- C19: for `ota_manager_receive_chunk` (the body below at
`slot = APP_SLOT_B_ADDRESS`): in state `WAITING_FOR_START` or `RECEIVING_DATA`,
a chunk whose number differs from `next_expected_chunk` returns
`OTA_ERROR_COMMUNICATION` and leaves the whole system (flash and counters)
unchanged; and right after a successful `receive_chunk(n, ..)`, the session is
in `RECEIVING_DATA` with `next_expected_chunk` advanced to `n + 1` (32-bit), so
a repeated `receive_chunk(n, ..)` returns `OTA_ERROR_COMMUNICATION` and changes
nothing. -/
theorem receive_chunk_strict_order (slot : Nat) (s : System) (n : Nat) (data : List Byte)
    (now : Nat) :
    ((s.ota_ctx.state = OTA_STATE_WAITING_FOR_START
          ∨ s.ota_ctx.state = OTA_STATE_RECEIVING_DATA) →
        n ≠ s.ota_ctx.chunk_info.next_expected_chunk →
        ota_manager_receive_chunk_at slot s n data now = some (OTA_ERROR_COMMUNICATION, s))
      ∧ (∀ s1, ota_manager_receive_chunk_at slot s n data now = some (OTA_ERROR_NONE, s1) →
          s1.ota_ctx.chunk_info.next_expected_chunk = (n + 1) % U32_MOD
            ∧ ∀ data2 now2,
              ota_manager_receive_chunk_at slot s1 n data2 now2
                = some (OTA_ERROR_COMMUNICATION, s1))
      ∧ ota_manager_receive_chunk s n data now
          = ota_manager_receive_chunk_at APP_SLOT_B_ADDRESS s n data now := by
  refine ⟨ota_manager_receive_chunk_at_wrong_number slot s n data now, fun s1 hr => ?_, rfl⟩
  obtain ⟨hst, hnx⟩ := ota_manager_receive_chunk_at_success slot s n data now _ hr rfl
  refine ⟨hnx, fun data2 now2 => ?_⟩
  apply ota_manager_receive_chunk_at_wrong_number slot _ n data2 now2 (Or.inr hst)
  have hU : U32_MOD = 4294967296 := rfl
  have hnx2 : s1.ota_ctx.chunk_info.next_expected_chunk = (n + 1) % U32_MOD := hnx
  rw [hnx2, hU]
  omega

/-- Witness of C19: in a fresh session (8 bytes in chunks of 4) on an erased
flash with the update slot at `0x20000`, chunk 1 sent first is rejected, chunk 0
is accepted, and chunk 0 sent again is rejected. -/
theorem receive_chunk_strict_order_witness :
    ota_manager_receive_chunk_at 0x20000 (sample_session OTA_STATE_WAITING_FOR_START 8 4 0 0)
        1 [1, 2, 3, 4] 0
      = some (OTA_ERROR_COMMUNICATION, sample_session OTA_STATE_WAITING_FOR_START 8 4 0 0)
      ∧ (ota_manager_receive_chunk_at 0x20000
          (sample_session OTA_STATE_WAITING_FOR_START 8 4 0 0) 0 [1, 2, 3, 4] 0).map Prod.fst
        = some OTA_ERROR_NONE
      ∧ ∀ s1, ota_manager_receive_chunk_at 0x20000
            (sample_session OTA_STATE_WAITING_FOR_START 8 4 0 0) 0 [1, 2, 3, 4] 0
          = some (OTA_ERROR_NONE, s1) →
          ota_manager_receive_chunk_at 0x20000 s1 0 [1, 2, 3, 4] 0
            = some (OTA_ERROR_COMMUNICATION, s1) :=
  ⟨(receive_chunk_strict_order 0x20000 (sample_session OTA_STATE_WAITING_FOR_START 8 4 0 0)
      1 [1, 2, 3, 4] 0).1 (Or.inl rfl) (by decide),
    by decide,
    fun s1 h =>
      ((receive_chunk_strict_order 0x20000 (sample_session OTA_STATE_WAITING_FOR_START 8 4 0 0)
        0 [1, 2, 3, 4] 0).2.1 s1 h).2 [1, 2, 3, 4] 0⟩

/-- C20 as stated fails: a session in `RECEIVING_DATA` with
`received_bytes = total_size = 0xFFFFFFFF` and chunk size 4 satisfies
`received_bytes <= total_size`; for a one-byte chunk with the expected number,
`received_bytes + size` exceeds `total_size`, but the 32-bit sum wraps to 0, the
check passes and the call goes on to write (returning `OTA_ERROR_FLASH_ERROR`,
session in `ERROR`) instead of returning `OTA_ERROR_INVALID_SIZE`. -/
theorem receive_chunk_size_check_wraps :
    (sample_session OTA_STATE_RECEIVING_DATA 0xFFFFFFFF 4 0xFFFFFFFF 0).ota_ctx.state
        = OTA_STATE_RECEIVING_DATA
      ∧ (sample_session OTA_STATE_RECEIVING_DATA 0xFFFFFFFF 4
          0xFFFFFFFF 0).ota_ctx.chunk_info.next_expected_chunk = 0
      ∧ (sample_session OTA_STATE_RECEIVING_DATA 0xFFFFFFFF 4
          0xFFFFFFFF 0).ota_ctx.chunk_info.received_bytes
        ≤ (sample_session OTA_STATE_RECEIVING_DATA 0xFFFFFFFF 4
          0xFFFFFFFF 0).ota_ctx.chunk_info.total_size
      ∧ (sample_session OTA_STATE_RECEIVING_DATA 0xFFFFFFFF 4
            0xFFFFFFFF 0).ota_ctx.chunk_info.received_bytes + [(0 : Byte)].length
          > (sample_session OTA_STATE_RECEIVING_DATA 0xFFFFFFFF 4
            0xFFFFFFFF 0).ota_ctx.chunk_info.total_size
      ∧ (ota_manager_receive_chunk
          (sample_session OTA_STATE_RECEIVING_DATA 0xFFFFFFFF 4 0xFFFFFFFF 0) 0 [0] 0).map
          Prod.fst = some OTA_ERROR_FLASH_ERROR
      ∧ (ota_manager_receive_chunk
          (sample_session OTA_STATE_RECEIVING_DATA 0xFFFFFFFF 4 0xFFFFFFFF 0)
          0 [0] 0).map (fun r => r.2.ota_ctx.state) = some OTA_STATE_ERROR := by
  decide

/-- C20 (amended): in state `WAITING_FOR_START` or `RECEIVING_DATA`, with the
expected chunk number and a session satisfying `received_bytes <= total_size`
and `received_bytes + size < 2 ^ 32`, `ota_manager_receive_chunk` returns
`OTA_ERROR_INVALID_SIZE` exactly when the chunk is empty, longer than
`chunk_size`, or `received_bytes + size > total_size`; in those cases the whole
system (flash and session counters) is unchanged. Outside those two states it
returns `OTA_ERROR_INVALID_STATE` and changes nothing. -/
theorem receive_chunk_size_checks (s : System) (n : Nat) (data : List Byte) (now : Nat) :
    ((s.ota_ctx.state = OTA_STATE_WAITING_FOR_START
          ∨ s.ota_ctx.state = OTA_STATE_RECEIVING_DATA) →
        n = s.ota_ctx.chunk_info.next_expected_chunk →
        s.ota_ctx.chunk_info.received_bytes ≤ s.ota_ctx.chunk_info.total_size →
        s.ota_ctx.chunk_info.received_bytes + data.length < 2 ^ 32 →
        ((ota_manager_receive_chunk s n data now).map Prod.fst = some OTA_ERROR_INVALID_SIZE
            ↔ (data.length = 0 ∨ data.length > s.ota_ctx.chunk_info.chunk_size
                ∨ s.ota_ctx.chunk_info.received_bytes + data.length
                    > s.ota_ctx.chunk_info.total_size))
          ∧ ((ota_manager_receive_chunk s n data now).map Prod.fst
                = some OTA_ERROR_INVALID_SIZE →
              ota_manager_receive_chunk s n data now = some (OTA_ERROR_INVALID_SIZE, s)))
      ∧ ((s.ota_ctx.state ≠ OTA_STATE_WAITING_FOR_START
            ∧ s.ota_ctx.state ≠ OTA_STATE_RECEIVING_DATA) →
          ota_manager_receive_chunk s n data now = some (OTA_ERROR_INVALID_STATE, s)) := by
  rw [ota_manager_receive_chunk_eq_at]
  refine ⟨fun h hn _ hlt => ?_,
    ota_manager_receive_chunk_at_bad_state APP_SLOT_B_ADDRESS s n data now⟩
  have hU : U32_MOD = 4294967296 := rfl
  have hmod : (s.ota_ctx.chunk_info.received_bytes + data.length) % U32_MOD
      = s.ota_ctx.chunk_info.received_bytes + data.length := by
    rw [hU]; omega
  by_cases hb : data.length = 0 ∨ data.length > s.ota_ctx.chunk_info.chunk_size
      ∨ (s.ota_ctx.chunk_info.received_bytes + data.length) % U32_MOD
          > s.ota_ctx.chunk_info.total_size
  · rw [ota_manager_receive_chunk_at_bad_size _ s n data now h hn hb]
    rw [hmod] at hb
    exact ⟨⟨fun _ => hb, fun _ => rfl⟩, fun _ => rfl⟩
  · have hne : (ota_manager_receive_chunk_at APP_SLOT_B_ADDRESS s n data now).map Prod.fst
        ≠ some OTA_ERROR_INVALID_SIZE := by
      rcases ota_manager_receive_chunk_at_checked APP_SLOT_B_ADDRESS s n data now h hn hb
        with hc | hc | hc
      · rw [hc.2]; simp
      · rw [hc.2.2]; simp
      · rw [hc.2.2]; simp
    rw [hmod] at hb
    exact ⟨⟨fun h1 => absurd h1 hne, fun h1 => absurd h1 hb⟩, fun h1 => absurd h1 hne⟩

/-- Witness of the amended C20: in a session with 10 bytes expected in chunks
of 4 and 8 bytes received, a 4-byte chunk would exceed the total and is
rejected with `OTA_ERROR_INVALID_SIZE`, nothing changing. -/
theorem receive_chunk_size_checks_witness :
    (sample_session OTA_STATE_RECEIVING_DATA 10 4 8 2).ota_ctx.chunk_info.received_bytes
        + [(1 : Byte), 2, 3, 4].length < 2 ^ 32
      ∧ (ota_manager_receive_chunk (sample_session OTA_STATE_RECEIVING_DATA 10 4 8 2)
          2 [1, 2, 3, 4] 0).map Prod.fst = some OTA_ERROR_INVALID_SIZE
      ∧ ota_manager_receive_chunk (sample_session OTA_STATE_RECEIVING_DATA 10 4 8 2)
          2 [1, 2, 3, 4] 0
        = some (OTA_ERROR_INVALID_SIZE, sample_session OTA_STATE_RECEIVING_DATA 10 4 8 2) :=
  ⟨by decide,
    (((receive_chunk_size_checks (sample_session OTA_STATE_RECEIVING_DATA 10 4 8 2)
      2 [1, 2, 3, 4] 0).1 (Or.inr rfl) rfl (by decide) (by decide)).1).2
      (Or.inr (Or.inr (by decide))),
    ((receive_chunk_size_checks (sample_session OTA_STATE_RECEIVING_DATA 10 4 8 2)
      2 [1, 2, 3, 4] 0).1 (Or.inr rfl) rfl (by decide) (by decide)).2
      ((((receive_chunk_size_checks (sample_session OTA_STATE_RECEIVING_DATA 10 4 8 2)
        2 [1, 2, 3, 4] 0).1 (Or.inr rfl) rfl (by decide) (by decide)).1).2
        (Or.inr (Or.inr (by decide))))⟩

/-! ## OTA manager: the remaining operations -/

theorem ota_manager_start_update_eq_at (s : System) (total_size chunk_size now : Nat) :
    ota_manager_start_update s total_size chunk_size now
      = ota_manager_start_update_at APP_SLOT_B_ADDRESS s total_size chunk_size now := rfl

theorem ota_manager_validate_update_eq_at (s : System) :
    ota_manager_validate_update s = ota_manager_validate_update_at APP_SLOT_B_ADDRESS s := rfl

theorem ota_manager_finalize_update_eq_at (s : System) :
    ota_manager_finalize_update s = ota_manager_finalize_update_at APP_SLOT_B_ADDRESS s := rfl

theorem ota_manager_apply_update_eq_at (s : System) :
    ota_manager_apply_update s = ota_manager_apply_update_at APP_SLOT_B_ADDRESS s := rfl

/-- C21 at the failing input. On the function itself: a session in
`RECEIVING_DATA` on an erased flash whose 32-bit write address
`APP_SLOT_B_ADDRESS + received_bytes` is flash index 0
(`received_bytes = 0xF7FE0000`), chunk size 8, receives the 5-byte chunk
1, 2, 3, 4, 5. The call succeeds and stores the five bytes, but the second word
is written whole: the bytes at indices 5, 6, 7, outside the chunk and erased
before, now hold 0. The next chunk, due at index 5, then fails on the flash
write, which refuses a word that is not erased, and the session ends in
`ERROR`. In the body of the function with the update slot at `0x20000` the
same happens through the operations alone: after `ota_manager_init` and
`start_update(8, 8)`, chunk 0 of 5 bytes is accepted and leaves
1, 2, 3, 4, 5, 0, 0, 0 in the slot, and chunk 1 with the remaining 3 bytes is
refused with `OTA_ERROR_FLASH_ERROR`, the session ending in `ERROR`. -/
theorem receive_chunk_pads_last_word :
    (ota_manager_receive_chunk
        (sample_session OTA_STATE_RECEIVING_DATA 0xF7FE0008 8 0xF7FE0000 3) 3
        [1, 2, 3, 4, 5] 0).map Prod.fst = some OTA_ERROR_NONE
      ∧ (APP_SLOT_B_ADDRESS + 0xF7FE0000) % U32_MOD = 0
      ∧ (ota_manager_receive_chunk
          (sample_session OTA_STATE_RECEIVING_DATA 0xF7FE0008 8 0xF7FE0000 3) 3
          [1, 2, 3, 4, 5] 0).map (fun r => (List.range 8).map r.2.flash_memory)
        = some [1, 2, 3, 4, 5, 0, 0, 0]
      ∧ (List.range 8).map
          (sample_session OTA_STATE_RECEIVING_DATA 0xF7FE0008 8 0xF7FE0000 3).flash_memory
        = [0xFF, 0xFF, 0xFF, 0xFF, 0xFF, 0xFF, 0xFF, 0xFF]
      ∧ ((ota_manager_receive_chunk
            (sample_session OTA_STATE_RECEIVING_DATA 0xF7FE0008 8 0xF7FE0000 3) 3
            [1, 2, 3, 4, 5] 0).bind
          (fun r => ota_manager_receive_chunk r.2 4 [6, 7, 8] 0)).map
          (fun r => (r.1, r.2.ota_ctx.state))
        = some (OTA_ERROR_FLASH_ERROR, OTA_STATE_ERROR)
      ∧ (ota_manager_start_update_at 0x20000 (ota_manager_init sample_system) 8 8 0).1
        = OTA_ERROR_NONE
      ∧ (ota_manager_receive_chunk_at 0x20000
            (ota_manager_start_update_at 0x20000 (ota_manager_init sample_system) 8 8 0).2
            0 [1, 2, 3, 4, 5] 0).map
          (fun r => (r.1, r.2.ota_ctx.chunk_info.received_bytes,
            (List.range 8).map (fun i => r.2.flash_memory (0x20000 + i))))
        = some (OTA_ERROR_NONE, 5, [1, 2, 3, 4, 5, 0, 0, 0])
      ∧ ((ota_manager_receive_chunk_at 0x20000
            (ota_manager_start_update_at 0x20000 (ota_manager_init sample_system) 8 8 0).2
            0 [1, 2, 3, 4, 5] 0).bind
          (fun r => ota_manager_receive_chunk_at 0x20000 r.2 1 [6, 7, 8] 0)).map
          (fun r => (r.1, r.2.ota_ctx.state))
        = some (OTA_ERROR_FLASH_ERROR, OTA_STATE_ERROR) := by
  decide

/-- C23 as stated fails: in a session in `RECEIVING_DATA` expecting chunk 1, a
chunk numbered 5 is rejected with `OTA_ERROR_COMMUNICATION` and an empty chunk
with `OTA_ERROR_INVALID_SIZE`, and in both cases the session stays in
`RECEIVING_DATA`; the expected chunk is then still taken up (here it goes on to
the flash write). -/
theorem receive_chunk_rejection_keeps_session :
    (ota_manager_receive_chunk (sample_session OTA_STATE_RECEIVING_DATA 4096 1024 1024 1)
        5 [1, 2, 3, 4] 0).map (fun r => (r.1, r.2.ota_ctx.state))
        = some (OTA_ERROR_COMMUNICATION, OTA_STATE_RECEIVING_DATA)
      ∧ (ota_manager_receive_chunk (sample_session OTA_STATE_RECEIVING_DATA 4096 1024 1024 1)
          1 [] 0).map (fun r => (r.1, r.2.ota_ctx.state))
        = some (OTA_ERROR_INVALID_SIZE, OTA_STATE_RECEIVING_DATA)
      ∧ ((ota_manager_receive_chunk
            (sample_session OTA_STATE_RECEIVING_DATA 4096 1024 1024 1) 5 [1, 2, 3, 4] 0).bind
          (fun r => ota_manager_receive_chunk r.2 1 [1, 2, 3, 4] 0)).map Prod.fst
        = some OTA_ERROR_FLASH_ERROR := by
  decide

theorem ota_manager_finalize_update_at_bad_state (slot : Nat) (s : System)
    (h : s.ota_ctx.state ≠ OTA_STATE_RECEIVING_DATA) :
    ota_manager_finalize_update_at slot s = some (OTA_ERROR_INVALID_STATE, s) := by
  unfold ota_manager_finalize_update_at
  rw [if_pos h]

theorem ota_manager_finalize_update_at_incomplete (slot : Nat) (s : System)
    (h : s.ota_ctx.state = OTA_STATE_RECEIVING_DATA)
    (hn : s.ota_ctx.chunk_info.received_bytes ≠ s.ota_ctx.chunk_info.total_size) :
    ota_manager_finalize_update_at slot s = some (OTA_ERROR_INVALID_SIZE, s) := by
  unfold ota_manager_finalize_update_at
  rw [if_neg (not_not.mpr h), if_pos hn]

theorem ota_manager_finalize_update_at_complete (slot : Nat) (s : System)
    (h : s.ota_ctx.state = OTA_STATE_RECEIVING_DATA)
    (hn : s.ota_ctx.chunk_info.received_bytes = s.ota_ctx.chunk_info.total_size) :
    ota_manager_finalize_update_at slot s
      = ota_manager_validate_update_at slot
          { s with ota_ctx :=
              update_progress (update_state s.ota_ctx OTA_STATE_VALIDATING OTA_ERROR_NONE) 95 } := by
  unfold ota_manager_finalize_update_at
  rw [if_neg (not_not.mpr h), if_neg (not_not.mpr hn)]

/-- C24: `ota_manager_finalize_update` called in any state other than
`RECEIVING_DATA` returns `OTA_ERROR_INVALID_STATE`, and called in
`RECEIVING_DATA` with `received_bytes != total_size` returns
`OTA_ERROR_INVALID_SIZE`; in both cases the whole system (state, progress,
counters, `restart_required`, flash) is unchanged, so the state after the call
is neither `VALIDATING` nor `COMPLETE` unless it was before. -/
theorem finalize_update_completeness_gate (s : System) :
    (s.ota_ctx.state ≠ OTA_STATE_RECEIVING_DATA →
        ota_manager_finalize_update s = some (OTA_ERROR_INVALID_STATE, s))
      ∧ (s.ota_ctx.state = OTA_STATE_RECEIVING_DATA →
          s.ota_ctx.chunk_info.received_bytes ≠ s.ota_ctx.chunk_info.total_size →
          ota_manager_finalize_update s = some (OTA_ERROR_INVALID_SIZE, s)) :=
  ⟨ota_manager_finalize_update_at_bad_state APP_SLOT_B_ADDRESS s,
    ota_manager_finalize_update_at_incomplete APP_SLOT_B_ADDRESS s⟩

/-- Witness of C24: a session with 1024 of 4096 bytes received cannot be
finalized. -/
theorem finalize_update_completeness_gate_witness :
    (sample_session OTA_STATE_RECEIVING_DATA 4096 1024 1024 1).ota_ctx.chunk_info.received_bytes
        ≠ (sample_session OTA_STATE_RECEIVING_DATA 4096 1024 1024 1).ota_ctx.chunk_info.total_size
      ∧ ota_manager_finalize_update (sample_session OTA_STATE_RECEIVING_DATA 4096 1024 1024 1)
        = some (OTA_ERROR_INVALID_SIZE, sample_session OTA_STATE_RECEIVING_DATA 4096 1024 1024 1) :=
  ⟨by decide,
    (finalize_update_completeness_gate
      (sample_session OTA_STATE_RECEIVING_DATA 4096 1024 1024 1)).2 rfl (by decide)⟩

/-! ## What a successful chunk writes -/

theorem pack_word_four (b0 b1 b2 b3 : Byte) :
    pack_word [b0, b1, b2, b3] 0 0 = le32 b0 b1 b2 b3 := by
  have h0 := b0.isLt
  have h1 := b1.isLt
  have h2 := b2.isLt
  have h3 := b3.isLt
  have hU : U32_MOD = 4294967296 := rfl
  have s0 : (b0.val <<< (0 * 8)) % U32_MOD = b0.val := by
    simp only [Nat.zero_mul, Nat.shiftLeft_zero]
    exact Nat.mod_eq_of_lt (by omega)
  have s1 : (b1.val <<< ((0 + 1) * 8)) % U32_MOD = b1.val <<< 8 := by
    apply Nat.mod_eq_of_lt
    rw [Nat.shiftLeft_eq]
    omega
  have s2 : (b2.val <<< ((0 + 1 + 1) * 8)) % U32_MOD = b2.val <<< 16 := by
    apply Nat.mod_eq_of_lt
    rw [Nat.shiftLeft_eq]
    omega
  have s3 : (b3.val <<< ((0 + 1 + 1 + 1) * 8)) % U32_MOD = b3.val <<< 24 := by
    apply Nat.mod_eq_of_lt
    rw [Nat.shiftLeft_eq]
    omega
  simp only [pack_word, s0, s1, s2, s3, Nat.zero_or]
  have e1 : b0.val ||| (b1.val <<< 8) = 2 ^ 8 * b1.val + b0.val := by
    rw [Nat.lor_comm, Nat.shiftLeft_eq, Nat.mul_comm]
    exact (Nat.mul_add_lt_is_or (by omega) _).symm
  have e2 : (2 ^ 8 * b1.val + b0.val) ||| (b2.val <<< 16)
      = 2 ^ 16 * b2.val + (2 ^ 8 * b1.val + b0.val) := by
    rw [Nat.lor_comm, Nat.shiftLeft_eq, Nat.mul_comm]
    exact (Nat.mul_add_lt_is_or (by omega) _).symm
  have e3 : (2 ^ 16 * b2.val + (2 ^ 8 * b1.val + b0.val)) ||| (b3.val <<< 24)
      = 2 ^ 24 * b3.val + (2 ^ 16 * b2.val + (2 ^ 8 * b1.val + b0.val)) := by
    rw [Nat.lor_comm, Nat.shiftLeft_eq, Nat.mul_comm]
    exact (Nat.mul_add_lt_is_or (by omega) _).symm
  rw [e1, e2, e3]
  simp only [le32]
  omega

theorem pack_word_partial (bs : List Byte) (h : bs.length < 4) :
    pack_word bs 0 0 = pack_word (pad_to_word bs) 0 0 ∨ bs = [] := by
  match bs, h with
  | [], _ => exact Or.inr rfl
  | [b0], _ => left; simp [pack_word, pad_to_word]
  | [b0, b1], _ => left; simp [pack_word, pad_to_word]
  | [b0, b1, b2], _ => left; simp [pack_word, pad_to_word]
  | _ :: _ :: _ :: _ :: _, h => simp at h; omega

theorem le32_bytes (b0 b1 b2 b3 : Byte) :
    toByte (le32 b0 b1 b2 b3 &&& 0xFF) = b0
      ∧ toByte ((le32 b0 b1 b2 b3 >>> 8) &&& 0xFF) = b1
      ∧ toByte ((le32 b0 b1 b2 b3 >>> 16) &&& 0xFF) = b2
      ∧ toByte ((le32 b0 b1 b2 b3 >>> 24) &&& 0xFF) = b3 := by
  have h0 := b0.isLt
  have h1 := b1.isLt
  have h2 := b2.isLt
  have h3 := b3.isLt
  have e : ∀ x, x &&& 0xFF = x % 256 := fun x => Nat.and_pow_two_sub_one_eq_mod x 8
  refine ⟨?_, ?_, ?_, ?_⟩ <;>
    (apply Fin.ext
     simp only [le32, toByte, e, Nat.shiftRight_eq_div_pow]
     omega)

theorem flash_write_word_le32 (f : Flash) (a : Nat) (b0 b1 b2 b3 : Byte)
    (h : (flash_write_word f a (le32 b0 b1 b2 b3)).1 = BOOT_OK) :
    (flash_write_word f a (le32 b0 b1 b2 b3)).2 = memcpy_to_flash f a [b0, b1, b2, b3] := by
  rw [flash_write_word_ok f a _ h]
  obtain ⟨e0, e1, e2, e3⟩ := le32_bytes b0 b1 b2 b3
  funext i
  rw [e0, e1, e2, e3]
  unfold memcpy_to_flash
  by_cases c0 : i = a
  · subst c0
    simp
  · by_cases c1 : i = a + 1
    · subst c1
      simp
    · by_cases c2 : i = a + 2
      · subst c2
        simp
      · by_cases c3 : i = a + 3
        · subst c3
          simp
        · rw [if_neg c0, if_neg c1, if_neg c2, if_neg c3, if_neg]
          simp only [List.length_cons, List.length_nil]
          omega

theorem memcpy_to_flash_append (f : Flash) (a : Nat) (xs ys : List Byte) :
    memcpy_to_flash (memcpy_to_flash f a xs) (a + xs.length) ys
      = memcpy_to_flash f a (xs ++ ys) := by
  funext i
  unfold memcpy_to_flash
  simp only [List.length_append]
  by_cases h1 : a + xs.length ≤ i ∧ i < a + xs.length + ys.length
  · have h3 : a ≤ i ∧ i < a + (xs.length + ys.length) := ⟨by omega, by omega⟩
    have h4 : i - (a + xs.length) < ys.length := by omega
    have h5 : i - a < (xs ++ ys).length := by rw [List.length_append]; omega
    have h6 : xs.length ≤ i - a := by omega
    have h7 : i - a - xs.length = i - (a + xs.length) := by omega
    rw [if_pos h1, if_pos h3, List.getD_eq_getElem _ _ h4, List.getD_eq_getElem _ _ h5,
      List.getElem_append_right h6]
    simp only [h7]
  · rw [if_neg h1]
    by_cases h2 : a ≤ i ∧ i < a + xs.length
    · have h3 : a ≤ i ∧ i < a + (xs.length + ys.length) := ⟨by omega, by omega⟩
      have h4 : i - a < xs.length := by omega
      have h5 : i - a < (xs ++ ys).length := by rw [List.length_append]; omega
      rw [if_pos h2, if_pos h3, List.getD_eq_getElem _ _ h4, List.getD_eq_getElem _ _ h5,
        List.getElem_append_left h4]
    · have h3 : ¬ (a ≤ i ∧ i < a + (xs.length + ys.length)) := by omega
      rw [if_neg h2, if_neg h3]

theorem memcpy_to_flash_nil (f : Flash) (a : Nat) : memcpy_to_flash f a [] = f := by
  funext i
  unfold memcpy_to_flash
  rw [if_neg (by simp)]

theorem pad_to_word_cons_four (b0 b1 b2 b3 : Byte) (rest : List Byte) :
    pad_to_word (b0 :: b1 :: b2 :: b3 :: rest) = [b0, b1, b2, b3] ++ pad_to_word rest := by
  unfold pad_to_word
  have : (b0 :: b1 :: b2 :: b3 :: rest).length % 4 = rest.length % 4 := by
    simp only [List.length_cons]
    omega
  rw [this]
  rfl

theorem pad_to_word_length (data : List Byte) :
    data.length ≤ (pad_to_word data).length ∧ (pad_to_word data).length < data.length + 4
      ∧ (pad_to_word data).length % 4 = 0
      ∧ (data.length % 4 = 0 → pad_to_word data = data) := by
  unfold pad_to_word
  simp only [List.length_append, List.length_replicate]
  refine ⟨by omega, by omega, by omega, fun h => ?_⟩
  rw [h]
  simp

theorem write_word_of_padded (f : Flash) (a : Nat) (b0 b1 b2 b3 : Byte) (f1 : Flash)
    (h : flash_write_word f a (pack_word [b0, b1, b2, b3] 0 0) = (BOOT_OK, f1)) :
    f1 = memcpy_to_flash f a [b0, b1, b2, b3] ∧ a + 4 ≤ FLASH_TOTAL_SIZE := by
  rw [pack_word_four] at h
  have hok : (flash_write_word f a (le32 b0 b1 b2 b3)).1 = BOOT_OK := by rw [h]
  have h2 := flash_write_word_le32 f a b0 b1 b2 b3 hok
  rw [h] at h2
  exact ⟨h2, ((flash_write_word_ok_iff f a _).1 hok).1⟩

theorem write_chunk_loop_ok : ∀ (data : List Byte) (f : Flash) (wa i : Nat) (f1 : Flash),
    write_chunk_loop f wa i data = (BOOT_OK, f1) →
    f1 = memcpy_to_flash f ((wa + i) % U32_MOD) (pad_to_word data)
      ∧ (data ≠ [] → (wa + i) % U32_MOD + (pad_to_word data).length ≤ FLASH_TOTAL_SIZE)
  | [], f, wa, i, f1, h => by
    simp only [write_chunk_loop, Prod.mk.injEq, true_and] at h
    refine ⟨?_, fun hk => absurd rfl hk⟩
    rw [← h]
    exact (memcpy_to_flash_nil f _).symm
  | [b0], f, wa, i, f1, h => by
    have hp : pack_word [b0] 0 0 = pack_word [b0, 0, 0, 0] 0 0 := by simp [pack_word]
    simp only [write_chunk_loop, hp] at h
    have := write_word_of_padded f _ b0 0 0 0 f1 h
    exact ⟨this.1, fun _ => this.2⟩
  | [b0, b1], f, wa, i, f1, h => by
    have hp : pack_word [b0, b1] 0 0 = pack_word [b0, b1, 0, 0] 0 0 := by simp [pack_word]
    simp only [write_chunk_loop, hp] at h
    have := write_word_of_padded f _ b0 b1 0 0 f1 h
    exact ⟨this.1, fun _ => this.2⟩
  | [b0, b1, b2], f, wa, i, f1, h => by
    have hp : pack_word [b0, b1, b2] 0 0 = pack_word [b0, b1, b2, 0] 0 0 := by
      simp [pack_word]
    simp only [write_chunk_loop, hp] at h
    have := write_word_of_padded f _ b0 b1 b2 0 f1 h
    exact ⟨this.1, fun _ => this.2⟩
  | b0 :: b1 :: b2 :: b3 :: rest, f, wa, i, f1, h => by
    have hU : U32_MOD = 4294967296 := rfl
    have hF : FLASH_TOTAL_SIZE = 1048576 := rfl
    simp only [write_chunk_loop] at h
    by_cases hr : (flash_write_word f ((wa + i) % U32_MOD) (pack_word [b0, b1, b2, b3] 0 0)).1
        ≠ BOOT_OK
    · rw [if_pos hr] at h
      rw [h] at hr
      exact absurd rfl hr
    · rw [if_neg hr] at h
      have hw := write_word_of_padded f ((wa + i) % U32_MOD) b0 b1 b2 b3 _
        (Prod.ext (not_not.mp hr) rfl)
      have ih := write_chunk_loop_ok rest _ wa (i + 4) f1 h
      have ha : (wa + (i + 4)) % U32_MOD = (wa + i) % U32_MOD + 4 := by
        have h2 := hw.2
        rw [hU, hF] at h2
        rw [hU]
        omega
      rw [ha] at ih
      rw [pad_to_word_cons_four]
      refine ⟨?_, fun _ => ?_⟩
      · exact ih.1.trans
          ((congrArg (fun g => memcpy_to_flash g ((wa + i) % U32_MOD + 4) (pad_to_word rest))
            hw.1).trans (memcpy_to_flash_append f _ [b0, b1, b2, b3] (pad_to_word rest)))
      · by_cases hn : rest = []
        · subst hn
          have := hw.2
          simp [pad_to_word]
          omega
        · have := ih.2 hn
          simp only [List.length_append, List.length_cons, List.length_nil]
          omega

/-- The function `ota_manager_receive_chunk` itself always returns: with the
update slot at `APP_SLOT_B_ADDRESS` the division by a zero `total_size` is never
reached, the flash write failing first. -/
theorem ota_manager_receive_chunk_returns (s : System) (n : Nat) (data : List Byte)
    (now : Nat) : ∃ r, ota_manager_receive_chunk s n data now = some r := by
  rw [ota_manager_receive_chunk_eq_at]
  rcases ota_manager_receive_chunk_at_cases APP_SLOT_B_ADDRESS s n data now with hc | ⟨h, hn, hb⟩
  · rcases hc with hc | hc | hc <;> exact ⟨_, hc⟩
  · rcases ota_manager_receive_chunk_at_checked APP_SLOT_B_ADDRESS s n data now h hn hb
      with hc | hc | hc
    · exact ⟨_, hc.2⟩
    · exfalso
      have hb2 := hb
      simp only [not_or, not_lt, gt_iff_lt] at hb2
      have hne : data ≠ [] := fun hk => hb2.1 (by rw [hk]; rfl)
      have hw : write_chunk_loop s.flash_memory
          ((APP_SLOT_B_ADDRESS + s.ota_ctx.chunk_info.received_bytes) % U32_MOD) 0 data
          = (BOOT_OK, (write_chunk_loop s.flash_memory
              ((APP_SLOT_B_ADDRESS + s.ota_ctx.chunk_info.received_bytes) % U32_MOD) 0 data).2) :=
        Prod.ext hc.1 rfl
      have hl := (write_chunk_loop_ok data _ _ 0 _ hw).2 hne
      have hp := (pad_to_word_length data).1
      have hz := hb2.2.2
      rw [hc.2.1] at hz
      have hU : U32_MOD = 4294967296 := rfl
      have hF : FLASH_TOTAL_SIZE = 1048576 := rfl
      have hB : APP_SLOT_B_ADDRESS = 134348800 := rfl
      rw [hU, hF, hB] at hl
      rw [hU] at hz
      omega
    · exact ⟨_, hc.2.2⟩

/-- C23 (amended): for a `receive_chunk` call made in `WAITING_FOR_START` or
`RECEIVING_DATA`: if it fails on a flash write (`OTA_ERROR_FLASH_ERROR`) the
session is left in `ERROR`, and every later `receive_chunk` and
`finalize_update` is rejected with `OTA_ERROR_INVALID_STATE`, changing nothing;
if it is rejected for a wrong chunk number (`OTA_ERROR_COMMUNICATION`) or a bad
size (`OTA_ERROR_INVALID_SIZE`) the system is left exactly as it was. The call
always returns, and no other error is returned in those two states. -/
theorem receive_chunk_failure_outcomes (s : System) (n : Nat) (data : List Byte) (now : Nat)
    (h : s.ota_ctx.state = OTA_STATE_WAITING_FOR_START
      ∨ s.ota_ctx.state = OTA_STATE_RECEIVING_DATA) :
    (∀ s1, ota_manager_receive_chunk s n data now = some (OTA_ERROR_FLASH_ERROR, s1) →
        s1.ota_ctx.state = OTA_STATE_ERROR
        ∧ (∀ n2 data2 now2,
            ota_manager_receive_chunk s1 n2 data2 now2 = some (OTA_ERROR_INVALID_STATE, s1))
        ∧ ota_manager_finalize_update s1 = some (OTA_ERROR_INVALID_STATE, s1))
      ∧ (∀ s1, (ota_manager_receive_chunk s n data now = some (OTA_ERROR_COMMUNICATION, s1)
            ∨ ota_manager_receive_chunk s n data now = some (OTA_ERROR_INVALID_SIZE, s1)) →
          s1 = s)
      ∧ (∃ r, ota_manager_receive_chunk s n data now = some r
          ∧ (r.1 = OTA_ERROR_NONE
            ∨ r.1 = OTA_ERROR_FLASH_ERROR
            ∨ r.1 = OTA_ERROR_COMMUNICATION
            ∨ r.1 = OTA_ERROR_INVALID_SIZE)) := by
  obtain ⟨r0, hr0⟩ := ota_manager_receive_chunk_returns s n data now
  rw [ota_manager_receive_chunk_eq_at] at hr0 ⊢
  by_cases hn : n = s.ota_ctx.chunk_info.next_expected_chunk
  · by_cases hb : data.length = 0 ∨ data.length > s.ota_ctx.chunk_info.chunk_size
        ∨ (s.ota_ctx.chunk_info.received_bytes + data.length) % U32_MOD
            > s.ota_ctx.chunk_info.total_size
    · rw [ota_manager_receive_chunk_at_bad_size _ s n data now h hn hb]
      refine ⟨fun s1 hc => (by cases hc), fun s1 hk => ?_, ⟨_, rfl, Or.inr (Or.inr (Or.inr rfl))⟩⟩
      rcases hk with hk | hk
      · cases hk
      · cases hk; rfl
    · rcases ota_manager_receive_chunk_at_checked APP_SLOT_B_ADDRESS s n data now h hn hb
        with hc | hc | hc
      · rw [hc.2]
        refine ⟨fun s1 hk => ?_, fun s1 hk => ?_, ⟨_, rfl, Or.inr (Or.inl rfl)⟩⟩
        · simp only [Option.some.injEq, Prod.mk.injEq, true_and] at hk
          have hst : s1.ota_ctx.state = OTA_STATE_ERROR := by rw [← hk]
          refine ⟨hst, fun n2 data2 now2 => ?_, ?_⟩
          · rw [ota_manager_receive_chunk_eq_at]
            exact ota_manager_receive_chunk_at_bad_state _ _ n2 data2 now2
              (by rw [hst]; exact ⟨by decide, by decide⟩)
          · rw [ota_manager_finalize_update_eq_at]
            exact ota_manager_finalize_update_at_bad_state _ _ (by rw [hst]; decide)
        · rcases hk with hk | hk <;> cases hk
      · rw [hc.2.2] at hr0
        cases hr0
      · rw [hc.2.2]
        refine ⟨fun s1 hk => (by cases hk), fun s1 hk => ?_, ⟨_, rfl, Or.inl rfl⟩⟩
        rcases hk with hk | hk <;> cases hk
  · rw [ota_manager_receive_chunk_at_wrong_number _ s n data now h hn]
    refine ⟨fun s1 hc => (by cases hc), fun s1 hk => ?_, ⟨_, rfl, Or.inr (Or.inr (Or.inl rfl))⟩⟩
    rcases hk with hk | hk
    · cases hk; rfl
    · cases hk

/-- Witness of the amended C23: in a fresh 8-byte session the first chunk
fails on the flash write (the write address `APP_SLOT_B_ADDRESS` is outside the
flash) and the session is left in `ERROR`. -/
theorem receive_chunk_failure_outcomes_witness :
    (sample_session OTA_STATE_WAITING_FOR_START 8 4 0 0).ota_ctx.state
        = OTA_STATE_WAITING_FOR_START
      ∧ (ota_manager_receive_chunk (sample_session OTA_STATE_WAITING_FOR_START 8 4 0 0)
          0 [1, 2, 3, 4] 0).map Prod.fst = some OTA_ERROR_FLASH_ERROR
      ∧ ∀ s1, ota_manager_receive_chunk (sample_session OTA_STATE_WAITING_FOR_START 8 4 0 0)
            0 [1, 2, 3, 4] 0 = some (OTA_ERROR_FLASH_ERROR, s1) →
          s1.ota_ctx.state = OTA_STATE_ERROR :=
  ⟨rfl, by decide,
    fun s1 hk =>
      ((receive_chunk_failure_outcomes (sample_session OTA_STATE_WAITING_FOR_START 8 4 0 0)
        0 [1, 2, 3, 4] 0 (Or.inl rfl)).1 s1 hk).1⟩

theorem ota_manager_receive_chunk_at_ok (slot : Nat) (s : System) (n : Nat)
    (data : List Byte) (now : Nat) (r : ota_error_t × System)
    (hr : ota_manager_receive_chunk_at slot s n data now = some r)
    (hok : r.1 = OTA_ERROR_NONE) :
    write_chunk_loop s.flash_memory
        ((slot + s.ota_ctx.chunk_info.received_bytes) % U32_MOD) 0 data
        = (BOOT_OK, r.2.flash_memory)
      ∧ data ≠ []
      ∧ r.2.ota_ctx.chunk_info
          = { s.ota_ctx.chunk_info with
              received_chunks := (s.ota_ctx.chunk_info.received_chunks + 1) % U32_MOD
              received_bytes := (s.ota_ctx.chunk_info.received_bytes + data.length) % U32_MOD
              next_expected_chunk :=
                (s.ota_ctx.chunk_info.next_expected_chunk + 1) % U32_MOD }
      ∧ r.2.ota_ctx.progress_percent
          = ((((s.ota_ctx.chunk_info.received_bytes + data.length) % U32_MOD * 100) % U32_MOD)
              / s.ota_ctx.chunk_info.total_size) % 256
      ∧ s.ota_ctx.chunk_info.total_size ≠ 0 := by
  obtain ⟨_, _, h0, _, _, hw, ht, h2⟩ :=
    ota_manager_receive_chunk_at_accepted slot s n data now r hr hok
  rw [h2]
  exact ⟨Prod.ext hw rfl, fun hk => h0 (by rw [hk]; rfl), rfl, rfl, ht⟩

/-- What a successful chunk writes: whenever `receive_chunk` (its body with
any update slot address `slot`) returns success for a chunk of `n` bytes, with
`a` the 32-bit write address `slot + received_bytes`: the write lies inside the
flash, the flash afterwards is the flash before with the chunk, filled up with
zero bytes to a whole number of 4-byte words, copied to `a`. So the bytes at
`[a, a + n)` equal the chunk data, the up to three bytes from `a + n` to the
end of the last word are 0, and every other flash byte is unchanged; when `n`
is a multiple of 4 every flash byte outside `[a, a + n)` is unchanged. -/
theorem receive_chunk_write_effect (slot : Nat) (s : System) (n : Nat) (data : List Byte)
    (now : Nat) (r : ota_error_t × System)
    (hr : ota_manager_receive_chunk_at slot s n data now = some r)
    (hok : r.1 = OTA_ERROR_NONE) :
    r.2.flash_memory
        = memcpy_to_flash s.flash_memory
            ((slot + s.ota_ctx.chunk_info.received_bytes) % U32_MOD) (pad_to_word data)
      ∧ (slot + s.ota_ctx.chunk_info.received_bytes) % U32_MOD + (pad_to_word data).length
          ≤ FLASH_TOTAL_SIZE
      ∧ (pad_to_word data).length < data.length + 4
      ∧ (pad_to_word data).length % 4 = 0
      ∧ (∀ i (hi : i < data.length),
          r.2.flash_memory
              ((slot + s.ota_ctx.chunk_info.received_bytes) % U32_MOD + i) = data[i])
      ∧ (∀ i, data.length ≤ i → i < (pad_to_word data).length →
          r.2.flash_memory
              ((slot + s.ota_ctx.chunk_info.received_bytes) % U32_MOD + i) = 0)
      ∧ (∀ j, j < (slot + s.ota_ctx.chunk_info.received_bytes) % U32_MOD
            ∨ (slot + s.ota_ctx.chunk_info.received_bytes) % U32_MOD
                + (pad_to_word data).length ≤ j →
          r.2.flash_memory j = s.flash_memory j)
      ∧ (data.length % 4 = 0 →
          ∀ j, j < (slot + s.ota_ctx.chunk_info.received_bytes) % U32_MOD
              ∨ (slot + s.ota_ctx.chunk_info.received_bytes) % U32_MOD + data.length ≤ j →
            r.2.flash_memory j = s.flash_memory j) := by
  obtain ⟨hw, hne, _, _, _⟩ := ota_manager_receive_chunk_at_ok slot s n data now r hr hok
  have hl := write_chunk_loop_ok data _ _ 0 _ hw
  rw [Nat.add_zero, Nat.mod_mod] at hl
  obtain ⟨hf, hb⟩ := hl
  have hb := hb hne
  obtain ⟨p1, p2, p3, p4⟩ := pad_to_word_length data
  have hmem : ∀ j, r.2.flash_memory j
      = memcpy_to_flash s.flash_memory
          ((slot + s.ota_ctx.chunk_info.received_bytes) % U32_MOD) (pad_to_word data) j :=
    fun j => congrFun hf j
  have hout : ∀ j, j < (slot + s.ota_ctx.chunk_info.received_bytes) % U32_MOD
        ∨ (slot + s.ota_ctx.chunk_info.received_bytes) % U32_MOD
            + (pad_to_word data).length ≤ j →
      r.2.flash_memory j = s.flash_memory j := by
    intro j hj
    rw [hmem j]
    unfold memcpy_to_flash
    rw [if_neg (by omega)]
  have hin : ∀ i (hi : i < (pad_to_word data).length),
      r.2.flash_memory
          ((slot + s.ota_ctx.chunk_info.received_bytes) % U32_MOD + i)
        = (pad_to_word data)[i] := by
    intro i hi
    rw [hmem _]
    unfold memcpy_to_flash
    rw [if_pos ⟨Nat.le_add_right _ _, Nat.add_lt_add_left hi _⟩, Nat.add_sub_cancel_left,
      List.getD_eq_getElem _ _ hi]
  refine ⟨hf, hb, p2, p3, fun i hi => ?_, fun i h1 h2 => ?_, hout, fun h4 j hj => ?_⟩
  · rw [hin i (by omega)]
    unfold pad_to_word
    rw [List.getElem_append_left hi]
  · rw [hin i h2]
    unfold pad_to_word
    rw [List.getElem_append_right h1]
    simp
  · apply hout
    rw [p4 h4]
    exact hj

/-- What `ota_manager_validate_update` computes when no validation callback
is installed and the declared image lies inside the flash at `slot` with at
least a whole header: the checks of the function in order. -/
theorem ota_manager_validate_update_at_in_range (slot : Nat) (s : System)
    (hcb : s.validate_callback = none)
    (h80 : 80 ≤ s.ota_ctx.chunk_info.total_size)
    (hr : slot + s.ota_ctx.chunk_info.total_size ≤ FLASH_TOTAL_SIZE) :
    ota_manager_validate_update_at slot s =
      if validate_firmware_header (decode_header s.flash_memory slot) = false
          ∨ (decode_header s.flash_memory slot).size ≠ s.ota_ctx.chunk_info.total_size then
        some (OTA_ERROR_VALIDATION_FAILED,
          { s with
            ota_ctx := update_state
              { s.ota_ctx with firmware_header := decode_header s.flash_memory slot }
              OTA_STATE_ERROR OTA_ERROR_VALIDATION_FAILED
            failed_updates := incr32 s.failed_updates })
      else if calculate_crc32 (flash_slice s.flash_memory (slot + 80)
          (s.ota_ctx.chunk_info.total_size - 80))
          ≠ (decode_header s.flash_memory slot).crc32 then
        some (OTA_ERROR_CRC_MISMATCH,
          { s with
            ota_ctx := update_state
              { s.ota_ctx with firmware_header := decode_header s.flash_memory slot }
              OTA_STATE_ERROR OTA_ERROR_CRC_MISMATCH
            failed_updates := incr32 s.failed_updates })
      else
        some (OTA_ERROR_NONE,
          { s with
            ota_ctx :=
              { update_progress
                  (update_state
                    { s.ota_ctx with firmware_header := decode_header s.flash_memory slot }
                    OTA_STATE_COMPLETE OTA_ERROR_NONE) 100 with
                restart_required := true }
            successful_updates := incr32 s.successful_updates }) := by
  have hT : FLASH_TOTAL_SIZE = 1048576 := rfl
  have hU : U32_MOD = 4294967296 := rfl
  unfold ota_manager_validate_update_at
  rw [read_header_in_range s.flash_memory slot (by omega)]
  simp only [Option.bind_eq_bind, Option.some_bind, hcb]
  by_cases hv : validate_firmware_header (decode_header s.flash_memory slot) = false
  · simp [hv]
  · simp only [Bool.not_eq_false] at hv
    by_cases hs : (decode_header s.flash_memory slot).size ≠ s.ota_ctx.chunk_info.total_size
    · simp [hv, hs]
    · have hs2 : (decode_header s.flash_memory slot).size = s.ota_ctx.chunk_info.total_size :=
        not_not.mp hs
      have hn : ((decode_header s.flash_memory slot).size + U32_MOD - sizeof_firmware_header_t)
          % U32_MOD = s.ota_ctx.chunk_info.total_size - 80 := by
        rw [hs2, sizeof_firmware_header_t_eq, hU]; omega
      have hrd : flash_read_bytes s.flash_memory (slot + sizeof_firmware_header_t)
          (s.ota_ctx.chunk_info.total_size - 80)
          = some (flash_slice s.flash_memory (slot + 80)
              (s.ota_ctx.chunk_info.total_size - 80)) := by
        unfold flash_read_bytes
        rw [sizeof_firmware_header_t_eq, if_pos (by omega)]
      rw [hn, hrd]
      by_cases hc : calculate_crc32 (flash_slice s.flash_memory (slot + 80)
          (s.ota_ctx.chunk_info.total_size - 80))
          ≠ (decode_header s.flash_memory slot).crc32
      · simp [hv, hs2, hc]
      · have hc2 := not_not.mp hc
        simp [hv, hs2, hc2]

theorem validate_firmware_header_iff (h : firmware_header_t) :
    validate_firmware_header h = true
      ↔ (h.magic = FIRMWARE_MAGIC ∧ 0 < h.size ∧ h.entry_point ≠ 0) := by
  unfold validate_firmware_header
  simp [and_assoc]

theorem ota_manager_validate_update_no_result (s : System) :
    ota_manager_validate_update s = none := by
  unfold ota_manager_validate_update
  have h : read_header s.flash_memory APP_SLOT_B_ADDRESS = none := by
    unfold read_header
    rw [if_neg (by decide)]
  rw [h]
  rfl

/-- C25 at the failing input: `ota_manager_finalize_update` called in
`RECEIVING_DATA` with `received_bytes = total_size` gets to
`ota_manager_validate_update`, whose first statement copies the header out of
`flash_memory[APP_SLOT_B_ADDRESS]`. That address is beyond the
`FLASH_TOTAL_SIZE` bytes of the array, so the copy reads outside it and the
call has no defined result: neither success nor `OTA_ERROR_CRC_MISMATCH` nor
`OTA_ERROR_VALIDATION_FAILED` is returned, whatever the flash holds. -/
theorem finalize_update_reads_outside_flash (s : System)
    (hst : s.ota_ctx.state = OTA_STATE_RECEIVING_DATA)
    (hrx : s.ota_ctx.chunk_info.received_bytes = s.ota_ctx.chunk_info.total_size) :
    FLASH_TOTAL_SIZE < APP_SLOT_B_ADDRESS + sizeof_firmware_header_t
      ∧ read_header s.flash_memory APP_SLOT_B_ADDRESS = none
      ∧ ota_manager_finalize_update s = none := by
  refine ⟨by decide, ?_, ?_⟩
  · unfold read_header
    rw [if_neg (by decide)]
  · unfold ota_manager_finalize_update
    rw [if_neg (not_not.mpr hst), if_neg (not_not.mpr hrx)]
    exact ota_manager_validate_update_no_result _

/-- Witness of C25: a session of 84 bytes in `RECEIVING_DATA` with all 84
bytes received. -/
theorem finalize_update_reads_outside_flash_witness :
    (sample_session OTA_STATE_RECEIVING_DATA 84 84 84 1).ota_ctx.state
        = OTA_STATE_RECEIVING_DATA
      ∧ (sample_session OTA_STATE_RECEIVING_DATA 84 84 84 1).ota_ctx.chunk_info.received_bytes
        = (sample_session OTA_STATE_RECEIVING_DATA 84 84 84 1).ota_ctx.chunk_info.total_size
      ∧ ota_manager_finalize_update (sample_session OTA_STATE_RECEIVING_DATA 84 84 84 1)
        = none :=
  ⟨rfl, rfl,
    (finalize_update_reads_outside_flash (sample_session OTA_STATE_RECEIVING_DATA 84 84 84 1)
      rfl rfl).2.2⟩

/-- The header check of `validate_firmware_header` also asks for a non-zero
entry point. On the function itself a complete session has no defined result;
in the body with the update slot at address 0, an 84-byte image whose header
has the right magic, size 84 and the CRC32 of its payload, but entry point 0,
is rejected with `OTA_ERROR_VALIDATION_FAILED`. -/
theorem finalize_update_rejects_zero_entry_point :
    (ota_manager_finalize_update (sample_session OTA_STATE_RECEIVING_DATA 84 84 84 1)).isNone
        = true
      ∧ (decode_header (flash_of_bytes
          (header_image FIRMWARE_MAGIC 1 2 3 84 0xB63CFBCD 0 ++ [1, 2, 3, 4])) 0).magic
        = FIRMWARE_MAGIC
      ∧ (decode_header (flash_of_bytes
          (header_image FIRMWARE_MAGIC 1 2 3 84 0xB63CFBCD 0 ++ [1, 2, 3, 4])) 0).size = 84
      ∧ calculate_crc32 (flash_slice (flash_of_bytes
          (header_image FIRMWARE_MAGIC 1 2 3 84 0xB63CFBCD 0 ++ [1, 2, 3, 4])) 80 4)
        = (decode_header (flash_of_bytes
          (header_image FIRMWARE_MAGIC 1 2 3 84 0xB63CFBCD 0 ++ [1, 2, 3, 4])) 0).crc32
      ∧ (ota_manager_finalize_update_at 0
          { sample_session OTA_STATE_RECEIVING_DATA 84 84 84 1 with
            flash_memory := flash_of_bytes
              (header_image FIRMWARE_MAGIC 1 2 3 84 0xB63CFBCD 0 ++ [1, 2, 3, 4]) }).map
          Prod.fst = some OTA_ERROR_VALIDATION_FAILED := by
  decide

/-- What the body of `finalize_update` decides with an update slot lying inside
the flash (`slot` with `slot + total_size <= FLASH_TOTAL_SIZE`, which
`APP_SLOT_B_ADDRESS` is not) and `total_size` at least the header length:
called in `RECEIVING_DATA` with
`received_bytes = total_size` and no validate callback returns a result, which
is success if and only if the header stored at the slot has magic `0xDEADBEEF`,
a non-zero entry point, size field equal to `total_size`, and crc32 field equal
to the CRC32 of the payload bytes after the header. On success the state is
`COMPLETE`, progress is 100 and `restart_required` is true; otherwise the state
is `ERROR`, with `OTA_ERROR_CRC_MISMATCH` returned when only the CRC disagrees
and `OTA_ERROR_VALIDATION_FAILED` when magic, entry point or size disagree. -/
theorem finalize_update_validation (slot : Nat) (s : System)
    (hst : s.ota_ctx.state = OTA_STATE_RECEIVING_DATA)
    (hrx : s.ota_ctx.chunk_info.received_bytes = s.ota_ctx.chunk_info.total_size)
    (hcb : s.validate_callback = none)
    (h80 : 80 ≤ s.ota_ctx.chunk_info.total_size)
    (hr : slot + s.ota_ctx.chunk_info.total_size ≤ FLASH_TOTAL_SIZE) :
    ∃ e s1, ota_manager_finalize_update_at slot s = some (e, s1)
      ∧ (e = OTA_ERROR_NONE ↔
          ((decode_header s.flash_memory slot).magic = FIRMWARE_MAGIC
            ∧ (decode_header s.flash_memory slot).entry_point ≠ 0
            ∧ (decode_header s.flash_memory slot).size = s.ota_ctx.chunk_info.total_size
            ∧ calculate_crc32 (flash_slice s.flash_memory (slot + 80)
                (s.ota_ctx.chunk_info.total_size - 80))
              = (decode_header s.flash_memory slot).crc32))
      ∧ (e = OTA_ERROR_NONE →
          s1.ota_ctx.state = OTA_STATE_COMPLETE ∧ s1.ota_ctx.progress_percent = 100
            ∧ s1.ota_ctx.restart_required = true)
      ∧ (e ≠ OTA_ERROR_NONE → s1.ota_ctx.state = OTA_STATE_ERROR)
      ∧ (e = OTA_ERROR_CRC_MISMATCH ↔
          ((decode_header s.flash_memory slot).magic = FIRMWARE_MAGIC
            ∧ (decode_header s.flash_memory slot).entry_point ≠ 0
            ∧ (decode_header s.flash_memory slot).size = s.ota_ctx.chunk_info.total_size
            ∧ calculate_crc32 (flash_slice s.flash_memory (slot + 80)
                (s.ota_ctx.chunk_info.total_size - 80))
              ≠ (decode_header s.flash_memory slot).crc32))
      ∧ (e = OTA_ERROR_VALIDATION_FAILED ↔
          ¬ ((decode_header s.flash_memory slot).magic = FIRMWARE_MAGIC
            ∧ (decode_header s.flash_memory slot).entry_point ≠ 0
            ∧ (decode_header s.flash_memory slot).size = s.ota_ctx.chunk_info.total_size)) := by
  have hval := ota_manager_validate_update_at_in_range slot
    { s with ota_ctx :=
        update_progress (update_state s.ota_ctx OTA_STATE_VALIDATING OTA_ERROR_NONE) 95 }
    hcb h80 hr
  dsimp only [update_progress, update_state] at hval
  rw [ota_manager_finalize_update_at_complete slot s hst hrx]
  dsimp only [update_progress, update_state]
  rw [hval]
  have hv := validate_firmware_header_iff (decode_header s.flash_memory slot)
  by_cases hok : (decode_header s.flash_memory slot).magic = FIRMWARE_MAGIC
      ∧ (decode_header s.flash_memory slot).entry_point ≠ 0
      ∧ (decode_header s.flash_memory slot).size = s.ota_ctx.chunk_info.total_size
  · have hvt : validate_firmware_header (decode_header s.flash_memory slot) = true :=
      hv.2 ⟨hok.1, by omega, hok.2.1⟩
    have hc1 : ¬ (validate_firmware_header (decode_header s.flash_memory slot) = false
        ∨ (decode_header s.flash_memory slot).size ≠ s.ota_ctx.chunk_info.total_size) := by
      rw [hvt]
      simp [hok.2.2]
    by_cases hc : calculate_crc32 (flash_slice s.flash_memory (slot + 80)
        (s.ota_ctx.chunk_info.total_size - 80)) = (decode_header s.flash_memory slot).crc32
    · refine ⟨_, _, by rw [if_neg hc1, if_neg (not_not.mpr hc)], ?_, ?_, ?_, ?_, ?_⟩
      · exact ⟨fun _ => ⟨hok.1, hok.2.1, hok.2.2, hc⟩, fun _ => rfl⟩
      · exact fun _ => ⟨rfl, rfl, rfl⟩
      · exact fun hne => absurd rfl hne
      · exact ⟨fun hk => (by cases hk), fun hk => absurd hc hk.2.2.2⟩
      · exact ⟨fun hk => (by cases hk), fun hk => absurd hok hk⟩
    · refine ⟨_, _, by rw [if_neg hc1, if_pos hc], ?_, ?_, ?_, ?_, ?_⟩
      · exact ⟨fun hk => (by cases hk), fun hk => absurd hk.2.2.2 hc⟩
      · exact fun hk => by cases hk
      · exact fun _ => rfl
      · exact ⟨fun _ => ⟨hok.1, hok.2.1, hok.2.2, hc⟩, fun _ => rfl⟩
      · exact ⟨fun hk => (by cases hk), fun hk => absurd hok hk⟩
  · have hc1 : validate_firmware_header (decode_header s.flash_memory slot) = false
        ∨ (decode_header s.flash_memory slot).size ≠ s.ota_ctx.chunk_info.total_size := by
      by_cases hs : (decode_header s.flash_memory slot).size = s.ota_ctx.chunk_info.total_size
      · left
        by_contra hvf
        simp only [Bool.not_eq_false] at hvf
        have := hv.1 hvf
        exact hok ⟨this.1, this.2.2, hs⟩
      · exact Or.inr hs
    refine ⟨_, _, by rw [if_pos hc1], ?_, ?_, ?_, ?_, ?_⟩
    · exact ⟨fun hk => (by cases hk), fun hk => absurd ⟨hk.1, hk.2.1, hk.2.2.1⟩ hok⟩
    · exact fun hk => by cases hk
    · exact fun _ => rfl
    · exact ⟨fun hk => (by cases hk), fun hk => absurd ⟨hk.1, hk.2.1, hk.2.2.1⟩ hok⟩
    · exact ⟨fun _ => hok, fun _ => rfl⟩

/-- An instance of `finalize_update_validation`: the sample image (entry point
7) at an update slot at address 0, received in full. -/
theorem finalize_update_validation_witness :
    0 + 84 ≤ FLASH_TOTAL_SIZE
      ∧ (ota_manager_finalize_update_at 0
          { sample_session OTA_STATE_RECEIVING_DATA 84 84 84 1 with
            flash_memory := flash_of_bytes sample_image }).map Prod.fst = some OTA_ERROR_NONE
      ∧ ∃ e s1, ota_manager_finalize_update_at 0
            { sample_session OTA_STATE_RECEIVING_DATA 84 84 84 1 with
              flash_memory := flash_of_bytes sample_image } = some (e, s1)
          ∧ (e ≠ OTA_ERROR_NONE → s1.ota_ctx.state = OTA_STATE_ERROR) :=
  ⟨by decide, by decide,
    (finalize_update_validation 0
      { sample_session OTA_STATE_RECEIVING_DATA 84 84 84 1 with
        flash_memory := flash_of_bytes sample_image } rfl rfl rfl (by decide) (by decide)).imp
      fun _ he => he.imp fun _ hs => ⟨hs.1, hs.2.2.2.1⟩⟩

/-- Every defined result of `ota_manager_validate_update` leaves the flash
and the bootloader context as they were and the session in `COMPLETE` (on
success) or in `ERROR` (on any error). -/
theorem ota_manager_validate_update_at_result (slot : Nat) (s : System)
    (r : ota_error_t × System) (h : ota_manager_validate_update_at slot s = some r) :
    r.2.flash_memory = s.flash_memory
      ∧ r.2.bootloader_ctx = s.bootloader_ctx
      ∧ ((r.1 = OTA_ERROR_NONE ∧ r.2.ota_ctx.state = OTA_STATE_COMPLETE)
        ∨ (r.1 ≠ OTA_ERROR_NONE ∧ r.2.ota_ctx.state = OTA_STATE_ERROR)) := by
  unfold ota_manager_validate_update_at at h
  simp only [Option.bind_eq_bind] at h
  cases hh : read_header s.flash_memory slot with
  | none => rw [hh] at h; cases h
  | some hd =>
    rw [hh] at h
    simp only [Option.some_bind] at h
    cases hd2 : flash_read_bytes s.flash_memory (slot + sizeof_firmware_header_t)
          ((hd.size + U32_MOD - sizeof_firmware_header_t) % U32_MOD) with
    | none =>
      rw [hd2] at h
      simp only [Option.none_bind] at h
      split_ifs at h <;>
        (simp only [Option.some.injEq] at h; subst h;
         exact ⟨rfl, rfl, Or.inr ⟨fun hk => (by cases hk), rfl⟩⟩)
    | some data =>
      rw [hd2] at h
      simp only [Option.some_bind] at h
      split_ifs at h
      all_goals (simp only [Option.some.injEq] at h; subst h)
      all_goals first
        | exact ⟨rfl, rfl, Or.inr ⟨fun hk => (by cases hk), rfl⟩⟩
        | exact ⟨rfl, rfl, Or.inl ⟨rfl, rfl⟩⟩

theorem ota_manager_finalize_update_at_result (slot : Nat) (s : System)
    (r : ota_error_t × System) (h : ota_manager_finalize_update_at slot s = some r) :
    r.2.flash_memory = s.flash_memory
      ∧ r.2.bootloader_ctx = s.bootloader_ctx
      ∧ (r.2 = s
        ∨ (s.ota_ctx.state = OTA_STATE_RECEIVING_DATA
          ∧ ((r.1 = OTA_ERROR_NONE ∧ r.2.ota_ctx.state = OTA_STATE_COMPLETE)
            ∨ (r.1 ≠ OTA_ERROR_NONE ∧ r.2.ota_ctx.state = OTA_STATE_ERROR)))) := by
  by_cases hst : s.ota_ctx.state = OTA_STATE_RECEIVING_DATA
  · by_cases hrx : s.ota_ctx.chunk_info.received_bytes = s.ota_ctx.chunk_info.total_size
    · rw [ota_manager_finalize_update_at_complete slot s hst hrx] at h
      have hv := ota_manager_validate_update_at_result slot _ r h
      exact ⟨hv.1, hv.2.1, Or.inr ⟨hst, hv.2.2⟩⟩
    · rw [ota_manager_finalize_update_at_incomplete slot s hst hrx] at h
      simp only [Option.some.injEq] at h
      subst h
      exact ⟨rfl, rfl, Or.inl rfl⟩
  · rw [ota_manager_finalize_update_at_bad_state slot s hst] at h
    simp only [Option.some.injEq] at h
    subst h
    exact ⟨rfl, rfl, Or.inl rfl⟩

theorem ota_manager_start_update_at_result (slot : Nat) (s : System)
    (total_size chunk_size now : Nat) :
    (ota_manager_start_update_at slot s total_size chunk_size now).2.bootloader_ctx
        = s.bootloader_ctx
      ∧ ((ota_manager_start_update_at slot s total_size chunk_size now).2 = s
        ∨ (s.ota_ctx.state = OTA_STATE_IDLE
          ∧ ((ota_manager_start_update_at slot s total_size chunk_size now).2.ota_ctx.state
                = OTA_STATE_WAITING_FOR_START
            ∨ (ota_manager_start_update_at slot s total_size chunk_size now).2.ota_ctx.state
                = OTA_STATE_ERROR))) := by
  unfold ota_manager_start_update_at
  by_cases h0 : s.ota_ctx.state ≠ OTA_STATE_IDLE
  · rw [if_pos h0]
    exact ⟨rfl, Or.inl rfl⟩
  · rw [if_neg h0]
    by_cases h1 : total_size = 0 ∨ chunk_size = 0 ∨ chunk_size > 1024
    · rw [if_pos h1]
      exact ⟨rfl, Or.inl rfl⟩
    · rw [if_neg h1]
      by_cases h2 : total_size > (FLASH_TOTAL_SIZE + U32_MOD - slot) % U32_MOD
      · rw [if_pos h2]
        exact ⟨rfl, Or.inl rfl⟩
      · rw [if_neg h2]
        dsimp only
        split_ifs with h3
        · exact ⟨rfl, Or.inr ⟨not_not.mp h0, Or.inr rfl⟩⟩
        · exact ⟨rfl, Or.inr ⟨not_not.mp h0, Or.inl rfl⟩⟩

theorem ota_manager_receive_chunk_at_result (slot : Nat) (s : System) (n : Nat)
    (data : List Byte) (now : Nat) (r : ota_error_t × System)
    (hr : ota_manager_receive_chunk_at slot s n data now = some r) :
    r.2.bootloader_ctx = s.bootloader_ctx
      ∧ (r.2 = s
        ∨ ((s.ota_ctx.state = OTA_STATE_WAITING_FOR_START
            ∨ s.ota_ctx.state = OTA_STATE_RECEIVING_DATA)
          ∧ (r.2.ota_ctx.state = OTA_STATE_RECEIVING_DATA
            ∨ r.2.ota_ctx.state = OTA_STATE_ERROR))) := by
  by_cases hok : r.1 = OTA_ERROR_NONE
  · obtain ⟨h, _, _, _, _, _, _, h2⟩ :=
      ota_manager_receive_chunk_at_accepted slot s n data now r hr hok
    rw [h2]
    exact ⟨rfl, Or.inr ⟨h, Or.inl rfl⟩⟩
  · rcases ota_manager_receive_chunk_at_failed slot s n data now r hr hok with hf | hf
    · rw [hf.2]
      exact ⟨rfl, Or.inl rfl⟩
    · rw [hf.2.2]
      exact ⟨rfl, Or.inr ⟨hf.1, Or.inr rfl⟩⟩

theorem ota_manager_apply_update_at_result (slot : Nat) (s s1 : System)
    (h : ota_manager_apply_update_at slot s = some s1) :
    s1.flash_memory = s.flash_memory
      ∧ (s1 = s
        ∨ (s.ota_ctx.state = OTA_STATE_COMPLETE
          ∧ (s1.ota_ctx.state = OTA_STATE_UPDATING ∨ s1.ota_ctx.state = OTA_STATE_ERROR))) := by
  unfold ota_manager_apply_update_at at h
  by_cases hc : s.ota_ctx.state ≠ OTA_STATE_COMPLETE
  · rw [if_pos hc] at h
    simp only [Option.some.injEq] at h
    subst h
    exact ⟨rfl, Or.inl rfl⟩
  · rw [if_neg hc] at h
    simp only [Option.bind_eq_bind] at h
    cases hr : bootloader_switch_to_update_at slot s.flash_memory s.bootloader_ctx with
    | none => rw [hr] at h; cases h
    | some r =>
      rw [hr] at h
      simp only [Option.some_bind] at h
      split_ifs at h with hk
      · simp only [Option.some.injEq] at h
        subst h
        exact ⟨rfl, Or.inr ⟨not_not.mp hc, Or.inr rfl⟩⟩
      · simp only [Option.some.injEq] at h
        subst h
        exact ⟨rfl, Or.inr ⟨not_not.mp hc, Or.inl rfl⟩⟩

/-- C26 as stated fails: `ota_manager_abort_update` called on a session in
`COMPLETE` is not rejected: it returns `OTA_ERROR_NONE`, moves the session to
`ERROR`, sets `abort_requested` and counts a failed update; called in `ERROR`
it counts a failed update again. -/
theorem abort_update_in_terminal_state :
    (sample_session OTA_STATE_COMPLETE 4096 1024 4096 4).ota_ctx.state = OTA_STATE_COMPLETE
      ∧ (ota_manager_abort_update (sample_session OTA_STATE_COMPLETE 4096 1024 4096 4)).1
          = OTA_ERROR_NONE
      ∧ (ota_manager_abort_update
          (sample_session OTA_STATE_COMPLETE 4096 1024 4096 4)).2.ota_ctx.state = OTA_STATE_ERROR
      ∧ (ota_manager_abort_update
          (sample_session OTA_STATE_COMPLETE 4096 1024 4096 4)).2.ota_ctx.abort_requested = true
      ∧ (sample_session OTA_STATE_COMPLETE 4096 1024 4096 4).failed_updates = 0
      ∧ (ota_manager_abort_update
          (sample_session OTA_STATE_COMPLETE 4096 1024 4096 4)).2.failed_updates = 1
      ∧ (ota_manager_abort_update
          (ota_manager_abort_update
            (sample_session OTA_STATE_COMPLETE 4096 1024 4096 4)).2).2.failed_updates = 2 := by
  decide

/-- C26 (amended): `ota_manager_abort_update` is accepted in every state,
terminal or not: it returns `OTA_ERROR_NONE`, sets `abort_requested`, leaves the
session in `ERROR` with `last_error` `COMMUNICATION`, increments the 32-bit
failed-update counter (by exactly one unless it wraps) and changes nothing
else: chunk bookkeeping, the other counters, the bootloader context and every
flash byte stay as they were. -/
theorem abort_update_effect (s : System) :
    (ota_manager_abort_update s).1 = OTA_ERROR_NONE
      ∧ (ota_manager_abort_update s).2.ota_ctx.state = OTA_STATE_ERROR
      ∧ (ota_manager_abort_update s).2.ota_ctx.last_error = OTA_ERROR_COMMUNICATION
      ∧ (ota_manager_abort_update s).2.ota_ctx.abort_requested = true
      ∧ (ota_manager_abort_update s).2.failed_updates = (s.failed_updates + 1) % U32_MOD
      ∧ (s.failed_updates + 1 < U32_MOD →
          (ota_manager_abort_update s).2.failed_updates = s.failed_updates + 1)
      ∧ (ota_manager_abort_update s).2.flash_memory = s.flash_memory
      ∧ (ota_manager_abort_update s).2.bootloader_ctx = s.bootloader_ctx
      ∧ (ota_manager_abort_update s).2.total_updates = s.total_updates
      ∧ (ota_manager_abort_update s).2.successful_updates = s.successful_updates
      ∧ (ota_manager_abort_update s).2.ota_ctx.chunk_info = s.ota_ctx.chunk_info
      ∧ (ota_manager_abort_update s).2.ota_ctx.restart_required = s.ota_ctx.restart_required
      ∧ (ota_manager_abort_update s).2.ota_ctx.progress_percent
          = s.ota_ctx.progress_percent :=
  ⟨rfl, rfl, rfl, rfl, rfl, fun h => Nat.mod_eq_of_lt h, rfl, rfl, rfl, rfl, rfl, rfl, rfl⟩

/-- Witness of the amended C26: aborting a session in `RECEIVING_DATA` with no
failure counted so far. -/
theorem abort_update_effect_witness :
    (sample_session OTA_STATE_RECEIVING_DATA 4096 1024 1024 1).failed_updates + 1 < U32_MOD
      ∧ (ota_manager_abort_update
          (sample_session OTA_STATE_RECEIVING_DATA 4096 1024 1024 1)).2.failed_updates
        = (sample_session OTA_STATE_RECEIVING_DATA 4096 1024 1024 1).failed_updates + 1 :=
  ⟨by decide,
    (abort_update_effect (sample_session OTA_STATE_RECEIVING_DATA 4096 1024 1024 1)).2.2.2.2.2.1
      (by decide)⟩

/-- C27 as stated fails: `ota_manager_apply_update` called on a session in
`COMPLETE` changes the state (here to `ERROR`, the switch being refused), and
`ota_manager_abort_update` moves a session from `COMPLETE` to `ERROR`; neither
change is a step along the chain nor a move to `ERROR` from a non-terminal
state. In the body of `finalize_update` with the update slot at address 0 a
complete transfer of the sample image goes from `RECEIVING_DATA` to `COMPLETE`
in one call, without passing through `UPDATING`, and `apply_update` then goes
from `COMPLETE` to `UPDATING`. -/
theorem ota_state_chain_violated :
    (sample_session OTA_STATE_COMPLETE 4096 1024 4096 4).ota_ctx.state = OTA_STATE_COMPLETE
      ∧ (ota_manager_apply_update (sample_session OTA_STATE_COMPLETE 4096 1024 4096 4)).map
          (fun x => x.ota_ctx.state) = some OTA_STATE_ERROR
      ∧ (ota_manager_abort_update
          (sample_session OTA_STATE_COMPLETE 4096 1024 4096 4)).2.ota_ctx.state = OTA_STATE_ERROR
      ∧ ota_chain_change OTA_STATE_COMPLETE OTA_STATE_ERROR = false
      ∧ (ota_manager_finalize_update_at 0
          { sample_session OTA_STATE_RECEIVING_DATA 84 84 84 1 with
            flash_memory := flash_of_bytes sample_image }).map
          (fun x => x.2.ota_ctx.state) = some OTA_STATE_COMPLETE
      ∧ ota_chain_change OTA_STATE_RECEIVING_DATA OTA_STATE_COMPLETE = false
      ∧ (ota_manager_apply_update_at 0
          { sample_session OTA_STATE_COMPLETE 84 84 84 1 with
            flash_memory := flash_of_bytes sample_image }).map
          (fun x => x.ota_ctx.state) = some OTA_STATE_UPDATING
      ∧ ota_chain_change OTA_STATE_COMPLETE OTA_STATE_UPDATING = false := by
  decide

/-- C27 (amended): the state changes the OTA operations make (stated for their
bodies with any update slot address `slot`) are exactly these.
`start_update` changes the state only from `IDLE`, to `WAITING_FOR_START` or
`ERROR`; `receive_chunk` only from `WAITING_FOR_START` or `RECEIVING_DATA`, to
`RECEIVING_DATA` or `ERROR`; `finalize_update` only from `RECEIVING_DATA`, to
`COMPLETE` or `ERROR` (passing through `VALIDATING` inside the call);
`validate_update`, callable in any state, ends in `COMPLETE` or `ERROR`;
`abort_update`, callable in any state, ends in `ERROR`; `apply_update` changes
the state only from `COMPLETE`, to `UPDATING` or `ERROR`. So `COMPLETE` is
entered from `VALIDATING`, `UPDATING` only from `COMPLETE`, and the terminal
states are left by `apply_update`, `abort_update` and `validate_update`. The
statements on `receive_chunk`, `finalize_update`, `validate_update` and
`apply_update` are about the calls that return; the function
`ota_manager_receive_chunk` itself always returns. -/
theorem ota_state_changes (slot : Nat) (s : System) :
    (∀ total_size chunk_size now,
        (ota_manager_start_update_at slot s total_size chunk_size now).2.ota_ctx.state
            = s.ota_ctx.state
          ∨ (s.ota_ctx.state = OTA_STATE_IDLE
            ∧ ((ota_manager_start_update_at slot s total_size chunk_size now).2.ota_ctx.state
                  = OTA_STATE_WAITING_FOR_START
              ∨ (ota_manager_start_update_at slot s total_size chunk_size now).2.ota_ctx.state
                  = OTA_STATE_ERROR)))
      ∧ (∀ n data now r, ota_manager_receive_chunk_at slot s n data now = some r →
          r.2.ota_ctx.state = s.ota_ctx.state
            ∨ ((s.ota_ctx.state = OTA_STATE_WAITING_FOR_START
                ∨ s.ota_ctx.state = OTA_STATE_RECEIVING_DATA)
              ∧ (r.2.ota_ctx.state = OTA_STATE_RECEIVING_DATA
                ∨ r.2.ota_ctx.state = OTA_STATE_ERROR)))
      ∧ (∀ r, ota_manager_finalize_update_at slot s = some r →
          r.2.ota_ctx.state = s.ota_ctx.state
            ∨ (s.ota_ctx.state = OTA_STATE_RECEIVING_DATA
              ∧ (r.2.ota_ctx.state = OTA_STATE_COMPLETE ∨ r.2.ota_ctx.state = OTA_STATE_ERROR)))
      ∧ (∀ r, ota_manager_validate_update_at slot s = some r →
          r.2.ota_ctx.state = OTA_STATE_COMPLETE ∨ r.2.ota_ctx.state = OTA_STATE_ERROR)
      ∧ (ota_manager_abort_update s).2.ota_ctx.state = OTA_STATE_ERROR
      ∧ (∀ s1, ota_manager_apply_update_at slot s = some s1 →
          s1.ota_ctx.state = s.ota_ctx.state
            ∨ (s.ota_ctx.state = OTA_STATE_COMPLETE
              ∧ (s1.ota_ctx.state = OTA_STATE_UPDATING ∨ s1.ota_ctx.state = OTA_STATE_ERROR)))
      ∧ (∀ total_size chunk_size now n data,
          ota_manager_start_update s total_size chunk_size now
              = ota_manager_start_update_at APP_SLOT_B_ADDRESS s total_size chunk_size now
            ∧ ota_manager_receive_chunk s n data now
              = ota_manager_receive_chunk_at APP_SLOT_B_ADDRESS s n data now
            ∧ (∃ r, ota_manager_receive_chunk s n data now = some r)
            ∧ ota_manager_finalize_update s
              = ota_manager_finalize_update_at APP_SLOT_B_ADDRESS s
            ∧ ota_manager_validate_update s
              = ota_manager_validate_update_at APP_SLOT_B_ADDRESS s
            ∧ ota_manager_apply_update s
              = ota_manager_apply_update_at APP_SLOT_B_ADDRESS s) := by
  refine ⟨fun ts cs now => ?_, fun n data now r hr => ?_, fun r h => ?_, fun r h => ?_, rfl,
    fun s1 h => ?_,
    fun _ _ now n data =>
      ⟨rfl, rfl, ota_manager_receive_chunk_returns s n data now, rfl, rfl, rfl⟩⟩
  · rcases (ota_manager_start_update_at_result slot s ts cs now).2 with h | h
    · exact Or.inl (by rw [h])
    · exact Or.inr h
  · rcases (ota_manager_receive_chunk_at_result slot s n data now r hr).2 with h | h
    · exact Or.inl (by rw [h])
    · exact Or.inr h
  · rcases (ota_manager_finalize_update_at_result slot s r h).2.2 with h1 | h1
    · exact Or.inl (by rw [h1])
    · refine Or.inr ⟨h1.1, ?_⟩
      rcases h1.2 with h2 | h2
      · exact Or.inl h2.2
      · exact Or.inr h2.2
  · rcases (ota_manager_validate_update_at_result slot s r h).2.2 with h2 | h2
    · exact Or.inl h2.2
    · exact Or.inr h2.2
  · rcases (ota_manager_apply_update_at_result slot s s1 h).2 with h1 | h1
    · exact Or.inl (by rw [h1])
    · exact Or.inr h1

/-- Witness of the amended C27: a complete transfer of the sample image to an
update slot at address 0 is finalized from `RECEIVING_DATA` to `COMPLETE`. -/
theorem ota_state_changes_witness :
    (ota_manager_finalize_update_at 0
        { sample_session OTA_STATE_RECEIVING_DATA 84 84 84 1 with
          flash_memory := flash_of_bytes sample_image }).map
        (fun x => x.2.ota_ctx.state) = some OTA_STATE_COMPLETE
      ∧ ∀ r, ota_manager_finalize_update_at 0
          { sample_session OTA_STATE_RECEIVING_DATA 84 84 84 1 with
            flash_memory := flash_of_bytes sample_image } = some r →
          r.2.ota_ctx.state = OTA_STATE_RECEIVING_DATA
            ∨ (OTA_STATE_RECEIVING_DATA = OTA_STATE_RECEIVING_DATA
              ∧ (r.2.ota_ctx.state = OTA_STATE_COMPLETE ∨ r.2.ota_ctx.state = OTA_STATE_ERROR)) :=
  ⟨by decide,
    (ota_state_changes 0
      { sample_session OTA_STATE_RECEIVING_DATA 84 84 84 1 with
        flash_memory := flash_of_bytes sample_image }).2.2.1⟩

/-- C28: `start_update`, `receive_chunk`, `finalize_update`, `validate_update`
and `abort_update` (stated for their bodies with any update slot address
`slot`) leave the bootloader context exactly as it was; in particular when
`finalize_update` returns `OTA_ERROR_CRC_MISMATCH` the session is in `ERROR`
and the bootloader's active slot and active header are unchanged. The
statements on `receive_chunk`, `finalize_update` and `validate_update` are
about the calls that return; the function `ota_manager_receive_chunk` itself
always returns. -/
theorem ota_transfer_keeps_bootloader_context (slot : Nat) (s : System) :
    (∀ total_size chunk_size now,
        (ota_manager_start_update_at slot s total_size chunk_size now).2.bootloader_ctx
          = s.bootloader_ctx)
      ∧ (∀ n data now r, ota_manager_receive_chunk_at slot s n data now = some r →
          r.2.bootloader_ctx = s.bootloader_ctx)
      ∧ (∀ r, ota_manager_finalize_update_at slot s = some r →
          r.2.bootloader_ctx = s.bootloader_ctx)
      ∧ (∀ r, ota_manager_validate_update_at slot s = some r →
          r.2.bootloader_ctx = s.bootloader_ctx)
      ∧ (ota_manager_abort_update s).2.bootloader_ctx = s.bootloader_ctx
      ∧ (∀ r, ota_manager_finalize_update_at slot s = some r →
          r.1 = OTA_ERROR_CRC_MISMATCH →
          r.2.ota_ctx.state = OTA_STATE_ERROR
            ∧ r.2.bootloader_ctx.active_slot = s.bootloader_ctx.active_slot
            ∧ r.2.bootloader_ctx.active_header = s.bootloader_ctx.active_header)
      ∧ (∀ total_size chunk_size now n data,
          ota_manager_start_update s total_size chunk_size now
              = ota_manager_start_update_at APP_SLOT_B_ADDRESS s total_size chunk_size now
            ∧ ota_manager_receive_chunk s n data now
              = ota_manager_receive_chunk_at APP_SLOT_B_ADDRESS s n data now
            ∧ (∃ r, ota_manager_receive_chunk s n data now = some r)
            ∧ ota_manager_finalize_update s
              = ota_manager_finalize_update_at APP_SLOT_B_ADDRESS s
            ∧ ota_manager_validate_update s
              = ota_manager_validate_update_at APP_SLOT_B_ADDRESS s) := by
  refine ⟨fun ts cs now => (ota_manager_start_update_at_result slot s ts cs now).1,
    fun n data now r hr => (ota_manager_receive_chunk_at_result slot s n data now r hr).1,
    fun r h => (ota_manager_finalize_update_at_result slot s r h).2.1,
    fun r h => (ota_manager_validate_update_at_result slot s r h).2.1,
    rfl, fun r h hc => ?_,
    fun _ _ now n data =>
      ⟨rfl, rfl, ota_manager_receive_chunk_returns s n data now, rfl, rfl⟩⟩
  have hres := ota_manager_finalize_update_at_result slot s r h
  refine ⟨?_, by rw [hres.2.1], by rw [hres.2.1]⟩
  rcases hres.2.2 with h1 | h1
  · have hst : s.ota_ctx.state ≠ OTA_STATE_RECEIVING_DATA
        ∨ s.ota_ctx.chunk_info.received_bytes ≠ s.ota_ctx.chunk_info.total_size := by
      by_contra hk
      simp only [not_or, not_not] at hk
      have hv := ota_manager_validate_update_at_result slot _ r
        ((ota_manager_finalize_update_at_complete slot s hk.1 hk.2).symm.trans h)
      rcases hv.2.2 with hv2 | hv2
      · rw [hv2.1] at hc; cases hc
      · rw [h1] at hv2
        rw [hk.1] at hv2
        cases hv2.2
    rcases hst with hst | hst
    · rw [ota_manager_finalize_update_at_bad_state slot s hst] at h
      simp only [Option.some.injEq] at h
      rw [← h] at hc
      cases hc
    · by_cases hr : s.ota_ctx.state = OTA_STATE_RECEIVING_DATA
      · rw [ota_manager_finalize_update_at_incomplete slot s hr hst] at h
        simp only [Option.some.injEq] at h
        rw [← h] at hc
        cases hc
      · rw [ota_manager_finalize_update_at_bad_state slot s hr] at h
        simp only [Option.some.injEq] at h
        rw [← h] at hc
        cases hc
  · rcases h1.2 with h2 | h2
    · rw [h2.1] at hc; cases hc
    · exact h2.2

/-- Witness of C28: the sample image with one payload bit flipped (payload
1, 2, 3, 5 against the CRC of 1, 2, 3, 4) in an update slot at address 0:
`finalize_update` returns `OTA_ERROR_CRC_MISMATCH`, the session is in `ERROR`
and the active slot is the one of the sample context. -/
theorem ota_transfer_keeps_bootloader_context_witness :
    (ota_manager_finalize_update_at 0
        { sample_session OTA_STATE_RECEIVING_DATA 84 84 84 1 with
          flash_memory := flash_of_bytes
            (header_image FIRMWARE_MAGIC 1 2 3 84 0xB63CFBCD 7 ++ [1, 2, 3, 5]) }).map
        Prod.fst = some OTA_ERROR_CRC_MISMATCH
      ∧ ∀ r, ota_manager_finalize_update_at 0
          { sample_session OTA_STATE_RECEIVING_DATA 84 84 84 1 with
            flash_memory := flash_of_bytes
              (header_image FIRMWARE_MAGIC 1 2 3 84 0xB63CFBCD 7 ++ [1, 2, 3, 5]) } = some r →
          r.1 = OTA_ERROR_CRC_MISMATCH →
          r.2.ota_ctx.state = OTA_STATE_ERROR
            ∧ r.2.bootloader_ctx.active_slot = sample_boot_ctx.active_slot
            ∧ r.2.bootloader_ctx.active_header = sample_boot_ctx.active_header :=
  ⟨by decide,
    (ota_transfer_keeps_bootloader_context 0
      { sample_session OTA_STATE_RECEIVING_DATA 84 84 84 1 with
        flash_memory := flash_of_bytes
          (header_image FIRMWARE_MAGIC 1 2 3 84 0xB63CFBCD 7 ++ [1, 2, 3, 5]) }).2.2.2.2.2.1⟩

/-! ## The slot the OTA manager writes and the active slot -/

theorem bootloader_check_update_active_slot (f : Flash) (ctx : bootloader_context_t)
    (r : bootloader_error_t × bootloader_context_t)
    (h : bootloader_check_update f ctx = some r) : r.2.active_slot = ctx.active_slot := by
  rw [bootloader_check_update_eq_at, bootloader_check_update_at_error _ f ctx _
    (bootloader_validate_firmware_out_of_range f _ (by decide)) (by decide)] at h
  simp only [Option.some.injEq] at h
  rw [← h]

theorem bootloader_switch_to_update_active_slot (f : Flash) (ctx : bootloader_context_t)
    (r : bootloader_error_t × bootloader_context_t)
    (h : bootloader_switch_to_update f ctx = some r) : r.2.active_slot = ctx.active_slot := by
  rw [bootloader_switch_to_update_eq_at] at h
  by_cases hp : ctx.update_pending = true
  · rw [bootloader_switch_to_update_at_error _ f ctx _ hp
      (bootloader_validate_firmware_out_of_range f _ (by decide)) (by decide)] at h
    simp only [Option.some.injEq] at h
    rw [← h]
  · simp only [Bool.not_eq_true] at hp
    rw [bootloader_switch_to_update_at_not_pending _ f ctx hp] at h
    simp only [Option.some.injEq] at h
    rw [← h]

theorem ota_manager_apply_update_active_slot (s s1 : System)
    (h : ota_manager_apply_update s = some s1) :
    s1.bootloader_ctx.active_slot = s.bootloader_ctx.active_slot := by
  unfold ota_manager_apply_update at h
  by_cases hc : s.ota_ctx.state ≠ OTA_STATE_COMPLETE
  · rw [if_pos hc] at h
    simp only [Option.some.injEq] at h
    rw [← h]
  · rw [if_neg hc] at h
    simp only [Option.bind_eq_bind] at h
    cases hr : bootloader_switch_to_update s.flash_memory s.bootloader_ctx with
    | none => rw [hr] at h; cases h
    | some r =>
      have ha := bootloader_switch_to_update_active_slot _ _ r hr
      rw [hr] at h
      simp only [Option.some_bind] at h
      split_ifs at h <;>
        (simp only [Option.some.injEq] at h; rw [← h]; exact ha)

/-- With the shipped slot constants a session never gets past the erase of
`start_update`: from `IDLE` the state after the call is `IDLE` or `ERROR`. -/
theorem ota_manager_start_update_state (s : System) (total_size chunk_size now : Nat) :
    (ota_manager_start_update s total_size chunk_size now).2.flash_memory = s.flash_memory
      ∧ ((ota_manager_start_update s total_size chunk_size now).2.ota_ctx.state
            = s.ota_ctx.state
        ∨ (ota_manager_start_update s total_size chunk_size now).2.ota_ctx.state
            = OTA_STATE_ERROR) := by
  by_cases h : s.ota_ctx.state = OTA_STATE_IDLE
  · by_cases hb : total_size = 0 ∨ chunk_size = 0 ∨ chunk_size > 1024 ∨ total_size > 0xF80E0000
    · rw [ota_manager_start_update_bad_size s _ _ _ h hb]
      exact ⟨rfl, Or.inl rfl⟩
    · rw [ota_manager_start_update_good_size s _ _ _ h (by omega) (by omega) (by omega)
        (by omega)]
      exact ⟨rfl, Or.inr rfl⟩
  · rw [ota_manager_start_update_not_idle s _ _ _ h]
    exact ⟨rfl, Or.inl rfl⟩

/-- The invariant of the reachable states: the active slot is slot A and no
session is open for chunks. -/
theorem ota_reachable_invariant (s : System) (h : ota_reachable s) :
    s.bootloader_ctx.active_slot = APP_SLOT_A_ADDRESS
      ∧ s.ota_ctx.state ≠ OTA_STATE_WAITING_FOR_START
      ∧ s.ota_ctx.state ≠ OTA_STATE_RECEIVING_DATA := by
  induction h with
  | start f h now => exact ⟨rfl, fun hk => (by cases hk), fun hk => (by cases hk)⟩
  | boot_again s f h now _ ih => exact ⟨rfl, ih.2⟩
  | check_update s r _ hr ih =>
    exact ⟨(bootloader_check_update_active_slot _ _ r hr).trans ih.1, ih.2⟩
  | switch_to_update s r _ hr ih =>
    exact ⟨(bootloader_switch_to_update_active_slot _ _ r hr).trans ih.1, ih.2⟩
  | rollback s r _ hr ih =>
    rw [bootloader_rollback_always_fails] at hr
    simp only [Option.some.injEq] at hr
    rw [← hr]
    exact ih
  | jump_to_app s address _ ih =>
    refine ⟨?_, ih.2⟩
    show (bootloader_jump_to_app s.bootloader_ctx address).active_slot = _
    unfold bootloader_jump_to_app
    split_ifs
    · exact ih.1
    · exact ih.1
  | erase_page s address _ ih => exact ih
  | write_word s address data _ ih => exact ih
  | ota_init s _ ih => exact ⟨ih.1, fun hk => (by cases hk), fun hk => (by cases hk)⟩
  | set_validate_callback s cb _ ih => exact ih
  | start_update s total_size chunk_size now _ ih =>
    refine ⟨?_, ?_⟩
    · rw [ota_manager_start_update_eq_at,
        (ota_manager_start_update_at_result _ s total_size chunk_size now).1]
      exact ih.1
    · rcases (ota_manager_start_update_state s total_size chunk_size now).2 with h1 | h1
      · rw [h1]; exact ih.2
      · rw [h1]; exact ⟨by decide, by decide⟩
  | receive_chunk s n data now r _ hr ih =>
    rw [ota_manager_receive_chunk_eq_at,
      ota_manager_receive_chunk_at_bad_state _ s n data now ih.2] at hr
    simp only [Option.some.injEq] at hr
    rw [← hr]
    exact ih
  | finalize_update s r _ hr ih =>
    rw [ota_manager_finalize_update_eq_at,
      ota_manager_finalize_update_at_bad_state _ s ih.2.2] at hr
    simp only [Option.some.injEq] at hr
    rw [← hr]
    exact ih
  | validate_update s r _ hr ih =>
    rw [ota_manager_validate_update_eq_at] at hr
    have hv := ota_manager_validate_update_at_result _ s r hr
    refine ⟨by rw [hv.2.1]; exact ih.1, ?_⟩
    rcases hv.2.2 with h1 | h1
    · rw [h1.2]; exact ⟨by decide, by decide⟩
    · rw [h1.2]; exact ⟨by decide, by decide⟩
  | abort_update s _ ih => exact ⟨ih.1, fun hk => (by cases hk), fun hk => (by cases hk)⟩
  | apply_update s s1 _ hr ih =>
    refine ⟨(ota_manager_apply_update_active_slot s s1 hr).trans ih.1, ?_⟩
    rw [ota_manager_apply_update_eq_at] at hr
    rcases (ota_manager_apply_update_at_result _ s s1 hr).2 with h1 | h1
    · rw [h1]; exact ih.2
    · rcases h1.2 with h2 | h2
      · rw [h2]; exact ⟨by decide, by decide⟩
      · rw [h2]; exact ⟨by decide, by decide⟩

/-- With the shipped slot constants nothing is ever switched, erased or
written: in every state reachable from the initialised system through the
public bootloader and OTA operations, the bootloader's `active_slot` is
`APP_SLOT_A_ADDRESS` throughout, and `start_update` and `receive_chunk`, which
address `APP_SLOT_B_ADDRESS`, leave every flash byte as it was. -/
theorem ota_reachable_nothing_written (s : System) (h : ota_reachable s) :
    s.bootloader_ctx.active_slot ≠ APP_SLOT_B_ADDRESS
      ∧ bootloader_get_active_slot s.bootloader_ctx = APP_SLOT_A_ADDRESS
      ∧ (∀ total_size chunk_size now,
          ota_manager_start_update s total_size chunk_size now
              = ota_manager_start_update_at APP_SLOT_B_ADDRESS s total_size chunk_size now
            ∧ (ota_manager_start_update s total_size chunk_size now).2.flash_memory
              = s.flash_memory)
      ∧ (∀ n data now,
          ota_manager_receive_chunk s n data now
              = ota_manager_receive_chunk_at APP_SLOT_B_ADDRESS s n data now
            ∧ ota_manager_receive_chunk s n data now = some (OTA_ERROR_INVALID_STATE, s)) := by
  have hi := ota_reachable_invariant s h
  refine ⟨?_, hi.1, fun ts cs now => ⟨rfl, (ota_manager_start_update_state s ts cs now).1⟩,
    fun n data now => ⟨rfl, ?_⟩⟩
  · rw [hi.1]; decide
  · rw [ota_manager_receive_chunk_eq_at,
      ota_manager_receive_chunk_at_bad_state _ s n data now hi.2]

/-- The active slot never becomes the slot the OTA manager writes only
because the switch never succeeds with the shipped constants: in the body of
`bootloader_switch_to_update` with any slot address, a successful switch makes
`active_slot` the very slot `start_update` erases next. -/
theorem switch_at_makes_update_slot_active (slot : Nat) (f : Flash)
    (ctx : bootloader_context_t) (c1 : bootloader_context_t)
    (h : bootloader_switch_to_update_at slot f ctx = some (BOOT_OK, c1)) :
    c1.active_slot = slot := by
  by_cases hp : ctx.update_pending = true
  · cases hv : bootloader_validate_firmware f slot with
    | none => rw [bootloader_switch_to_update_at_none slot f ctx hp hv] at h; cases h
    | some e =>
      by_cases he : e = BOOT_OK
      · subst he
        rw [bootloader_switch_to_update_at_ok slot f ctx hp hv] at h
        simp only [Option.some.injEq, Prod.mk.injEq, true_and] at h
        rw [← h]
      · rw [bootloader_switch_to_update_at_error slot f ctx e hp hv he] at h
        simp only [Option.some.injEq, Prod.mk.injEq] at h
        exact absurd h.1 he
  · simp only [Bool.not_eq_true] at hp
    rw [bootloader_switch_to_update_at_not_pending slot f ctx hp] at h
    simp only [Option.some.injEq, Prod.mk.injEq] at h
    cases h.1

theorem flash_slice_length (f : Flash) (start n : Nat) : (flash_slice f start n).length = n := by
  simp [flash_slice]

theorem flash_slice_memcpy_same (f : Flash) (a : Nat) (src : List Byte) :
    flash_slice (memcpy_to_flash f a src) a src.length = src := by
  apply List.ext_getElem
  · simp [flash_slice]
  · intro i h1 h2
    simp only [flash_slice, List.getElem_map, List.getElem_range, memcpy_to_flash]
    rw [if_pos ⟨Nat.le_add_right a i, Nat.add_lt_add_left h2 a⟩, Nat.add_sub_cancel_left,
      List.getD_eq_getElem _ _ h2]

theorem flash_slice_memcpy_disjoint (f : Flash) (a b n : Nat) (src : List Byte)
    (h : b + n ≤ a ∨ a + src.length ≤ b) :
    flash_slice (memcpy_to_flash f a src) b n = flash_slice f b n := by
  apply List.ext_getElem
  · simp [flash_slice]
  · intro i h1 h2
    have hi : i < n := by simpa [flash_slice] using h1
    simp only [flash_slice, List.getElem_map, List.getElem_range, memcpy_to_flash]
    rw [if_neg (by omega)]

theorem mod_add_ne_of_lt (h c i k : Nat) (hik : i < k) (hk : k < c) :
    (h + i) % c ≠ (h + k) % c := by
  intro he
  have h1 : Nat.ModEq c (h + i) (h + k) := he
  have h2 : Nat.ModEq c i k := Nat.ModEq.add_left_cancel' h h1
  have h3 : i = k := Nat.ModEq.eq_of_lt_of_lt h2 (by omega) hk
  omega

theorem slot_ranges_disjoint (j t es : Nat) (h : j ≠ t) :
    j * es + es ≤ t * es ∨ t * es + es ≤ j * es := by
  rcases Nat.lt_or_gt_of_ne h with hlt | hgt
  · left
    calc j * es + es = (j + 1) * es := by ring
      _ ≤ t * es := Nat.mul_le_mul_right es hlt
  · right
    calc t * es + es = (t + 1) * es := by ring
      _ ≤ j * es := Nat.mul_le_mul_right es hgt

theorem slot_in_block (j c es : Nat) (h : j < c) : j * es + es ≤ c * es := by
  calc j * es + es = (j + 1) * es := by ring
    _ ≤ c * es := Nat.mul_le_mul_right es h

theorem queue_create_wf (mem : Nat → Byte) (capacity element_size : Nat)
    (h1 : 1 ≤ capacity) (h2 : capacity < U32_MOD) (h3 : capacity * element_size < U32_MOD) :
    queue_wf (queue_create mem capacity element_size)
      ∧ queue_contents (queue_create mem capacity element_size) = [] := by
  refine ⟨⟨h1, h2, h3, Nat.mod_eq_of_lt h3, h1, Nat.zero_le _, ?_⟩, rfl⟩
  show 0 = (0 + 0) % capacity
  simp

theorem queue_count_eq_length (q : queue_t) : queue_count q = (queue_contents q).length := by
  simp [queue_count, queue_contents]

theorem queue_is_empty_iff (q : queue_t) : queue_is_empty q = true ↔ queue_contents q = [] := by
  simp [queue_is_empty, queue_contents]

theorem queue_is_full_iff (q : queue_t) :
    queue_is_full q = true ↔ (queue_contents q).length = q.capacity := by
  simp [queue_is_full, queue_contents]

theorem queue_enqueue_full (q : queue_t) (e : List Byte) (h : q.count = q.capacity) :
    queue_enqueue q e = some (false, q) := by
  unfold queue_enqueue
  rw [if_pos (by simp [queue_is_full, h])]

theorem queue_enqueue_not_full (q : queue_t) (e : List Byte) (hw : queue_wf q)
    (he : e.length = q.element_size) (h : q.count < q.capacity) :
    queue_enqueue q e
      = some (true,
          { q with
            buffer := memcpy_to_flash q.buffer (q.tail * q.element_size) e
            tail := (q.head + (q.count + 1)) % q.capacity
            count := q.count + 1 }) := by
  obtain ⟨h1, h2, h3, h4, h5, h6, h7⟩ := hw
  have hU : U32_MOD = 4294967296 := rfl
  have ht : q.tail < q.capacity := by rw [h7]; exact Nat.mod_lt _ h1
  have hin := slot_in_block q.tail q.capacity q.element_size ht
  have hd : (q.tail * q.element_size) % U32_MOD = q.tail * q.element_size :=
    Nat.mod_eq_of_lt (by omega)
  unfold queue_enqueue
  rw [if_neg (by simp [queue_is_full]; omega)]
  simp only [hd]
  rw [if_neg (by omega), if_neg (by omega)]
  have ht1 : (q.tail + 1) % U32_MOD = q.tail + 1 := Nat.mod_eq_of_lt (by omega)
  have hc1 : (q.count + 1) % U32_MOD = q.count + 1 := Nat.mod_eq_of_lt (by omega)
  have htk : e.take q.element_size = e := by rw [← he]; exact List.take_length e
  rw [ht1, hc1, htk]
  have : (q.tail + 1) % q.capacity = (q.head + (q.count + 1)) % q.capacity := by
    rw [h7, Nat.mod_add_mod, Nat.add_assoc]
  rw [this]

theorem queue_enqueue_refines (q : queue_t) (e : List Byte) (hw : queue_wf q)
    (he : e.length = q.element_size) (h : q.count < q.capacity) :
    ∃ q1, queue_enqueue q e = some (true, q1) ∧ queue_wf q1
      ∧ q1.capacity = q.capacity ∧ q1.element_size = q.element_size
      ∧ queue_contents q1 = queue_contents q ++ [e] := by
  refine ⟨_, queue_enqueue_not_full q e hw he h, ?_, rfl, rfl, ?_⟩
  · obtain ⟨h1, h2, h3, h4, h5, h6, h7⟩ := hw
    exact ⟨h1, h2, h3, h4, h5, h, rfl⟩
  · obtain ⟨h1, h2, h3, h4, h5, h6, h7⟩ := hw
    show (List.range (q.count + 1)).map _ = (List.range q.count).map _ ++ [e]
    rw [List.range_succ, List.map_append]
    congr 1
    · apply List.map_congr_left
      intro i hi
      have hi2 : i < q.count := List.mem_range.mp hi
      show flash_slice (memcpy_to_flash q.buffer (q.tail * q.element_size) e)
          (((q.head + i) % q.capacity) * q.element_size) q.element_size
        = flash_slice q.buffer (((q.head + i) % q.capacity) * q.element_size) q.element_size
      apply flash_slice_memcpy_disjoint
      rw [he, h7]
      exact slot_ranges_disjoint _ _ _ (mod_add_ne_of_lt q.head q.capacity i q.count hi2 h)
    · show [flash_slice (memcpy_to_flash q.buffer (q.tail * q.element_size) e)
          (((q.head + q.count) % q.capacity) * q.element_size) q.element_size] = [e]
      rw [← h7, ← he, flash_slice_memcpy_same]

theorem queue_dequeue_empty (q : queue_t) (h : q.count = 0) :
    queue_dequeue q = some (none, q) := by
  unfold queue_dequeue
  rw [if_pos (by simp [queue_is_empty, h])]

theorem queue_dequeue_refines (q : queue_t) (hw : queue_wf q) (h : q.count ≠ 0) :
    ∃ e rest q1, queue_contents q = e :: rest
      ∧ queue_dequeue q = some (some e, q1) ∧ queue_wf q1
      ∧ q1.capacity = q.capacity ∧ q1.element_size = q.element_size
      ∧ queue_contents q1 = rest := by
  obtain ⟨h1, h2, h3, h4, h5, h6, h7⟩ := hw
  have hU : U32_MOD = 4294967296 := rfl
  have hin := slot_in_block q.head q.capacity q.element_size h5
  have hd : (q.head * q.element_size) % U32_MOD = q.head * q.element_size :=
    Nat.mod_eq_of_lt (by omega)
  have hh1 : (q.head + 1) % U32_MOD = q.head + 1 := Nat.mod_eq_of_lt (by omega)
  have hc1 : (q.count + U32_MOD - 1) % U32_MOD = q.count - 1 := by
    have : q.count + U32_MOD - 1 = (q.count - 1) + U32_MOD := by omega
    rw [this, Nat.add_mod_right]
    exact Nat.mod_eq_of_lt (by omega)
  obtain ⟨k, hk⟩ : ∃ k, q.count = k + 1 := ⟨q.count - 1, by omega⟩
  have hk1 : q.count - 1 = k := by omega
  have hle : q.count - 1 ≤ q.capacity := by omega
  have hsum : q.head + q.count = q.head + 1 + (q.count - 1) := by omega
  have htail : q.tail = ((q.head + 1) % q.capacity + (q.count - 1)) % q.capacity := by
    rw [h7, Nat.mod_add_mod, hsum]
  have hslot : ∀ i, (((q.head + 1) % q.capacity + i) % q.capacity)
      = (q.head + (i + 1)) % q.capacity := by
    intro i
    rw [Nat.mod_add_mod]
    have : q.head + 1 + i = q.head + (i + 1) := by omega
    rw [this]
  refine ⟨queue_slot q 0, (List.range k).map (fun i => queue_slot q (i + 1)),
    { q with head := (q.head + 1) % q.capacity, count := q.count - 1 }, ?_, ?_, ?_, rfl, rfl, ?_⟩
  · unfold queue_contents
    rw [hk, List.range_succ_eq_map, List.map_cons, List.map_map]
    rfl
  · unfold queue_dequeue
    rw [if_neg (by simp [queue_is_empty, h])]
    simp only [hd]
    rw [if_neg (by omega), if_neg (by omega), hh1, hc1]
    have : queue_slot q 0 = flash_slice q.buffer (q.head * q.element_size) q.element_size := by
      unfold queue_slot
      rw [Nat.add_zero, Nat.mod_eq_of_lt h5]
    rw [this]
  · exact ⟨h1, h2, h3, h4, Nat.mod_lt _ h1, hle, htail⟩
  · show (List.range (q.count - 1)).map _ = _
    rw [hk1]
    apply List.map_congr_left
    intro i _
    show flash_slice q.buffer ((((q.head + 1) % q.capacity + i) % q.capacity) * q.element_size)
        q.element_size
      = flash_slice q.buffer (((q.head + (i + 1)) % q.capacity) * q.element_size) q.element_size
    rw [hslot i]

/-- The kernel queue refines a bounded FIFO whenever the block size
`capacity * element_size` fits in 32 bits: a created queue is well formed and
empty; on a well-formed queue `queue_enqueue` of an element of `element_size`
bytes appends it and returns `true` if fewer than `capacity` elements are held,
and returns `false` changing nothing otherwise; `queue_dequeue` returns `false`
changing nothing on an empty queue and otherwise removes and returns the oldest
element; `queue_count`, `queue_is_empty` and `queue_is_full` report the length,
length 0 and length `capacity`; every operation keeps the queue well formed. -/
theorem queue_refines_bounded_fifo :
    (∀ mem capacity element_size, 1 ≤ capacity → capacity < U32_MOD →
        capacity * element_size < U32_MOD →
        queue_wf (queue_create mem capacity element_size)
          ∧ queue_contents (queue_create mem capacity element_size) = []
          ∧ (queue_create mem capacity element_size).capacity = capacity
          ∧ (queue_create mem capacity element_size).element_size = element_size)
      ∧ (∀ q e, queue_wf q → e.length = q.element_size →
          (queue_contents q).length ≤ q.capacity
            ∧ ((queue_contents q).length < q.capacity →
              ∃ q1, queue_enqueue q e = some (true, q1) ∧ queue_wf q1
                ∧ q1.capacity = q.capacity ∧ q1.element_size = q.element_size
                ∧ queue_contents q1 = queue_contents q ++ [e])
            ∧ (¬ (queue_contents q).length < q.capacity →
              queue_enqueue q e = some (false, q)))
      ∧ (∀ q, queue_wf q →
          (queue_contents q = [] → queue_dequeue q = some (none, q))
            ∧ (queue_contents q ≠ [] →
              ∃ e rest q1, queue_contents q = e :: rest
                ∧ queue_dequeue q = some (some e, q1) ∧ queue_wf q1
                ∧ q1.capacity = q.capacity ∧ q1.element_size = q.element_size
                ∧ queue_contents q1 = rest))
      ∧ (∀ q, queue_count q = (queue_contents q).length
          ∧ (queue_is_empty q = true ↔ (queue_contents q).length = 0)
          ∧ (queue_is_full q = true ↔ (queue_contents q).length = q.capacity)) := by
  refine ⟨fun mem c es h1 h2 h3 =>
      ⟨(queue_create_wf mem c es h1 h2 h3).1, (queue_create_wf mem c es h1 h2 h3).2, rfl, rfl⟩,
    fun q e hw he => ?_, fun q hw => ⟨fun h => ?_, fun h => ?_⟩, fun q => ?_⟩
  · have hl : (queue_contents q).length = q.count := by simp [queue_contents]
    rw [hl]
    refine ⟨hw.2.2.2.2.2.1, fun h => queue_enqueue_refines q e hw he h, fun h => ?_⟩
    exact queue_enqueue_full q e (Nat.le_antisymm hw.2.2.2.2.2.1 (Nat.not_lt.mp h))
  · exact queue_dequeue_empty q (by simpa [queue_contents] using h)
  · exact queue_dequeue_refines q hw (by simpa [queue_contents] using h)
  · refine ⟨queue_count_eq_length q, ?_, queue_is_full_iff q⟩
    simp [queue_is_empty, queue_contents]

/-- The scenario of `test_queue_basic`: a queue of capacity 5 for 4-byte
integers is empty when created; after enqueuing 1, 2, 3, 4, 5 it is full with
count 5 and a sixth enqueue is refused; five dequeues return 1, 2, 3, 4, 5 in
that order and leave it empty, and a further dequeue is refused. -/
theorem queue_test_basic :
    queue_is_empty (queue_create (fun _ => 0) 5 4) = true
      ∧ (queue_enqueue_all (queue_create (fun _ => 0) 5 4)
          [le_bytes 1, le_bytes 2, le_bytes 3, le_bytes 4, le_bytes 5]).map queue_is_full
        = some true
      ∧ (queue_enqueue_all (queue_create (fun _ => 0) 5 4)
          [le_bytes 1, le_bytes 2, le_bytes 3, le_bytes 4, le_bytes 5]).map queue_count
        = some 5
      ∧ ((queue_enqueue_all (queue_create (fun _ => 0) 5 4)
          [le_bytes 1, le_bytes 2, le_bytes 3, le_bytes 4, le_bytes 5]).bind
            (fun q => queue_enqueue q (le_bytes 6))).map Prod.fst = some false
      ∧ ((queue_enqueue_all (queue_create (fun _ => 0) 5 4)
          [le_bytes 1, le_bytes 2, le_bytes 3, le_bytes 4, le_bytes 5]).bind
            (fun q => queue_dequeue_n q 5)).map Prod.fst
        = some [le_bytes 1, le_bytes 2, le_bytes 3, le_bytes 4, le_bytes 5]
      ∧ ((queue_enqueue_all (queue_create (fun _ => 0) 5 4)
          [le_bytes 1, le_bytes 2, le_bytes 3, le_bytes 4, le_bytes 5]).bind
            (fun q => queue_dequeue_n q 5)).map (fun r => queue_is_empty r.2) = some true
      ∧ (((queue_enqueue_all (queue_create (fun _ => 0) 5 4)
          [le_bytes 1, le_bytes 2, le_bytes 3, le_bytes 4, le_bytes 5]).bind
            (fun q => queue_dequeue_n q 5)).bind (fun r => queue_dequeue r.2)).map Prod.fst
        = some none := by
  decide

/-- C30 at the failing input: `queue_create(0x40000001, 4)` asks `malloc` for
`0x40000001 * 4` bytes computed in 32 bits, which is 4: the block holds one
element. The first enqueue succeeds and leaves count 1 of capacity
0x40000001, so the queue is not full; the second enqueue copies four bytes to
offset 4 of the 4-byte block, outside it, where a bounded FIFO of that capacity
appends the element and returns `true`. -/
theorem queue_create_block_size_wraps :
    1 ≤ 0x40000001 ∧ 0x40000001 < U32_MOD
      ∧ (queue_create (fun _ => 0) 0x40000001 4).capacity = 0x40000001
      ∧ (queue_create (fun _ => 0) 0x40000001 4).buffer_size = 4
      ∧ (queue_enqueue (queue_create (fun _ => 0) 0x40000001 4) (le_bytes 1)).map Prod.fst
          = some true
      ∧ (queue_enqueue (queue_create (fun _ => 0) 0x40000001 4) (le_bytes 1)).map
          (fun r => queue_is_full r.2) = some false
      ∧ (queue_enqueue (queue_create (fun _ => 0) 0x40000001 4) (le_bytes 1)).map
          (fun r => (queue_count r.2, r.2.tail * r.2.element_size + r.2.element_size))
          = some (1, 8)
      ∧ ((queue_enqueue (queue_create (fun _ => 0) 0x40000001 4) (le_bytes 1)).bind
          (fun r => queue_enqueue r.2 (le_bytes 2))).isNone = true := by
  decide

/-! ## Kernel semaphore -/

/-- C31: after `semaphore_init(sem, n, m)` the count is `n`; on a semaphore
whose fields are 32-bit values, `semaphore_take` with timeout 0 returns `true`
exactly when the count is positive and then decreases it by one, and returns
`false` leaving the semaphore unchanged when it is 0; `semaphore_give` returns
`true` exactly when the count is below `max_count` and then increases it by
one, and otherwise returns `false` leaving the semaphore unchanged. -/
theorem semaphore_counting (sem : semaphore_t) (n m : Nat)
    (hc : sem.count < U32_MOD) (hm : sem.max_count < U32_MOD) :
    semaphore_get_count (semaphore_init n m) = n
      ∧ (semaphore_init n m).max_count = m
      ∧ ((semaphore_take sem 0).1 = true ↔ sem.count > 0)
      ∧ (sem.count > 0 →
          semaphore_take sem 0 = (true, { sem with count := sem.count - 1 }))
      ∧ (sem.count = 0 → semaphore_take sem 0 = (false, sem))
      ∧ ((semaphore_give sem).1 = true ↔ sem.count < sem.max_count)
      ∧ (sem.count < sem.max_count →
          semaphore_give sem = (true, { sem with count := sem.count + 1 }))
      ∧ (¬ sem.count < sem.max_count → semaphore_give sem = (false, sem)) := by
  have hU : U32_MOD = 4294967296 := rfl
  rw [hU] at hc hm
  have hdec : sem.count > 0 → (sem.count + U32_MOD - 1) % U32_MOD = sem.count - 1 := by
    intro h
    rw [hU]
    omega
  have hinc : sem.count < sem.max_count → (sem.count + 1) % U32_MOD = sem.count + 1 := by
    intro h
    rw [hU]
    omega
  have htake : (semaphore_take sem 0).1 = true ↔ sem.count > 0 := by
    unfold semaphore_take
    by_cases h : sem.count > 0
    · rw [if_pos h]; exact ⟨fun _ => h, fun _ => rfl⟩
    · rw [if_neg h]; exact ⟨fun hk => (by cases hk), fun hk => absurd hk h⟩
  have hgive : (semaphore_give sem).1 = true ↔ sem.count < sem.max_count := by
    unfold semaphore_give
    by_cases h : sem.count < sem.max_count
    · rw [if_pos h]; exact ⟨fun _ => h, fun _ => rfl⟩
    · rw [if_neg h]; exact ⟨fun hk => (by cases hk), fun hk => absurd hk h⟩
  have htake1 : sem.count > 0 →
      semaphore_take sem 0 = (true, { sem with count := sem.count - 1 }) := by
    intro h
    unfold semaphore_take
    rw [if_pos h, hdec h]
  have htake0 : sem.count = 0 → semaphore_take sem 0 = (false, sem) := by
    intro h
    unfold semaphore_take
    rw [if_neg (Nat.not_lt.mpr (Nat.le_of_eq h))]
  have hgive1 : sem.count < sem.max_count →
      semaphore_give sem = (true, { sem with count := sem.count + 1 }) := by
    intro h
    unfold semaphore_give
    rw [if_pos h, hinc h]
  have hgive0 : ¬ sem.count < sem.max_count → semaphore_give sem = (false, sem) := by
    intro h
    unfold semaphore_give
    rw [if_neg h]
  exact ⟨rfl, rfl, htake, htake1, htake0, hgive, hgive1, hgive0⟩

/-- Witness of C31, the scenario of `test_semaphore_basic`: after `init(2, 5)`
two takes succeed and leave 0, a third fails, two gives bring the count back
to 2. -/
theorem semaphore_counting_witness :
    (semaphore_init 2 5).count < U32_MOD ∧ (semaphore_init 2 5).max_count < U32_MOD
      ∧ semaphore_get_count (semaphore_init 2 5) = 2
      ∧ semaphore_take (semaphore_init 2 5) 0 = (true, { count := 1, max_count := 5 })
      ∧ semaphore_take { count := 1, max_count := 5 } 0 = (true, { count := 0, max_count := 5 })
      ∧ semaphore_take { count := 0, max_count := 5 } 0 = (false, { count := 0, max_count := 5 })
      ∧ semaphore_give { count := 0, max_count := 5 } = (true, { count := 1, max_count := 5 })
      ∧ semaphore_give { count := 1, max_count := 5 } = (true, { count := 2, max_count := 5 })
      ∧ ((semaphore_take (semaphore_init 2 5) 0).1 = true ↔ (semaphore_init 2 5).count > 0) :=
  ⟨by decide, by decide, rfl, by decide, by decide, by decide, by decide, by decide,
    (semaphore_counting (semaphore_init 2 5) 2 5 (by decide) (by decide)).2.2.1⟩

/-! ## Kernel scheduler -/

theorem release_task_ready (now : Nat) (task : task_t) (h : task.state = TASK_READY) :
    release_task now task = task := by
  unfold release_task
  split_ifs
  · cases task
    simp only at h
    subst h
    rfl
  · rfl

theorem release_all_ready (now : Nat) (tasks : List task_t)
    (h : ∀ t ∈ tasks, t.state = TASK_READY) : tasks.map (release_task now) = tasks := by
  induction tasks with
  | nil => rfl
  | cons t rest ih =>
    rw [List.map_cons, release_task_ready now t (h t (List.mem_cons_self t rest)),
      ih (fun x hx => h x (List.mem_cons_of_mem t hx))]

/-- The task function returns within the tick, so the execution time measured
by `scheduler_tick` is 0 and no deadline is ever counted as missed. -/
theorem run_task_eq (now : Nat) (task : task_t) :
    run_task now task
      = { task with state := TASK_READY, last_run := now
                    run_count := (task.run_count + 1) % U32_MOD } := by
  have h0 : (now + U32_MOD - now) % U32_MOD = 0 := by
    rw [Nat.add_sub_cancel_left, Nat.mod_self]
  simp only [run_task, h0, gt_iff_lt, Nat.not_lt_zero, false_and, if_false]

theorem run_task_key (now : Nat) (task : task_t) :
    (run_task now task).state = TASK_READY ∧ (run_task now task).priority = task.priority
      ∧ (run_task now task).period_ms = task.period_ms := by
  rw [run_task_eq]
  exact ⟨rfl, rfl, rfl⟩

theorem run_task_run_count (now : Nat) (task : task_t) :
    (run_task now task).run_count = (task.run_count + 1) % U32_MOD := by
  rw [run_task_eq]

theorem find_highest_loop_set : ∀ (l : List task_t) (k i : Nat) (h : Option (Nat × Nat))
    (t t1 : task_t), l.get? k = some t → t1.state = t.state → t1.priority = t.priority →
    find_highest_loop (l.set k t1) i h = find_highest_loop l i h
  | [], _, _, _, _, _, hg, _, _ => by simp at hg
  | a :: rest, 0, i, h, t, t1, hg, hs, hp => by
    simp only [List.get?_cons_zero, Option.some.injEq] at hg
    subst hg
    simp only [List.set_cons_zero, find_highest_loop, hs, hp]
  | a :: rest, k + 1, i, h, t, t1, hg, hs, hp => by
    simp only [List.get?_cons_succ] at hg
    simp only [List.set_cons_succ, find_highest_loop]
    split_ifs
    · cases h with
      | none => exact find_highest_loop_set rest k (i + 1) _ t t1 hg hs hp
      | some hh =>
        simp only []
        split_ifs
        · exact find_highest_loop_set rest k (i + 1) _ t t1 hg hs hp
        · exact find_highest_loop_set rest k (i + 1) _ t t1 hg hs hp
    · exact find_highest_loop_set rest k (i + 1) _ t t1 hg hs hp

theorem find_highest_loop_index : ∀ (l : List task_t) (i : Nat) (h r : Option (Nat × Nat)),
    find_highest_loop l i h = r → (∀ x, h = some x → x.1 < i) →
    ∀ x, r = some x → r = h ∨ (i ≤ x.1 ∧ x.1 < i + l.length)
  | [], i, h, r, hf, _, x, _ => by
    simp only [find_highest_loop] at hf
    exact Or.inl hf.symm
  | a :: rest, i, h, r, hf, hb, x, hx => by
    simp only [find_highest_loop] at hf
    have step : ∀ h1 : Option (Nat × Nat), find_highest_loop rest (i + 1) h1 = r →
        (h1 = h ∨ h1 = some (i, a.priority)) →
        r = h ∨ (i ≤ x.1 ∧ x.1 < i + (a :: rest).length) := by
      intro h1 hf1 hh1
      have hb1 : ∀ y, h1 = some y → y.1 < i + 1 := by
        intro y hy
        rcases hh1 with e | e
        · rw [e] at hy
          exact Nat.lt_succ_of_lt (hb y hy)
        · rw [e] at hy
          simp only [Option.some.injEq] at hy
          rw [← hy]
          exact Nat.lt_succ_self i
      rcases find_highest_loop_index rest (i + 1) h1 r hf1 hb1 x hx with e | e
      · rcases hh1 with e1 | e1
        · exact Or.inl (e.trans e1)
        · right
          rw [e, e1] at hx
          simp only [Option.some.injEq] at hx
          rw [← hx]
          simp only [List.length_cons]
          omega
      · right
        simp only [List.length_cons]
        omega
    split_ifs at hf
    · cases h with
      | none => exact step _ hf (Or.inr rfl)
      | some hh =>
        simp only [] at hf
        split_ifs at hf
        · exact step _ hf (Or.inr rfl)
        · exact step _ hf (Or.inl rfl)
    · exact step _ hf (Or.inl rfl)

theorem find_highest_priority_task_lt (tasks : List task_t) (k : Nat)
    (h : find_highest_priority_task tasks = some k) : k < tasks.length := by
  unfold find_highest_priority_task at h
  cases hr : find_highest_loop tasks 0 none with
  | none => rw [hr] at h; cases h
  | some x =>
    rw [hr] at h
    simp only [Option.map_some', Option.some.injEq] at h
    rcases find_highest_loop_index tasks 0 none _ hr (fun y hy => (by cases hy)) x rfl with e | e
    · cases e
    · omega

/-- One tick of a scheduler whose tasks are all ready: the task chosen by
`find_highest_priority_task` is run and nothing else changes in the task
list. -/
theorem scheduler_tick_all_ready (s : scheduler_t) (k : Nat)
    (hr : ∀ t ∈ s.tasks, t.state = TASK_READY)
    (hk : find_highest_priority_task s.tasks = some k) :
    ∃ task, s.tasks.get? k = some task
      ∧ (scheduler_tick s).tasks = s.tasks.set k (run_task ((s.sys_time_ms + 1) % U32_MOD) task)
      ∧ (scheduler_tick s).idle_time = s.idle_time := by
  have hlt := find_highest_priority_task_lt s.tasks k hk
  obtain ⟨task, ht⟩ : ∃ task, s.tasks.get? k = some task :=
    ⟨s.tasks.get ⟨k, hlt⟩, List.get?_eq_get hlt⟩
  have hst : task.state = TASK_READY := hr task (List.get?_mem ht)
  refine ⟨task, ht, ?_⟩
  unfold scheduler_tick
  simp only [release_all_ready _ s.tasks hr, hk, ht, hst, if_true]
  exact ⟨trivial, trivial⟩

/-- Starvation in general: when all tasks are ready (as they are once added),
the task `find_highest_priority_task` chooses is chosen again at every later
tick, so after any number of ticks every other task has the run count it
started with. -/
theorem scheduler_runs_one_task_only (n : Nat) : ∀ (s : scheduler_t) (k : Nat),
    (∀ t ∈ s.tasks, t.state = TASK_READY) →
    find_highest_priority_task s.tasks = some k →
    (∀ j, j ≠ k →
      ((scheduler_run n s).tasks.get? j).map (fun t => t.run_count)
        = (s.tasks.get? j).map (fun t => t.run_count))
      ∧ (scheduler_run n s).idle_time = s.idle_time := by
  induction n with
  | zero => intro s k _ _; exact ⟨fun _ _ => rfl, rfl⟩
  | succ n ih =>
    intro s k hr hk
    obtain ⟨task, ht, htasks, hidle⟩ := scheduler_tick_all_ready s k hr hk
    have hkey := run_task_key ((s.sys_time_ms + 1) % U32_MOD) task
    have hst : task.state = TASK_READY := hr task (List.get?_mem ht)
    have hr1 : ∀ t ∈ (scheduler_tick s).tasks, t.state = TASK_READY := by
      intro t hmem
      rw [htasks] at hmem
      rcases List.mem_or_eq_of_mem_set hmem with h1 | h1
      · exact hr t h1
      · rw [h1]; exact hkey.1
    have hk1 : find_highest_priority_task (scheduler_tick s).tasks = some k := by
      unfold find_highest_priority_task at hk ⊢
      rw [htasks, find_highest_loop_set s.tasks k 0 none task _ ht (hkey.1.trans hst.symm)
        hkey.2.1]
      exact hk
    obtain ⟨ih1, ih2⟩ := ih (scheduler_tick s) k hr1 hk1
    refine ⟨fun j hj => ?_, ih2.trans hidle⟩
    show ((scheduler_run n (scheduler_tick s)).tasks.get? j).map _ = _
    rw [ih1 j hj, htasks]
    simp only [List.get?_eq_getElem?, List.getElem?_set_ne (Ne.symm hj)]

theorem test_scheduler_after_100_ticks :
    scheduler_run 100 test_scheduler
      = { tasks :=
            [{ priority := 1, period_ms := 10, deadline_ms := 10, last_run := 100
               state := TASK_READY, run_count := 100, missed_deadlines := 0 },
             { priority := 2, period_ms := 20, deadline_ms := 20, last_run := 0
               state := TASK_READY, run_count := 0, missed_deadlines := 0 }]
          tick_count := 100
          idle_time := 0
          running := false
          sys_time_ms := 100 } := by
  rfl

/-- C32 at the failing input, the scenario of `test_scheduler_basic`: with a
priority-1 task of period 10 and a priority-2 task of period 20, both ready
once added, after 100 calls of `scheduler_tick` the first task has been run 100
times and the second never: the first is chosen at every tick. After any number
of ticks the run count of the second task is still 0. -/
theorem scheduler_starves_lower_priority :
    test_scheduler.tasks.map (fun t => (t.priority, t.period_ms, t.state, t.run_count))
        = [(1, 10, TASK_READY, 0), (2, 20, TASK_READY, 0)]
      ∧ (scheduler_run 100 test_scheduler).tasks.map (fun t => t.run_count) = [100, 0]
      ∧ (scheduler_run 100 test_scheduler).tasks.map (fun t => t.state)
          = [TASK_READY, TASK_READY]
      ∧ (scheduler_run 100 test_scheduler).tick_count = 100
      ∧ (scheduler_run 100 test_scheduler).idle_time = 0
      ∧ ∀ n, ((scheduler_run n test_scheduler).tasks.get? 1).map (fun t => t.run_count)
          = some 0 := by
  refine ⟨by decide, ?_, ?_, ?_, ?_, fun n => ?_⟩
  · rw [test_scheduler_after_100_ticks]
    rfl
  · rw [test_scheduler_after_100_ticks]
    rfl
  · rw [test_scheduler_after_100_ticks]
  · rw [test_scheduler_after_100_ticks]
  · exact (scheduler_runs_one_task_only n test_scheduler 0 (by decide) (by decide)).1 1
      (by decide)

/-! ## The CRC32 detects one corrupted byte -/

theorem crc32_bit_lt (c : Nat) (h : c < 2 ^ 32) : crc32_bit c < 2 ^ 32 := by
  have h1 : c >>> 1 < 2 ^ 32 := by
    rw [Nat.shiftRight_eq_div_pow]
    omega
  unfold crc32_bit
  split_ifs
  · exact Nat.xor_lt_two_pow h1 (by decide)
  · exact h1

theorem crc32_bit_mixed (a b : Nat) (ha : a < 2 ^ 32) (hb : b < 2 ^ 32) :
    (a >>> 1) ^^^ 0xEDB88320 ≠ b >>> 1 := by
  intro h
  have h1 : a >>> 1 < 2 ^ 31 := by
    rw [Nat.shiftRight_eq_div_pow]
    omega
  have h2 : b >>> 1 < 2 ^ 31 := by
    rw [Nat.shiftRight_eq_div_pow]
    omega
  have t := congrArg (fun x => Nat.testBit x 31) h
  simp only [Nat.testBit_xor, Nat.testBit_lt_two_pow h1, Nat.testBit_lt_two_pow h2] at t
  revert t
  decide

theorem crc32_bit_inj (a b : Nat) (ha : a < 2 ^ 32) (hb : b < 2 ^ 32)
    (h : crc32_bit a = crc32_bit b) : a = b := by
  have ea : a &&& 1 = a % 2 := Nat.and_one_is_mod a
  have eb : b &&& 1 = b % 2 := Nat.and_one_is_mod b
  have da : a >>> 1 = a / 2 := by rw [Nat.shiftRight_eq_div_pow, Nat.pow_one]
  have db : b >>> 1 = b / 2 := by rw [Nat.shiftRight_eq_div_pow, Nat.pow_one]
  unfold crc32_bit at h
  by_cases pa : a &&& 1 ≠ 0
  · by_cases pb : b &&& 1 ≠ 0
    · rw [if_pos pa, if_pos pb] at h
      have h2 : a >>> 1 = b >>> 1 := Nat.xor_left_inj.mp h
      rw [da, db] at h2
      rw [ea] at pa
      rw [eb] at pb
      omega
    · rw [if_pos pa, if_neg pb] at h
      exact absurd h (crc32_bit_mixed a b ha hb)
  · by_cases pb : b &&& 1 ≠ 0
    · rw [if_neg pa, if_pos pb] at h
      exact absurd h.symm (crc32_bit_mixed b a hb ha)
    · rw [if_neg pa, if_neg pb] at h
      rw [da, db] at h
      rw [ea] at pa
      rw [eb] at pb
      omega

theorem crc32_bit_iterate_lt (n : Nat) : ∀ c, c < 2 ^ 32 → crc32_bit^[n] c < 2 ^ 32 := by
  induction n with
  | zero => intro c h; exact h
  | succ n ih =>
    intro c h
    rw [Function.iterate_succ_apply]
    exact ih _ (crc32_bit_lt c h)

theorem crc32_bit_iterate_inj (n : Nat) : ∀ a b, a < 2 ^ 32 → b < 2 ^ 32 →
    crc32_bit^[n] a = crc32_bit^[n] b → a = b := by
  induction n with
  | zero => intro a b _ _ h; exact h
  | succ n ih =>
    intro a b ha hb h
    rw [Function.iterate_succ_apply, Function.iterate_succ_apply] at h
    exact crc32_bit_inj a b ha hb (ih _ _ (crc32_bit_lt a ha) (crc32_bit_lt b hb) h)

theorem xor_byte_lt (c : Nat) (x : Byte) (h : c < 2 ^ 32) : c ^^^ x.val < 2 ^ 32 :=
  Nat.xor_lt_two_pow h (lt_trans x.isLt (by decide))

theorem crc32_byte_lt (c : Nat) (x : Byte) (h : c < 2 ^ 32) : crc32_byte c x < 2 ^ 32 :=
  crc32_bit_iterate_lt 8 _ (xor_byte_lt c x h)

theorem crc32_byte_inj_state (a b : Nat) (x : Byte) (ha : a < 2 ^ 32) (hb : b < 2 ^ 32)
    (h : crc32_byte a x = crc32_byte b x) : a = b :=
  Nat.xor_left_inj.mp
    (crc32_bit_iterate_inj 8 _ _ (xor_byte_lt a x ha) (xor_byte_lt b x hb) h)

theorem crc32_byte_inj_byte (c : Nat) (x y : Byte) (hc : c < 2 ^ 32)
    (h : crc32_byte c x = crc32_byte c y) : x = y :=
  Fin.ext (Nat.xor_right_inj.mp
    (crc32_bit_iterate_inj 8 _ _ (xor_byte_lt c x hc) (xor_byte_lt c y hc) h))

theorem crc32_fold_lt : ∀ (l : List Byte) (c : Nat), c < 2 ^ 32 →
    l.foldl crc32_byte c < 2 ^ 32
  | [], _, h => h
  | x :: r, c, h => crc32_fold_lt r _ (crc32_byte_lt c x h)

theorem crc32_fold_inj_state : ∀ (l : List Byte) (a b : Nat), a < 2 ^ 32 → b < 2 ^ 32 →
    l.foldl crc32_byte a = l.foldl crc32_byte b → a = b
  | [], _, _, _, _, h => h
  | x :: r, a, b, ha, hb, h =>
    crc32_byte_inj_state a b x ha hb
      (crc32_fold_inj_state r _ _ (crc32_byte_lt a x ha) (crc32_byte_lt b x hb) h)

theorem crc32_fold_one_byte : ∀ (d d1 : List Byte) (i c : Nat), c < 2 ^ 32 →
    d.length = d1.length →
    d.get? i ≠ d1.get? i → (∀ j, j ≠ i → d.get? j = d1.get? j) →
    d.foldl crc32_byte c ≠ d1.foldl crc32_byte c
  | [], [], _, _, _, _, hi, _ => absurd rfl hi
  | [], _ :: _, _, _, _, hl, _, _ => by simp at hl
  | _ :: _, [], _, _, _, hl, _, _ => by simp at hl
  | x :: r, y :: r1, 0, c, hc, _, hi, hj => by
    have hxy : x ≠ y := by
      intro e
      apply hi
      rw [e]
      rfl
    have hr : r = r1 := by
      apply List.ext_get?
      intro j
      have := hj (j + 1) (by omega)
      simpa using this
    subst hr
    intro h
    exact hxy (crc32_byte_inj_byte c x y hc
      (crc32_fold_inj_state r _ _ (crc32_byte_lt c x hc) (crc32_byte_lt c y hc) h))
  | x :: r, y :: r1, k + 1, c, hc, hl, hi, hj => by
    have hxy : x = y := by
      have := hj 0 (by omega)
      simpa using this
    subst hxy
    exact crc32_fold_one_byte r r1 k _ (crc32_byte_lt c x hc)
      (by simpa using hl)
      (by simpa using hi)
      (fun j hjk => by
        have := hj (j + 1) (by omega)
        simpa using this)

/-- C33: `calculate_crc32` detects every single-byte corruption: two byte
sequences of the same length that differ at exactly one position `i` (in one
bit or in several bits of that byte) have different CRC32 values; hence a
payload with one byte changed never matches the CRC32 of the original. -/
theorem crc32_detects_single_byte_change (d d1 : List Byte) (i : Nat)
    (hlen : d.length = d1.length)
    (hdiff : d.get? i ≠ d1.get? i) (hsame : ∀ j, j ≠ i → d.get? j = d1.get? j) :
    calculate_crc32 d ≠ calculate_crc32 d1 := by
  have h1 := crc32_fold_lt d 0xFFFFFFFF (by decide)
  have h2 := crc32_fold_lt d1 0xFFFFFFFF (by decide)
  have hne := crc32_fold_one_byte d d1 i 0xFFFFFFFF (by decide) hlen hdiff hsame
  unfold calculate_crc32
  have hU : U32_MOD = 2 ^ 32 := rfl
  rw [hU, Nat.mod_eq_of_lt (Nat.xor_lt_two_pow h1 (by decide)),
    Nat.mod_eq_of_lt (Nat.xor_lt_two_pow h2 (by decide))]
  intro h
  exact hne (Nat.xor_left_inj.mp h)

/-- Witness of C33: the payload 1, 2, 3, 4 of the sample image against
1, 2, 3, 5, which differs from it in one bit of the last byte. -/
theorem crc32_detects_single_byte_change_witness :
    ([1, 2, 3, 4] : List Byte).length = ([1, 2, 3, 5] : List Byte).length
      ∧ calculate_crc32 [1, 2, 3, 4] = 0xB63CFBCD
      ∧ calculate_crc32 [1, 2, 3, 4] ≠ calculate_crc32 [1, 2, 3, 5] :=
  ⟨rfl, by decide,
    crc32_detects_single_byte_change [1, 2, 3, 4] [1, 2, 3, 5] 3 rfl (by decide)
      (fun j hj => by
        match j, hj with
        | 0, _ => rfl
        | 1, _ => rfl
        | 2, _ => rfl
        | 3, h => exact absurd rfl h
        | _ + 4, _ => rfl)⟩

/-! ## The built-in firmware images -/

/-- C34 at the failing input: the first four bytes of `simulated_firmware_a`
and of `simulated_firmware_b` are DE AD BE EF, the magic written most
significant byte first, while every other field of the arrays is written least
significant byte first. Decoded at the little-endian field offsets of
`firmware_header_t` (arrays filled up with the 32 zero reserved bytes) both
give versions 1.0.0 and 1.1.0, size 4096 and the non-zero entry points
`0x08004000` and `0x08002000`, but magic `0xEFBEADDE`, not `FIRMWARE_MAGIC`: so
`validate_firmware_header` rejects both. The bytes EF BE AD DE would decode to
`FIRMWARE_MAGIC`. -/
theorem simulated_firmware_magic_reversed :
    simulated_firmware_a.take 4 = [0xDE, 0xAD, 0xBE, 0xEF]
      ∧ simulated_firmware_b.take 4 = [0xDE, 0xAD, 0xBE, 0xEF]
      ∧ (decode_header (flash_of_bytes (simulated_firmware_a ++ List.replicate 32 0)) 0).magic
          = 0xEFBEADDE
      ∧ (decode_header (flash_of_bytes (simulated_firmware_b ++ List.replicate 32 0)) 0).magic
          = 0xEFBEADDE
      ∧ (0xEFBEADDE : Nat) ≠ FIRMWARE_MAGIC
      ∧ le32 0xEF 0xBE 0xAD 0xDE = FIRMWARE_MAGIC
      ∧ version_triple
          (decode_header (flash_of_bytes (simulated_firmware_a ++ List.replicate 32 0)) 0)
          = (1, 0, 0)
      ∧ version_triple
          (decode_header (flash_of_bytes (simulated_firmware_b ++ List.replicate 32 0)) 0)
          = (1, 1, 0)
      ∧ (decode_header (flash_of_bytes (simulated_firmware_a ++ List.replicate 32 0)) 0).size
          = 4096
      ∧ (decode_header (flash_of_bytes (simulated_firmware_b ++ List.replicate 32 0)) 0).size
          = 4096
      ∧ (decode_header
          (flash_of_bytes (simulated_firmware_a ++ List.replicate 32 0)) 0).entry_point
          = 0x08004000
      ∧ (decode_header
          (flash_of_bytes (simulated_firmware_b ++ List.replicate 32 0)) 0).entry_point
          = 0x08002000
      ∧ validate_firmware_header
          (decode_header (flash_of_bytes (simulated_firmware_a ++ List.replicate 32 0)) 0)
          = false
      ∧ validate_firmware_header
          (decode_header (flash_of_bytes (simulated_firmware_b ++ List.replicate 32 0)) 0)
          = false := by
  decide

/-! ## OTA manager: what each operation does to the counters and flags -/

theorem ota_manager_validate_update_at_effect (slot : Nat) (s : System)
    (r : ota_error_t × System) (h : ota_manager_validate_update_at slot s = some r) :
    r.2.total_updates = s.total_updates
      ∧ r.2.ota_ctx.chunk_info = s.ota_ctx.chunk_info
      ∧ r.2.validate_callback = s.validate_callback
      ∧ ((r.1 = OTA_ERROR_NONE ∧ r.2.ota_ctx.state = OTA_STATE_COMPLETE
            ∧ r.2.ota_ctx.restart_required = true
            ∧ r.2.successful_updates = incr32 s.successful_updates
            ∧ r.2.failed_updates = s.failed_updates)
        ∨ (r.1 ≠ OTA_ERROR_NONE ∧ r.2.ota_ctx.state = OTA_STATE_ERROR
            ∧ r.2.ota_ctx.restart_required = s.ota_ctx.restart_required
            ∧ r.2.successful_updates = s.successful_updates
            ∧ r.2.failed_updates = incr32 s.failed_updates)) := by
  unfold ota_manager_validate_update_at at h
  simp only [Option.bind_eq_bind] at h
  cases hh : read_header s.flash_memory slot with
  | none => rw [hh] at h; cases h
  | some hd =>
    rw [hh] at h
    simp only [Option.some_bind] at h
    cases hd2 : flash_read_bytes s.flash_memory (slot + sizeof_firmware_header_t)
          ((hd.size + U32_MOD - sizeof_firmware_header_t) % U32_MOD) with
    | none =>
      rw [hd2] at h
      simp only [Option.none_bind] at h
      split_ifs at h <;>
        (simp only [Option.some.injEq] at h; subst h;
         exact ⟨rfl, rfl, rfl, Or.inr ⟨fun hk => (by cases hk), rfl, rfl, rfl, rfl⟩⟩)
    | some data =>
      rw [hd2] at h
      simp only [Option.some_bind] at h
      split_ifs at h
      all_goals (simp only [Option.some.injEq] at h; subst h)
      all_goals first
        | exact ⟨rfl, rfl, rfl, Or.inr ⟨fun hk => (by cases hk), rfl, rfl, rfl, rfl⟩⟩
        | exact ⟨rfl, rfl, rfl, Or.inl ⟨rfl, rfl, rfl, rfl, rfl⟩⟩

theorem ota_manager_finalize_update_at_effect (slot : Nat) (s : System)
    (r : ota_error_t × System) (h : ota_manager_finalize_update_at slot s = some r) :
    r.2.total_updates = s.total_updates
      ∧ r.2.ota_ctx.chunk_info = s.ota_ctx.chunk_info
      ∧ r.2.validate_callback = s.validate_callback
      ∧ ((r.1 ≠ OTA_ERROR_NONE ∧ r.2 = s)
        ∨ (s.ota_ctx.state = OTA_STATE_RECEIVING_DATA
          ∧ ((r.1 = OTA_ERROR_NONE ∧ r.2.ota_ctx.state = OTA_STATE_COMPLETE
                ∧ r.2.ota_ctx.restart_required = true
                ∧ r.2.successful_updates = incr32 s.successful_updates
                ∧ r.2.failed_updates = s.failed_updates)
            ∨ (r.1 ≠ OTA_ERROR_NONE ∧ r.2.ota_ctx.state = OTA_STATE_ERROR
                ∧ r.2.ota_ctx.restart_required = s.ota_ctx.restart_required
                ∧ r.2.successful_updates = s.successful_updates
                ∧ r.2.failed_updates = incr32 s.failed_updates)))) := by
  by_cases hst : s.ota_ctx.state = OTA_STATE_RECEIVING_DATA
  · by_cases hrx : s.ota_ctx.chunk_info.received_bytes = s.ota_ctx.chunk_info.total_size
    · rw [ota_manager_finalize_update_at_complete slot s hst hrx] at h
      have hv := ota_manager_validate_update_at_effect slot _ r h
      exact ⟨hv.1, hv.2.1, hv.2.2.1, Or.inr ⟨hst, hv.2.2.2⟩⟩
    · rw [ota_manager_finalize_update_at_incomplete slot s hst hrx] at h
      simp only [Option.some.injEq] at h
      subst h
      exact ⟨rfl, rfl, rfl, Or.inl ⟨fun hk => (by cases hk), rfl⟩⟩
  · rw [ota_manager_finalize_update_at_bad_state slot s hst] at h
    simp only [Option.some.injEq] at h
    subst h
    exact ⟨rfl, rfl, rfl, Or.inl ⟨fun hk => (by cases hk), rfl⟩⟩

theorem ota_manager_apply_update_at_effect (slot : Nat) (s s1 : System)
    (h : ota_manager_apply_update_at slot s = some s1) :
    s1.total_updates = s.total_updates
      ∧ s1.successful_updates = s.successful_updates
      ∧ s1.failed_updates = s.failed_updates
      ∧ s1.ota_ctx.chunk_info = s.ota_ctx.chunk_info
      ∧ s1.validate_callback = s.validate_callback
      ∧ (s1 = s
        ∨ (s.ota_ctx.state = OTA_STATE_COMPLETE
          ∧ ((s1.ota_ctx.state = OTA_STATE_UPDATING ∧ s1.ota_ctx.restart_required = true)
            ∨ (s1.ota_ctx.state = OTA_STATE_ERROR
              ∧ s1.ota_ctx.restart_required = s.ota_ctx.restart_required)))) := by
  unfold ota_manager_apply_update_at at h
  by_cases hc : s.ota_ctx.state ≠ OTA_STATE_COMPLETE
  · rw [if_pos hc] at h
    simp only [Option.some.injEq] at h
    subst h
    exact ⟨rfl, rfl, rfl, rfl, rfl, Or.inl rfl⟩
  · rw [if_neg hc] at h
    simp only [Option.bind_eq_bind] at h
    cases hr : bootloader_switch_to_update_at slot s.flash_memory s.bootloader_ctx with
    | none => rw [hr] at h; cases h
    | some r =>
      rw [hr] at h
      simp only [Option.some_bind] at h
      split_ifs at h with hk
      · simp only [Option.some.injEq] at h
        subst h
        exact ⟨rfl, rfl, rfl, rfl, rfl, Or.inr ⟨not_not.mp hc, Or.inr ⟨rfl, rfl⟩⟩⟩
      · simp only [Option.some.injEq] at h
        subst h
        exact ⟨rfl, rfl, rfl, rfl, rfl, Or.inr ⟨not_not.mp hc, Or.inl ⟨rfl, rfl⟩⟩⟩

theorem ota_manager_start_update_at_effect (slot : Nat) (s : System)
    (total_size chunk_size now : Nat) :
    (ota_manager_start_update_at slot s total_size chunk_size now).2.successful_updates
        = s.successful_updates
      ∧ (ota_manager_start_update_at slot s total_size chunk_size now).2.failed_updates
          = s.failed_updates
      ∧ (ota_manager_start_update_at slot s total_size chunk_size now).2.validate_callback
          = s.validate_callback
      ∧ (((ota_manager_start_update_at slot s total_size chunk_size now).1 ≠ OTA_ERROR_NONE
            ∧ (ota_manager_start_update_at slot s total_size chunk_size now).2 = s)
        ∨ (s.ota_ctx.state = OTA_STATE_IDLE
          ∧ chunk_size ≤ 1024
          ∧ total_size ≤ (FLASH_TOTAL_SIZE + U32_MOD - slot) % U32_MOD
          ∧ (ota_manager_start_update_at slot s total_size chunk_size now).2.ota_ctx.chunk_info
              = { total_size := total_size
                  chunk_size := chunk_size
                  total_chunks := ((total_size + chunk_size - 1) % U32_MOD) / chunk_size
                  received_chunks := 0
                  received_bytes := 0
                  next_expected_chunk := 0 }
          ∧ (ota_manager_start_update_at slot s total_size chunk_size
              now).2.ota_ctx.restart_required = false
          ∧ (((ota_manager_start_update_at slot s total_size chunk_size now).1 = OTA_ERROR_NONE
                ∧ (ota_manager_start_update_at slot s total_size chunk_size now).2.total_updates
                    = (s.total_updates + 1) % U32_MOD)
            ∨ ((ota_manager_start_update_at slot s total_size chunk_size now).1
                  = OTA_ERROR_FLASH_ERROR
                ∧ (ota_manager_start_update_at slot s total_size chunk_size
                    now).2.ota_ctx.state = OTA_STATE_ERROR
                ∧ (ota_manager_start_update_at slot s total_size chunk_size now).2.total_updates
                    = s.total_updates)))) := by
  unfold ota_manager_start_update_at
  by_cases h0 : s.ota_ctx.state ≠ OTA_STATE_IDLE
  · rw [if_pos h0]
    exact ⟨rfl, rfl, rfl, Or.inl ⟨fun hk => (by cases hk), rfl⟩⟩
  · rw [if_neg h0]
    by_cases h1 : total_size = 0 ∨ chunk_size = 0 ∨ chunk_size > 1024
    · rw [if_pos h1]
      exact ⟨rfl, rfl, rfl, Or.inl ⟨fun hk => (by cases hk), rfl⟩⟩
    · rw [if_neg h1]
      by_cases h2 : total_size > (FLASH_TOTAL_SIZE + U32_MOD - slot) % U32_MOD
      · rw [if_pos h2]
        exact ⟨rfl, rfl, rfl, Or.inl ⟨fun hk => (by cases hk), rfl⟩⟩
      · rw [if_neg h2]
        have hcs : chunk_size ≤ 1024 := by
          by_contra hk
          exact h1 (Or.inr (Or.inr (Nat.lt_of_not_le hk)))
        dsimp only
        split_ifs
        · exact ⟨rfl, rfl, rfl, Or.inr ⟨not_not.mp h0, hcs, Nat.le_of_not_lt h2, rfl, rfl,
            Or.inr ⟨rfl, rfl, rfl⟩⟩⟩
        · exact ⟨rfl, rfl, rfl, Or.inr ⟨not_not.mp h0, hcs, Nat.le_of_not_lt h2, rfl, rfl,
            Or.inl ⟨rfl, rfl⟩⟩⟩

theorem ota_manager_receive_chunk_at_effect (slot : Nat) (s : System) (n : Nat)
    (data : List Byte) (now : Nat) (r : ota_error_t × System)
    (hr : ota_manager_receive_chunk_at slot s n data now = some r) :
    r.2.total_updates = s.total_updates
      ∧ r.2.successful_updates = s.successful_updates
      ∧ r.2.failed_updates = s.failed_updates
      ∧ r.2.validate_callback = s.validate_callback
      ∧ r.2.ota_ctx.restart_required = s.ota_ctx.restart_required
      ∧ (r.1 ≠ OTA_ERROR_NONE → r.2.ota_ctx.chunk_info = s.ota_ctx.chunk_info) := by
  by_cases hok : r.1 = OTA_ERROR_NONE
  · obtain ⟨_, _, _, _, _, _, _, h2⟩ :=
      ota_manager_receive_chunk_at_accepted slot s n data now r hr hok
    rw [h2]
    exact ⟨rfl, rfl, rfl, rfl, rfl, fun hk => absurd hok hk⟩
  · rcases ota_manager_receive_chunk_at_failed slot s n data now r hr hok with hf | hf
    · rw [hf.2]
      exact ⟨rfl, rfl, rfl, rfl, rfl, fun _ => rfl⟩
    · rw [hf.2.2]
      exact ⟨rfl, rfl, rfl, rfl, rfl, fun _ => rfl⟩

theorem ota_manager_receive_chunk_at_ok_checks (slot : Nat) (s : System) (n : Nat)
    (data : List Byte) (now : Nat) (r : ota_error_t × System)
    (hr : ota_manager_receive_chunk_at slot s n data now = some r)
    (hok : r.1 = OTA_ERROR_NONE) :
    data.length ≠ 0 ∧ data.length ≤ s.ota_ctx.chunk_info.chunk_size
      ∧ (s.ota_ctx.chunk_info.received_bytes + data.length) % U32_MOD
          ≤ s.ota_ctx.chunk_info.total_size := by
  obtain ⟨_, _, c0, c1, c2, _, _, _⟩ :=
    ota_manager_receive_chunk_at_accepted slot s n data now r hr hok
  exact ⟨c0, c1, c2⟩

/-! ## Update statistics -/

/-- C35 as stated fails: `ota_manager_abort_update` called right after
`ota_manager_init`, no session ever started, counts a failed update: the state
reached has `failed_updates = 1` and `total_updates = 0`. -/
theorem abort_counts_failure_without_session :
    ota_session_reachable APP_SLOT_B_ADDRESS
        (ota_manager_abort_update (ota_manager_init sample_system)).2
      ∧ (ota_manager_abort_update (ota_manager_init sample_system)).2.total_updates = 0
      ∧ (ota_manager_abort_update (ota_manager_init sample_system)).2.successful_updates = 0
      ∧ (ota_manager_abort_update (ota_manager_init sample_system)).2.failed_updates = 1
      ∧ ¬ update_statistics_consistent
          (ota_manager_abort_update (ota_manager_init sample_system)).2 :=
  ⟨ota_session_reachable.abort_update _
      (ota_session_reachable.first_init sample_system rfl rfl rfl rfl),
    by decide, by decide, by decide, by decide⟩

/-- C35 (amended): what each OTA operation (its body with any update slot
address `slot`) does to the three 32-bit statistics counters.
`ota_manager_init`, `receive_chunk` and `apply_update` change none.
`start_update` adds one to `total_updates` exactly when it returns success and
changes no other counter; a `start_update` that fails at the erase leaves the
session in `ERROR` and counts nothing. `validate_update`, and `finalize_update`
when it gets to the validation, add one to `successful_updates` on success and
one to `failed_updates` otherwise, and leave `total_updates` alone; a refused
`finalize_update` changes nothing. `abort_update` adds one to `failed_updates`
in every state. The statements on `receive_chunk`, `finalize_update`,
`validate_update` and `apply_update` are about the calls that return; the
function `ota_manager_receive_chunk` itself always returns. -/
theorem update_statistics_effects (slot : Nat) (s : System) :
    ((ota_manager_init s).total_updates = s.total_updates
        ∧ (ota_manager_init s).successful_updates = s.successful_updates
        ∧ (ota_manager_init s).failed_updates = s.failed_updates)
      ∧ (∀ total_size chunk_size now,
          (ota_manager_start_update_at slot s total_size chunk_size now).2.successful_updates
              = s.successful_updates
            ∧ (ota_manager_start_update_at slot s total_size chunk_size now).2.failed_updates
              = s.failed_updates
            ∧ ((ota_manager_start_update_at slot s total_size chunk_size now).1
                  = OTA_ERROR_NONE →
                (ota_manager_start_update_at slot s total_size chunk_size now).2.total_updates
                  = (s.total_updates + 1) % U32_MOD)
            ∧ ((ota_manager_start_update_at slot s total_size chunk_size now).1
                  ≠ OTA_ERROR_NONE →
                (ota_manager_start_update_at slot s total_size chunk_size now).2.total_updates
                  = s.total_updates))
      ∧ (∀ n data now r, ota_manager_receive_chunk_at slot s n data now = some r →
          r.2.total_updates = s.total_updates
            ∧ r.2.successful_updates = s.successful_updates
            ∧ r.2.failed_updates = s.failed_updates)
      ∧ (∀ r, ota_manager_validate_update_at slot s = some r →
          r.2.total_updates = s.total_updates
            ∧ (r.1 = OTA_ERROR_NONE →
                r.2.successful_updates = incr32 s.successful_updates
                  ∧ r.2.failed_updates = s.failed_updates)
            ∧ (r.1 ≠ OTA_ERROR_NONE →
                r.2.successful_updates = s.successful_updates
                  ∧ r.2.failed_updates = incr32 s.failed_updates))
      ∧ (∀ r, ota_manager_finalize_update_at slot s = some r →
          r.2.total_updates = s.total_updates
            ∧ (r.1 = OTA_ERROR_NONE →
                r.2.successful_updates = incr32 s.successful_updates
                  ∧ r.2.failed_updates = s.failed_updates)
            ∧ (r.1 ≠ OTA_ERROR_NONE →
                r.2.successful_updates = s.successful_updates
                  ∧ (r.2.failed_updates = s.failed_updates
                    ∨ r.2.failed_updates = incr32 s.failed_updates)))
      ∧ ((ota_manager_abort_update s).2.total_updates = s.total_updates
          ∧ (ota_manager_abort_update s).2.successful_updates = s.successful_updates
          ∧ (ota_manager_abort_update s).2.failed_updates = incr32 s.failed_updates)
      ∧ (∀ s1, ota_manager_apply_update_at slot s = some s1 →
          s1.total_updates = s.total_updates
            ∧ s1.successful_updates = s.successful_updates
            ∧ s1.failed_updates = s.failed_updates)
      ∧ (∀ n data now, ∃ r, ota_manager_receive_chunk s n data now = some r) := by
  refine ⟨⟨rfl, rfl, rfl⟩, fun ts cs now => ?_, fun n data now r hr => ?_, fun r h => ?_,
    fun r h => ?_, ⟨rfl, rfl, rfl⟩, fun s1 h => ?_,
    fun n data now => ota_manager_receive_chunk_returns s n data now⟩
  · obtain ⟨h1, h2, _, h4⟩ := ota_manager_start_update_at_effect slot s ts cs now
    refine ⟨h1, h2, fun hok => ?_, fun hne => ?_⟩
    · rcases h4 with h4 | h4
      · exact absurd hok h4.1
      · rcases h4.2.2.2.2.2 with h5 | h5
        · exact h5.2
        · rw [h5.1] at hok; cases hok
    · rcases h4 with h4 | h4
      · rw [h4.2]
      · rcases h4.2.2.2.2.2 with h5 | h5
        · exact absurd h5.1 hne
        · exact h5.2.2
  · obtain ⟨h1, h2, h3, _⟩ := ota_manager_receive_chunk_at_effect slot s n data now r hr
    exact ⟨h1, h2, h3⟩
  · obtain ⟨h1, _, _, h4⟩ := ota_manager_validate_update_at_effect slot s r h
    refine ⟨h1, fun hok => ?_, fun hne => ?_⟩
    · rcases h4 with h4 | h4
      · exact ⟨h4.2.2.2.1, h4.2.2.2.2⟩
      · exact absurd hok h4.1
    · rcases h4 with h4 | h4
      · exact absurd h4.1 hne
      · exact ⟨h4.2.2.2.1, h4.2.2.2.2⟩
  · obtain ⟨h1, _, _, h4⟩ := ota_manager_finalize_update_at_effect slot s r h
    refine ⟨h1, fun hok => ?_, fun hne => ?_⟩
    · rcases h4 with h4 | h4
      · exact absurd hok h4.1
      · rcases h4.2 with h5 | h5
        · exact ⟨h5.2.2.2.1, h5.2.2.2.2⟩
        · exact absurd hok h5.1
    · rcases h4 with h4 | h4
      · rw [h4.2]
        exact ⟨rfl, Or.inl rfl⟩
      · rcases h4.2 with h5 | h5
        · exact absurd h5.1 hne
        · exact ⟨h5.2.2.2.1, Or.inr h5.2.2.2.2⟩
  · obtain ⟨h1, h2, h3, _⟩ := ota_manager_apply_update_at_effect slot s s1 h
    exact ⟨h1, h2, h3⟩

/-- Witness of the amended C35: a session of the sample image opened, received
in one chunk and finalized with the update slot at address 0 counts one
started and one successful update. -/
theorem update_statistics_effects_witness :
    (ota_manager_finalize_update_at 0
        { sample_session OTA_STATE_RECEIVING_DATA 84 84 84 1 with
          flash_memory := flash_of_bytes sample_image }).map
        (fun r => (r.1, r.2.successful_updates, r.2.failed_updates))
        = some (OTA_ERROR_NONE, 1, 0)
      ∧ ∀ r, ota_manager_finalize_update_at 0
          { sample_session OTA_STATE_RECEIVING_DATA 84 84 84 1 with
            flash_memory := flash_of_bytes sample_image } = some r →
          r.2.total_updates = 0 :=
  ⟨by decide,
    fun r h => ((update_statistics_effects 0
      { sample_session OTA_STATE_RECEIVING_DATA 84 84 84 1 with
        flash_memory := flash_of_bytes sample_image }).2.2.2.2.1 r h).1⟩

/-! ## The flag behind `ota_manager_is_update_available` -/

/-- C36 as stated fails: on a session in `COMPLETE` with `restart_required`
set (the predicate holds), `ota_manager_abort_update` leaves the session in
`ERROR` with the flag still set, and so does `ota_manager_apply_update` when
the switch is refused: `ota_manager_is_update_available` is then true in state
`ERROR`. -/
theorem update_available_after_failure :
    update_available_sound
        { sample_session OTA_STATE_COMPLETE 4096 1024 4096 4 with
          ota_ctx := { (sample_session OTA_STATE_COMPLETE 4096 1024 4096 4).ota_ctx with
            restart_required := true } }
      ∧ (ota_manager_abort_update
          { sample_session OTA_STATE_COMPLETE 4096 1024 4096 4 with
            ota_ctx := { (sample_session OTA_STATE_COMPLETE 4096 1024 4096 4).ota_ctx with
              restart_required := true } }).2.ota_ctx.state = OTA_STATE_ERROR
      ∧ ota_manager_is_update_available
          (ota_manager_abort_update
            { sample_session OTA_STATE_COMPLETE 4096 1024 4096 4 with
              ota_ctx := { (sample_session OTA_STATE_COMPLETE 4096 1024 4096 4).ota_ctx with
                restart_required := true } }).2 = true
      ∧ ¬ update_available_sound
          (ota_manager_abort_update
            { sample_session OTA_STATE_COMPLETE 4096 1024 4096 4 with
              ota_ctx := { (sample_session OTA_STATE_COMPLETE 4096 1024 4096 4).ota_ctx with
                restart_required := true } }).2
      ∧ (ota_manager_apply_update
          { sample_session OTA_STATE_COMPLETE 4096 1024 4096 4 with
            ota_ctx := { (sample_session OTA_STATE_COMPLETE 4096 1024 4096 4).ota_ctx with
              restart_required := true } }).map
          (fun x => (x.ota_ctx.state, ota_manager_is_update_available x))
          = some (OTA_STATE_ERROR, true) := by
  decide

/-- C36 (amended): the predicate `restart_required` implies `COMPLETE` or
`UPDATING` is preserved by `start_update`, `receive_chunk` and
`finalize_update` (bodies with any update slot address `slot`), and holds after
every successful `validate_update` and after an `apply_update` that ends in
`UPDATING`. It is not preserved in general by `abort_update`, by a failing
`validate_update` or by a failing `apply_update`: these end in `ERROR` and
leave `restart_required` as it was, so the predicate holds afterwards exactly
when the flag was clear before. The statements on `receive_chunk`,
`finalize_update`, `validate_update` and `apply_update` are about the calls
that return; the function `ota_manager_receive_chunk` itself always returns. -/
theorem update_available_flag (slot : Nat) (s : System) (hp : update_available_sound s) :
    (∀ total_size chunk_size now,
        update_available_sound (ota_manager_start_update_at slot s total_size chunk_size now).2)
      ∧ (∀ n data now r, ota_manager_receive_chunk_at slot s n data now = some r →
          update_available_sound r.2)
      ∧ (∀ r, ota_manager_finalize_update_at slot s = some r → update_available_sound r.2)
      ∧ (∀ r, ota_manager_validate_update_at slot s = some r →
          (r.1 = OTA_ERROR_NONE → update_available_sound r.2)
            ∧ (r.1 ≠ OTA_ERROR_NONE →
                r.2.ota_ctx.state = OTA_STATE_ERROR
                  ∧ (update_available_sound r.2 ↔ s.ota_ctx.restart_required = false)))
      ∧ ((ota_manager_abort_update s).2.ota_ctx.state = OTA_STATE_ERROR
          ∧ (update_available_sound (ota_manager_abort_update s).2
              ↔ s.ota_ctx.restart_required = false))
      ∧ (∀ s1, ota_manager_apply_update_at slot s = some s1 →
          s1 = s
            ∨ (s1.ota_ctx.state = OTA_STATE_UPDATING ∧ update_available_sound s1)
            ∨ (s1.ota_ctx.state = OTA_STATE_ERROR
              ∧ (update_available_sound s1 ↔ s.ota_ctx.restart_required = false)))
      ∧ (∀ n data now, ∃ r, ota_manager_receive_chunk s n data now = some r) := by
  have herr : ∀ x : System, x.ota_ctx.state = OTA_STATE_ERROR →
      x.ota_ctx.restart_required = s.ota_ctx.restart_required →
      (update_available_sound x ↔ s.ota_ctx.restart_required = false) := by
    intro x hx hr
    unfold update_available_sound ota_manager_is_update_available
    rw [hx, hr]
    constructor
    · intro h
      cases hb : s.ota_ctx.restart_required with
      | false => rfl
      | true => rcases h hb with h1 | h1 <;> cases h1
    · intro h hb
      rw [h] at hb
      cases hb
  refine ⟨fun ts cs now => ?_, fun n data now r hr => ?_, fun r h => ?_, fun r h => ?_, ?_,
    fun s1 h => ?_, fun n data now => ota_manager_receive_chunk_returns s n data now⟩
  · rcases (ota_manager_start_update_at_effect slot s ts cs now).2.2.2 with h1 | h1
    · rw [h1.2]; exact hp
    · intro hk
      unfold ota_manager_is_update_available at hk
      rw [h1.2.2.2.2.1] at hk
      cases hk
  · have hflag := (ota_manager_receive_chunk_at_effect slot s n data now r hr).2.2.2.2.1
    rcases (ota_manager_receive_chunk_at_result slot s n data now r hr).2 with h1 | h1
    · rw [h1]; exact hp
    · intro hk
      unfold ota_manager_is_update_available at hk
      rw [hflag] at hk
      rcases hp hk with h2 | h2
      · rcases h1.1 with h3 | h3 <;> (rw [h3] at h2; cases h2)
      · rcases h1.1 with h3 | h3 <;> (rw [h3] at h2; cases h2)
  · rcases (ota_manager_finalize_update_at_effect slot s r h).2.2.2 with h1 | h1
    · rw [h1.2]; exact hp
    · rcases h1.2 with h2 | h2
      · exact fun _ => Or.inl h2.2.1
      · intro hk
        unfold ota_manager_is_update_available at hk
        rw [h2.2.2.1] at hk
        rcases hp hk with h3 | h3 <;> (rw [h1.1] at h3; cases h3)
  · rcases (ota_manager_validate_update_at_effect slot s r h).2.2.2 with h1 | h1
    · exact ⟨fun _ _ => Or.inl h1.2.1, fun hne => absurd h1.1 hne⟩
    · exact ⟨fun hok => absurd hok h1.1, fun _ => ⟨h1.2.1, herr r.2 h1.2.1 h1.2.2.1⟩⟩
  · exact ⟨rfl, herr _ rfl rfl⟩
  · rcases (ota_manager_apply_update_at_effect slot s s1 h).2.2.2.2.2 with h1 | h1
    · exact Or.inl h1
    · rcases h1.2 with h2 | h2
      · exact Or.inr (Or.inl ⟨h2.1, fun _ => Or.inr h2.1⟩)
      · exact Or.inr (Or.inr ⟨h2.1, herr s1 h2.1 h2.2⟩)

/-- Witness of the amended C36: aborting a session in `RECEIVING_DATA`, whose
flag is clear, leaves the predicate true. -/
theorem update_available_flag_witness :
    update_available_sound (sample_session OTA_STATE_RECEIVING_DATA 4096 1024 1024 1)
      ∧ update_available_sound
          (ota_manager_abort_update
            (sample_session OTA_STATE_RECEIVING_DATA 4096 1024 1024 1)).2 :=
  ⟨by decide,
    ((update_available_flag 0 (sample_session OTA_STATE_RECEIVING_DATA 4096 1024 1024 1)
      (by decide)).2.2.2.2.1.2).2 rfl⟩

/-! ## `ota_manager_validate_update` has no state check -/

theorem ota_manager_validate_update_at_codes (slot : Nat) (s : System)
    (r : ota_error_t × System) (h : ota_manager_validate_update_at slot s = some r) :
    r.1 = OTA_ERROR_NONE ∨ r.1 = OTA_ERROR_VALIDATION_FAILED ∨ r.1 = OTA_ERROR_CRC_MISMATCH := by
  unfold ota_manager_validate_update_at at h
  simp only [Option.bind_eq_bind] at h
  cases hh : read_header s.flash_memory slot with
  | none => rw [hh] at h; cases h
  | some hd =>
    rw [hh] at h
    simp only [Option.some_bind] at h
    cases hd2 : flash_read_bytes s.flash_memory (slot + sizeof_firmware_header_t)
          ((hd.size + U32_MOD - sizeof_firmware_header_t) % U32_MOD) with
    | none =>
      rw [hd2] at h
      simp only [Option.none_bind] at h
      split_ifs at h <;>
        (simp only [Option.some.injEq] at h; subst h; exact Or.inr (Or.inl rfl))
    | some data =>
      rw [hd2] at h
      simp only [Option.some_bind] at h
      split_ifs at h
      all_goals (simp only [Option.some.injEq] at h; subst h)
      all_goals first
        | exact Or.inl rfl
        | exact Or.inr (Or.inl rfl)
        | exact Or.inr (Or.inr rfl)

theorem ota_manager_validate_update_at_any_state (slot : Nat) (s : System) (st : ota_state_t)
    (e : ota_error_t) :
    ota_manager_validate_update_at slot
        { s with ota_ctx := { s.ota_ctx with state := st, last_error := e } }
      = ota_manager_validate_update_at slot s := by
  unfold ota_manager_validate_update_at
  rfl

/-- C37 at the failing input: `ota_manager_validate_update` never looks at the
session state. Its first statement copies the header out of
`flash_memory[APP_SLOT_B_ADDRESS]`, beyond the `FLASH_TOTAL_SIZE` bytes of the
array, so in every state, `VALIDATING` or not, the call reads outside the array
and has no defined result; in particular no call returns
`OTA_ERROR_INVALID_STATE` with the system unchanged, as the calls made right
after `ota_manager_init` (state `IDLE`) and in state `RECEIVING_DATA` show. -/
theorem validate_update_reads_outside_flash (s : System) :
    FLASH_TOTAL_SIZE < APP_SLOT_B_ADDRESS + sizeof_firmware_header_t
      ∧ read_header s.flash_memory APP_SLOT_B_ADDRESS = none
      ∧ ota_manager_validate_update s = none
      ∧ ota_manager_validate_update s ≠ some (OTA_ERROR_INVALID_STATE, s)
      ∧ (∀ st e, ota_manager_validate_update
            { s with ota_ctx := { s.ota_ctx with state := st, last_error := e } } = none)
      ∧ (ota_manager_init s).ota_ctx.state = OTA_STATE_IDLE
      ∧ ota_manager_validate_update (ota_manager_init s) = none := by
  have hh : read_header s.flash_memory APP_SLOT_B_ADDRESS = none := by
    unfold read_header
    rw [if_neg (by decide)]
  have hn : ∀ x : System, ota_manager_validate_update x = none := by
    intro x
    unfold ota_manager_validate_update
    have h : read_header x.flash_memory APP_SLOT_B_ADDRESS = none := by
      unfold read_header
      rw [if_neg (by decide)]
    rw [h]
    rfl
  refine ⟨by decide, hh, hn s, ?_, fun st e => hn _, rfl, hn _⟩
  rw [hn s]
  exact fun hk => by cases hk

/-- The body of `ota_manager_validate_update` has no state check. On the
function itself no call returns `INVALID_STATE`: the header is copied from
`flash_memory[APP_SLOT_B_ADDRESS]`, outside the array, whatever the state. In
the body with the update slot at address 0 holding the sample image, a call in
state `ERROR` of a session that received nothing (`received_bytes = 0` of 84)
returns success and leaves the state `COMPLETE` with `restart_required` set and
one successful update counted; a call in `IDLE` right after initialisation
returns `VALIDATION_FAILED`, moves the state to `ERROR` and counts a failed
update. -/
theorem validate_update_without_transfer :
    (ota_manager_validate_update (ota_manager_init sample_system)).isNone = true
      ∧ (sample_session OTA_STATE_ERROR 84 84 0 0).ota_ctx.chunk_info.received_bytes = 0
      ∧ (ota_manager_validate_update_at 0
          { sample_session OTA_STATE_ERROR 84 84 0 0 with
            flash_memory := flash_of_bytes sample_image }).map
          (fun r => (r.1, r.2.ota_ctx.state, r.2.ota_ctx.restart_required,
            r.2.successful_updates))
          = some (OTA_ERROR_NONE, OTA_STATE_COMPLETE, true, 1)
      ∧ (ota_manager_init sample_system).ota_ctx.state = OTA_STATE_IDLE
      ∧ (ota_manager_validate_update_at 0
          { ota_manager_init sample_system with
            flash_memory := flash_of_bytes sample_image }).map
          (fun r => (r.1, r.2.ota_ctx.state, r.2.failed_updates))
          = some (OTA_ERROR_VALIDATION_FAILED, OTA_STATE_ERROR, 1) := by
  decide

/-- The body of `ota_manager_validate_update` with any update slot address
`slot` does not look at the session state: the result is the same
whatever the state and `last_error` are before the call. Whenever it returns,
it returns `NONE`, `VALIDATION_FAILED` or `CRC_MISMATCH`, never
`INVALID_STATE`: on `NONE` the state is `COMPLETE`, `restart_required` is set
and `successful_updates` is incremented; otherwise the state is `ERROR` and
`failed_updates` is incremented. With a slot inside the flash `COMPLETE` is so
entered by a direct call, without `finalize_update` and whatever
`received_bytes` is. -/
theorem validate_update_any_state (slot : Nat) (s : System) :
    (∀ st e, ota_manager_validate_update_at slot
          { s with ota_ctx := { s.ota_ctx with state := st, last_error := e } }
        = ota_manager_validate_update_at slot s)
      ∧ (∀ r, ota_manager_validate_update_at slot s = some r →
          r.1 ≠ OTA_ERROR_INVALID_STATE
            ∧ ((r.1 = OTA_ERROR_NONE ∧ r.2.ota_ctx.state = OTA_STATE_COMPLETE
                  ∧ r.2.ota_ctx.restart_required = true
                  ∧ r.2.successful_updates = incr32 s.successful_updates
                  ∧ r.2.failed_updates = s.failed_updates)
              ∨ (r.1 ≠ OTA_ERROR_NONE ∧ r.2.ota_ctx.state = OTA_STATE_ERROR
                  ∧ r.2.ota_ctx.restart_required = s.ota_ctx.restart_required
                  ∧ r.2.successful_updates = s.successful_updates
                  ∧ r.2.failed_updates = incr32 s.failed_updates)))
      ∧ ota_manager_validate_update s
          = ota_manager_validate_update_at APP_SLOT_B_ADDRESS s := by
  refine ⟨fun st e => ota_manager_validate_update_at_any_state slot s st e, fun r h => ⟨?_, ?_⟩,
    rfl⟩
  · rcases ota_manager_validate_update_at_codes slot s r h with h1 | h1 | h1 <;>
      (rw [h1]; exact fun hk => (by cases hk))
  · exact (ota_manager_validate_update_at_effect slot s r h).2.2.2

/-- An instance of `validate_update_any_state`: the sample image in an update
slot at address 0, validated in state `ERROR` of a session that received
nothing. -/
theorem validate_update_any_state_witness :
    (ota_manager_validate_update_at 0
        { sample_session OTA_STATE_ERROR 84 84 0 0 with
          flash_memory := flash_of_bytes sample_image }).map Prod.fst = some OTA_ERROR_NONE
      ∧ ∀ r, ota_manager_validate_update_at 0
          { sample_session OTA_STATE_ERROR 84 84 0 0 with
            flash_memory := flash_of_bytes sample_image } = some r →
          r.1 ≠ OTA_ERROR_INVALID_STATE :=
  ⟨by decide,
    fun r h => ((validate_update_any_state 0
      { sample_session OTA_STATE_ERROR 84 84 0 0 with
        flash_memory := flash_of_bytes sample_image }).2.1 r h).1⟩

/-! ## The chunk counters of a session -/

theorem chunk_counters_after_chunk (bound : Nat) (ci : ota_chunk_info_t) (len : Nat)
    (hb : bound + 1024 < U32_MOD) (h : chunk_counters_bounded bound ci)
    (h0 : len ≠ 0) (h1 : len ≤ ci.chunk_size)
    (h2 : (ci.received_bytes + len) % U32_MOD ≤ ci.total_size) :
    chunk_counters_bounded bound
      { ci with
        received_chunks := (ci.received_chunks + 1) % U32_MOD
        received_bytes := (ci.received_bytes + len) % U32_MOD
        next_expected_chunk := (ci.next_expected_chunk + 1) % U32_MOD } := by
  obtain ⟨a1, a2, a3, a4, a5, a6⟩ := h
  have hU : U32_MOD = 4294967296 := rfl
  rw [hU] at hb h2
  have e1 : (ci.received_bytes + len) % U32_MOD = ci.received_bytes + len := by
    rw [hU]
    omega
  have e1b : ci.received_bytes + len ≤ ci.total_size := by omega
  have e2 : (ci.received_chunks + 1) % U32_MOD = ci.received_chunks + 1 := by
    rw [hU]
    omega
  have e3 : (ci.next_expected_chunk + 1) % U32_MOD = ci.received_chunks + 1 := by
    rw [← a2, e2]
  have e4 : (ci.received_chunks + 1) * ci.chunk_size
      = ci.received_chunks * ci.chunk_size + ci.chunk_size := Nat.succ_mul _ _
  have e5 : ci.received_bytes + len ≤ (ci.received_chunks + 1) * ci.chunk_size := by
    rw [e4]
    omega
  have e6 : ci.received_chunks + 1 ≤ ci.received_bytes + len := by omega
  unfold chunk_counters_bounded
  rw [e1, e2, e3]
  exact ⟨e1b, rfl, e5, e6, a5, a6⟩

/-- The chunk counters of every reachable session are within their bounds. -/
theorem ota_session_reachable_counters (slot : Nat)
    (hslot : (FLASH_TOTAL_SIZE + U32_MOD - slot) % U32_MOD + 1024 < U32_MOD)
    (s : System) (h : ota_session_reachable slot s) :
    chunk_counters_bounded ((FLASH_TOTAL_SIZE + U32_MOD - slot) % U32_MOD)
      s.ota_ctx.chunk_info := by
  induction h with
  | first_init s0 _ _ _ _ =>
    exact ⟨Nat.le_refl _, rfl, Nat.le_refl _, Nat.le_refl _, Nat.zero_le _, Nat.zero_le _⟩
  | ota_init s _ _ =>
    exact ⟨Nat.le_refl _, rfl, Nat.le_refl _, Nat.le_refl _, Nat.zero_le _, Nat.zero_le _⟩
  | set_validate_callback s cb _ ih => exact ih
  | start_update s total_size chunk_size now _ ih =>
    rcases (ota_manager_start_update_at_effect slot s total_size chunk_size now).2.2.2
      with h1 | h1
    · rw [h1.2]; exact ih
    · rw [h1.2.2.2.1]
      exact ⟨Nat.zero_le _, rfl, Nat.zero_le _, Nat.le_refl _, h1.2.1, h1.2.2.1⟩
  | receive_chunk s n data now r _ hr ih =>
    by_cases hok : r.1 = OTA_ERROR_NONE
    · obtain ⟨c0, c1, c2⟩ := ota_manager_receive_chunk_at_ok_checks slot s n data now r hr hok
      rw [(ota_manager_receive_chunk_at_ok slot s n data now r hr hok).2.2.1]
      exact chunk_counters_after_chunk _ _ _ hslot ih c0 c1 c2
    · rw [(ota_manager_receive_chunk_at_effect slot s n data now r hr).2.2.2.2.2 hok]
      exact ih
  | finalize_update s r _ hr ih =>
    rw [(ota_manager_finalize_update_at_effect slot s r hr).2.1]
    exact ih
  | validate_update s r _ hr ih =>
    rw [(ota_manager_validate_update_at_effect slot s r hr).2.1]
    exact ih
  | abort_update s _ ih => exact ih
  | apply_update s s1 _ hr ih =>
    rw [(ota_manager_apply_update_at_effect slot s s1 hr).2.2.2.1]
    exact ih

/-- C38: in every state reachable from `ota_manager_init` through the OTA
operations (their bodies with an update slot address `slot` whose size bound
leaves room for a chunk below `2^32`, as `APP_SLOT_B_ADDRESS` and every slot
inside the flash do), `received_bytes <= total_size`,
`received_chunks = next_expected_chunk` and
`received_bytes <= received_chunks * chunk_size`; consequently for every chunk
size up to `chunk_size` the sum `received_bytes + size` is below `2^32`, so the
32-bit sum of the bounds check of `receive_chunk` does not wrap. -/
theorem session_counters_invariant (slot : Nat)
    (hslot : (FLASH_TOTAL_SIZE + U32_MOD - slot) % U32_MOD + 1024 < U32_MOD)
    (s : System) (h : ota_session_reachable slot s) :
    session_counters_ok s
      ∧ (∀ size, size ≤ s.ota_ctx.chunk_info.chunk_size →
          s.ota_ctx.chunk_info.received_bytes + size < U32_MOD
            ∧ (s.ota_ctx.chunk_info.received_bytes + size) % U32_MOD
                = s.ota_ctx.chunk_info.received_bytes + size) := by
  obtain ⟨a1, a2, a3, _, a5, a6⟩ := ota_session_reachable_counters slot hslot s h
  refine ⟨⟨a1, a2, a3⟩, fun size hs => ?_⟩
  have hlt : s.ota_ctx.chunk_info.received_bytes + size < U32_MOD := by omega
  exact ⟨hlt, Nat.mod_eq_of_lt hlt⟩

/-- The slot address of the program satisfies the condition of C38, and so
does every slot address inside the flash. -/
theorem session_slot_bound :
    (FLASH_TOTAL_SIZE + U32_MOD - APP_SLOT_B_ADDRESS) % U32_MOD + 1024 < U32_MOD
      ∧ ∀ slot, slot ≤ FLASH_TOTAL_SIZE →
          (FLASH_TOTAL_SIZE + U32_MOD - slot) % U32_MOD + 1024 < U32_MOD := by
  refine ⟨by decide, fun slot h => ?_⟩
  have hU : U32_MOD = 4294967296 := rfl
  have hF : FLASH_TOTAL_SIZE = 1048576 := rfl
  rw [hU, hF]
  rw [hF] at h
  omega

/-- Witness of C38: with the update slot at `0x20000`, the state after
`ota_manager_init`, `start_update(8, 4)` and the first 4-byte chunk has
`received_bytes = 4`, `received_chunks = next_expected_chunk = 1`. -/
theorem session_counters_invariant_witness :
    (FLASH_TOTAL_SIZE + U32_MOD - 0x20000) % U32_MOD + 1024 < U32_MOD
      ∧ (ota_manager_receive_chunk_at 0x20000
          (ota_manager_start_update_at 0x20000 (ota_manager_init sample_system) 8 4 0).2
          0 [1, 2, 3, 4] 1).map
          (fun r => (r.2.ota_ctx.chunk_info.received_bytes,
            r.2.ota_ctx.chunk_info.received_chunks,
            r.2.ota_ctx.chunk_info.next_expected_chunk)) = some (4, 1, 1)
      ∧ ∀ r, ota_manager_receive_chunk_at 0x20000
            (ota_manager_start_update_at 0x20000 (ota_manager_init sample_system) 8 4 0).2
            0 [1, 2, 3, 4] 1 = some r →
          session_counters_ok r.2 :=
  ⟨by decide, by decide,
    fun r hr =>
      (session_counters_invariant 0x20000 (by decide) _
        (ota_session_reachable.receive_chunk _ 0 [1, 2, 3, 4] 1 r
          (ota_session_reachable.start_update _ 8 4 0
            (ota_session_reachable.first_init sample_system rfl rfl rfl rfl)) hr)).1⟩

/-! ## The progress of a session -/

/-- C39 at the failing input: the PONG reply of `process_command`,
`protocol_create_packet(CMD_PONG, NULL, 0, ...)` with sequence counter 1, is
the 9 bytes AA 02 00 01 00 00, two CRC bytes, 55: payload length plus 9.
`protocol_parse_packet` returns `false` on them, since it refuses every buffer
shorter than 10 bytes before looking at it; the same packet with a one-byte
payload is accepted. -/
theorem empty_payload_packet_rejected :
    (protocol_create_packet 0x02 [] 256 (some protocol_init)).1.length = 0 + 9
      ∧ (protocol_create_packet 0x02 [] 256 (some protocol_init)).1.take 6
          = [0xAA, 0x02, 0x00, 0x01, 0x00, 0x00]
      ∧ (protocol_create_packet 0x02 [] 256 (some protocol_init)).1.getD 8 0 = 0x55
      ∧ (protocol_parse_packet (protocol_create_packet 0x02 [] 256 (some protocol_init)).1
          empty_packet (some protocol_init)).1 = false
      ∧ (protocol_create_packet 0x02 [] 256 (some protocol_init)).1.length
          < PROTOCOL_HEADER_SIZE + PROTOCOL_CRC_SIZE + 2
      ∧ (protocol_parse_packet (protocol_create_packet 0x02 [7] 256 (some protocol_init)).1
          empty_packet (some protocol_init)).1 = true := by
  decide

theorem byte_pair_value (a b : Byte) :
    ((a.val <<< 8) ||| b.val) % U16_MOD = a.val * 256 + b.val := by
  have ha := a.isLt
  have hb := b.isLt
  have e : (a.val <<< 8) ||| b.val = 2 ^ 8 * a.val + b.val := by
    rw [Nat.shiftLeft_eq, Nat.mul_comm]
    exact (Nat.mul_add_lt_is_or (by omega) _).symm
  have hU : U16_MOD = 65536 := rfl
  rw [e, hU]
  omega

theorem byte_pair_of_u16 (v : Nat) (h : v < 65536) :
    (((toByte (v >>> 8)).val <<< 8) ||| (toByte (v &&& 0xFF)).val) % U16_MOD = v := by
  rw [byte_pair_value]
  have e : v &&& 0xFF = v % 256 := Nat.and_pow_two_sub_one_eq_mod v 8
  simp only [toByte, e, Nat.shiftRight_eq_div_pow]
  omega

theorem crc16_step_lt (crc : Nat) (b : Byte) : crc16_step crc b < 65536 :=
  Nat.mod_lt _ (by decide)

theorem protocol_calculate_crc_lt (data : List Byte) : protocol_calculate_crc data < 65536 := by
  unfold protocol_calculate_crc
  induction data using List.reverseRecOn with
  | nil => decide
  | append_singleton l b _ =>
    rw [List.foldl_append]
    exact crc16_step_lt _ b

theorem packet_body_length (command : Byte) (sequence : Nat) (data : List Byte) :
    (packet_body command sequence data).length = data.length + 5 := by
  simp [packet_body]

/-- What `protocol_parse_packet` does on a framed buffer whose length field
matches a payload of 1 to 256 bytes: everything is decided by the comparison of
the two CRC bytes with the CRC of the bytes between the start byte and them. -/
theorem protocol_parse_packet_framed (c s1 s2 l1 l2 r1 r2 : Byte) (data : List Byte)
    (packet : protocol_packet_t) (handler : Option protocol_handler_t)
    (hlen : l1.val * 256 + l2.val = data.length)
    (h1 : 1 ≤ data.length) (h2 : data.length ≤ 256) :
    protocol_parse_packet
        (toByte PROTOCOL_START_BYTE :: ([c, s1, s2, l1, l2] ++ data)
          ++ [r1, r2, toByte PROTOCOL_END_BYTE]) packet handler
      = if r1.val * 256 + r2.val ≠ protocol_calculate_crc ([c, s1, s2, l1, l2] ++ data) then
          (false,
            { start_byte := toByte PROTOCOL_START_BYTE, command := c
              sequence := s1.val * 256 + s2.val, length := data.length
              data := memcpy_to_flash packet.data 0 data
              crc := r1.val * 256 + r2.val, end_byte := toByte PROTOCOL_END_BYTE },
            count_crc_error handler)
        else
          (true,
            { start_byte := toByte PROTOCOL_START_BYTE, command := c
              sequence := s1.val * 256 + s2.val, length := data.length
              data := memcpy_to_flash packet.data 0 data
              crc := r1.val * 256 + r2.val, end_byte := toByte PROTOCOL_END_BYTE },
            handler.map fun h =>
              { h with
                packets_received := (h.packets_received + 1) % U32_MOD
                bytes_received := (h.bytes_received + (data.length + 9)) % U32_MOD }) := by
  have hU : U16_MOD = 65536 := rfl
  have hbl : (toByte PROTOCOL_START_BYTE :: ([c, s1, s2, l1, l2] ++ data)
      ++ [r1, r2, toByte PROTOCOL_END_BYTE]).length = data.length + 9 := by
    simp only [List.length_cons, List.length_append, List.length_nil]
    omega
  have hshape : toByte PROTOCOL_START_BYTE :: ([c, s1, s2, l1, l2] ++ data)
      ++ [r1, r2, toByte PROTOCOL_END_BYTE]
      = ([toByte PROTOCOL_START_BYTE, c, s1, s2, l1, l2] ++ data)
          ++ [r1, r2, toByte PROTOCOL_END_BYTE] := rfl
  have hpre : ([toByte PROTOCOL_START_BYTE, c, s1, s2, l1, l2] ++ data).length
      = data.length + 6 := by
    simp only [List.length_cons, List.length_append, List.length_nil]
    omega
  have g0 : (toByte PROTOCOL_START_BYTE :: ([c, s1, s2, l1, l2] ++ data)
      ++ [r1, r2, toByte PROTOCOL_END_BYTE]).getD 0 0 = toByte PROTOCOL_START_BYTE := rfl
  have g1 : (toByte PROTOCOL_START_BYTE :: ([c, s1, s2, l1, l2] ++ data)
      ++ [r1, r2, toByte PROTOCOL_END_BYTE]).getD 1 0 = c := rfl
  have g2 : (toByte PROTOCOL_START_BYTE :: ([c, s1, s2, l1, l2] ++ data)
      ++ [r1, r2, toByte PROTOCOL_END_BYTE]).getD 2 0 = s1 := rfl
  have g3 : (toByte PROTOCOL_START_BYTE :: ([c, s1, s2, l1, l2] ++ data)
      ++ [r1, r2, toByte PROTOCOL_END_BYTE]).getD 3 0 = s2 := rfl
  have g4 : (toByte PROTOCOL_START_BYTE :: ([c, s1, s2, l1, l2] ++ data)
      ++ [r1, r2, toByte PROTOCOL_END_BYTE]).getD 4 0 = l1 := rfl
  have g5 : (toByte PROTOCOL_START_BYTE :: ([c, s1, s2, l1, l2] ++ data)
      ++ [r1, r2, toByte PROTOCOL_END_BYTE]).getD 5 0 = l2 := rfl
  have gsuf : ∀ k, (toByte PROTOCOL_START_BYTE :: ([c, s1, s2, l1, l2] ++ data)
      ++ [r1, r2, toByte PROTOCOL_END_BYTE]).getD (data.length + 6 + k) 0
        = [r1, r2, toByte PROTOCOL_END_BYTE].getD k 0 := by
    intro k
    rw [hshape, List.getD_append_right _ _ _ _ (by rw [hpre]; omega), hpre,
      Nat.add_sub_cancel_left]
  have ge : (toByte PROTOCOL_START_BYTE :: ([c, s1, s2, l1, l2] ++ data)
      ++ [r1, r2, toByte PROTOCOL_END_BYTE]).getD (data.length + 9 - 1) 0
        = toByte PROTOCOL_END_BYTE := by
    have : data.length + 9 - 1 = data.length + 6 + 2 := by omega
    rw [this, gsuf 2]
    rfl
  have gr1 : (toByte PROTOCOL_START_BYTE :: ([c, s1, s2, l1, l2] ++ data)
      ++ [r1, r2, toByte PROTOCOL_END_BYTE]).getD (6 + data.length) 0 = r1 := by
    have : 6 + data.length = data.length + 6 + 0 := by omega
    rw [this, gsuf 0]
    rfl
  have gr2 : (toByte PROTOCOL_START_BYTE :: ([c, s1, s2, l1, l2] ++ data)
      ++ [r1, r2, toByte PROTOCOL_END_BYTE]).getD (7 + data.length) 0 = r2 := by
    have : 7 + data.length = data.length + 6 + 1 := by omega
    rw [this, gsuf 1]
    rfl
  have hdrop6 : ((toByte PROTOCOL_START_BYTE :: ([c, s1, s2, l1, l2] ++ data)
      ++ [r1, r2, toByte PROTOCOL_END_BYTE]).drop 6).take data.length = data := by
    show (data ++ [r1, r2, toByte PROTOCOL_END_BYTE]).take data.length = data
    exact List.take_left' rfl
  have hdrop1 : ((toByte PROTOCOL_START_BYTE :: ([c, s1, s2, l1, l2] ++ data)
      ++ [r1, r2, toByte PROTOCOL_END_BYTE]).drop 1).take (5 + data.length)
        = [c, s1, s2, l1, l2] ++ data := by
    show (([c, s1, s2, l1, l2] ++ data) ++ [r1, r2, toByte PROTOCOL_END_BYTE]).take
      (5 + data.length) = _
    apply List.take_left'
    simp only [List.length_cons, List.length_append, List.length_nil]
  have hstart : (toByte PROTOCOL_START_BYTE).val = PROTOCOL_START_BYTE := by decide
  have hend : (toByte PROTOCOL_END_BYTE).val = PROTOCOL_END_BYTE := by decide
  have hseq := byte_pair_value s1 s2
  have hl := byte_pair_value l1 l2
  have hrc := byte_pair_value r1 r2
  rw [hlen] at hl
  have hexp : (PROTOCOL_HEADER_SIZE + data.length + PROTOCOL_CRC_SIZE + 1) % U16_MOD
      = data.length + 9 := by
    rw [hU]
    simp only [PROTOCOL_HEADER_SIZE, PROTOCOL_CRC_SIZE]
    omega
  have h5 : (5 + data.length) % U16_MOD = 5 + data.length := by
    rw [hU]
    omega
  have hmin : ¬ (data.length + 9 < PROTOCOL_HEADER_SIZE + PROTOCOL_CRC_SIZE + 2) := by
    simp only [PROTOCOL_HEADER_SIZE, PROTOCOL_CRC_SIZE]
    omega
  have hcopy : data.length > 0 ∧ data.length ≤ PROTOCOL_MAX_PACKET_SIZE := ⟨h1, h2⟩
  unfold protocol_parse_packet
  simp only [hbl, g0, g1, g2, g3, g4, g5, ge, gr1, gr2, hstart, hend, hseq, hl, hrc, hexp, h5,
    hdrop6, hdrop1, if_neg hmin, if_pos hcopy, ne_eq, not_true_eq_false, if_false]

/-- Round trip for a payload of 1 to 256 bytes: the bytes produced by
`protocol_create_packet` (payload length plus 9 of them) are accepted by
`protocol_parse_packet`, which recovers the command, the sequence number, the
length and the payload; with any single byte of the CRC field changed they are
refused. -/
theorem protocol_round_trip (command : Byte) (data : List Byte) (buffer_size : Nat)
    (h : protocol_handler_t) (packet : protocol_packet_t) (h2 : Option protocol_handler_t)
    (h1 : 1 ≤ data.length) (h256 : data.length ≤ 256)
    (hbuf : data.length + 10 ≤ buffer_size) (hseq : h.sequence_counter < 65536) :
    (protocol_create_packet command data buffer_size (some h)).1.length = data.length + 9
      ∧ (protocol_parse_packet (protocol_create_packet command data buffer_size (some h)).1
          packet h2).1 = true
      ∧ (protocol_parse_packet (protocol_create_packet command data buffer_size (some h)).1
          packet h2).2.1.command = command
      ∧ (protocol_parse_packet (protocol_create_packet command data buffer_size (some h)).1
          packet h2).2.1.sequence = h.sequence_counter
      ∧ (protocol_parse_packet (protocol_create_packet command data buffer_size (some h)).1
          packet h2).2.1.length = data.length
      ∧ flash_slice (protocol_parse_packet
          (protocol_create_packet command data buffer_size (some h)).1 packet h2).2.1.data
          0 data.length = data
      ∧ (∀ b : Byte, b ≠ (protocol_create_packet command data buffer_size (some h)).1.getD
            (data.length + 6) 0 →
          (protocol_parse_packet
            ((protocol_create_packet command data buffer_size (some h)).1.set
              (data.length + 6) b) packet h2).1 = false)
      ∧ (∀ b : Byte, b ≠ (protocol_create_packet command data buffer_size (some h)).1.getD
            (data.length + 7) 0 →
          (protocol_parse_packet
            ((protocol_create_packet command data buffer_size (some h)).1.set
              (data.length + 7) b) packet h2).1 = false) := by
  have hcrc := protocol_calculate_crc_lt (packet_body command h.sequence_counter data)
  have hcreate : (protocol_create_packet command data buffer_size (some h)).1
      = toByte PROTOCOL_START_BYTE :: ([command, toByte (h.sequence_counter >>> 8),
          toByte (h.sequence_counter &&& 0xFF), toByte (data.length >>> 8),
          toByte (data.length &&& 0xFF)] ++ data)
        ++ [toByte (protocol_calculate_crc (packet_body command h.sequence_counter data) >>> 8),
            toByte (protocol_calculate_crc (packet_body command h.sequence_counter data)
              &&& 0xFF),
            toByte PROTOCOL_END_BYTE] := by
    unfold protocol_create_packet
    rw [if_neg (by simp only [PROTOCOL_HEADER_SIZE, PROTOCOL_CRC_SIZE]; omega),
      if_neg (by simp only [PROTOCOL_MAX_PACKET_SIZE]; omega)]
    rfl
  have hU : U16_MOD = 65536 := rfl
  have eseq := byte_pair_of_u16 h.sequence_counter hseq
  have elen := byte_pair_of_u16 data.length (by omega)
  have ecrc := byte_pair_of_u16 _ hcrc
  rw [byte_pair_value] at eseq elen ecrc
  have hparse := fun r1 r2 => protocol_parse_packet_framed command
    (toByte (h.sequence_counter >>> 8)) (toByte (h.sequence_counter &&& 0xFF))
    (toByte (data.length >>> 8)) (toByte (data.length &&& 0xFF)) r1 r2 data packet h2
    elen h1 h256
  have hbody : [command, toByte (h.sequence_counter >>> 8),
      toByte (h.sequence_counter &&& 0xFF), toByte (data.length >>> 8),
      toByte (data.length &&& 0xFF)] ++ data
      = packet_body command h.sequence_counter data := rfl
  have hlen9 : (protocol_create_packet command data buffer_size (some h)).1.length
      = data.length + 9 := by
    rw [hcreate]
    simp only [List.length_cons, List.length_append, List.length_nil]
    omega
  have hgood := hparse
    (toByte (protocol_calculate_crc (packet_body command h.sequence_counter data) >>> 8))
    (toByte (protocol_calculate_crc (packet_body command h.sequence_counter data) &&& 0xFF))
  have ecrc1 : ¬ ((toByte (protocol_calculate_crc
        (packet_body command h.sequence_counter data) >>> 8)).val * 256
      + (toByte (protocol_calculate_crc
        (packet_body command h.sequence_counter data) &&& 0xFF)).val
      ≠ protocol_calculate_crc ([command, toByte (h.sequence_counter >>> 8),
          toByte (h.sequence_counter &&& 0xFF), toByte (data.length >>> 8),
          toByte (data.length &&& 0xFF)] ++ data)) := not_not.mpr ecrc
  rw [if_neg ecrc1, ← hcreate] at hgood
  have hpre : (toByte PROTOCOL_START_BYTE :: ([command, toByte (h.sequence_counter >>> 8),
      toByte (h.sequence_counter &&& 0xFF), toByte (data.length >>> 8),
      toByte (data.length &&& 0xFF)] ++ data)).length = data.length + 6 := by
    simp only [List.length_cons, List.length_append, List.length_nil]
    omega
  refine ⟨hlen9, ?_, ?_, ?_, ?_, ?_, fun b hb => ?_, fun b hb => ?_⟩
  · rw [hgood]
  · rw [hgood]
  · rw [hgood]
    exact eseq
  · rw [hgood]
  · rw [hgood]
    have := flash_slice_memcpy_same packet.data 0 data
    exact this
  · rw [hcreate] at hb ⊢
    rw [List.getD_append_right _ _ _ _ (by rw [hpre]), hpre, Nat.sub_self] at hb
    rw [List.set_append_right _ _ (by rw [hpre]), hpre, Nat.sub_self]
    have hb1 : b ≠ toByte
        (protocol_calculate_crc (packet_body command h.sequence_counter data) >>> 8) := hb
    have hne : b.val * 256
        + (toByte (protocol_calculate_crc (packet_body command h.sequence_counter data)
            &&& 0xFF)).val
        ≠ protocol_calculate_crc (packet_body command h.sequence_counter data) := by
      intro hk
      apply hb1
      apply Fin.ext
      have hlo := (toByte (protocol_calculate_crc
        (packet_body command h.sequence_counter data) &&& 0xFF)).isLt
      have hhi := (toByte (protocol_calculate_crc
        (packet_body command h.sequence_counter data) >>> 8)).isLt
      omega
    have hne1 : b.val * 256
        + (toByte (protocol_calculate_crc (packet_body command h.sequence_counter data)
            &&& 0xFF)).val
        ≠ protocol_calculate_crc ([command, toByte (h.sequence_counter >>> 8),
            toByte (h.sequence_counter &&& 0xFF), toByte (data.length >>> 8),
            toByte (data.length &&& 0xFF)] ++ data) := hne
    have hbad := hparse b (toByte
      (protocol_calculate_crc (packet_body command h.sequence_counter data) &&& 0xFF))
    rw [if_pos hne1] at hbad
    exact (congrArg Prod.fst hbad)
  · rw [hcreate] at hb ⊢
    have h76 : data.length + 7 - (data.length + 6) = 1 := by omega
    rw [List.getD_append_right _ _ _ _ (by rw [hpre]; omega), hpre, h76] at hb
    rw [List.set_append_right _ _ (by rw [hpre]; omega), hpre, h76]
    have hb1 : b ≠ toByte
        (protocol_calculate_crc (packet_body command h.sequence_counter data) &&& 0xFF) := hb
    have hne : (toByte (protocol_calculate_crc
          (packet_body command h.sequence_counter data) >>> 8)).val * 256 + b.val
        ≠ protocol_calculate_crc (packet_body command h.sequence_counter data) := by
      intro hk
      apply hb1
      apply Fin.ext
      have hlo := (toByte (protocol_calculate_crc
        (packet_body command h.sequence_counter data) &&& 0xFF)).isLt
      have hbl := b.isLt
      omega
    have hne1 : (toByte (protocol_calculate_crc
          (packet_body command h.sequence_counter data) >>> 8)).val * 256 + b.val
        ≠ protocol_calculate_crc ([command, toByte (h.sequence_counter >>> 8),
            toByte (h.sequence_counter &&& 0xFF), toByte (data.length >>> 8),
            toByte (data.length &&& 0xFF)] ++ data) := hne
    have hbad := hparse (toByte
      (protocol_calculate_crc (packet_body command h.sequence_counter data) >>> 8)) b
    rw [if_pos hne1] at hbad
    exact (congrArg Prod.fst hbad)

end EmbedRTOS
